import Mathlib

/-!
Verification development for the KidsChores rules engine
(custom_components/kidschores/coordinator.py).

The Python engine is shallowly embedded:每 structure below mirrors the dict
shape the coordinator stores, and each `def` mirrors one coordinator method,
statement by statement.  Points and other float-valued quantities are modelled
as rationals; ISO-formatted date strings are modelled as already-parsed
`Date`/`DateTime` values (a parse failure corresponds to `none`).  Timezone
conversion (`dt_util.as_local`) is modelled as the identity (fixed offset 0);
it is an order-embedding, so every comparison made by the engine is preserved.
Notification dispatch, persistence and config-entry writes are external
fire-and-forget effects with no influence on engine state and are omitted.
-/

namespace KidsChores

/-! ### Calendar model (Python `datetime.date` / `calendar.monthrange`) -/

/-- Gregorian leap-year test, as Python's `calendar.isleap`. -/
def isLeap (y : Nat) : Bool := (y % 4 == 0 && y % 100 != 0) || (y % 400 == 0)

/-- Number of days in a month, as Python's `calendar.monthrange(y, m)[1]`
(0 for an out-of-range month index). -/
def daysInMonth (y m : Nat) : Nat :=
  if m = 1 then 31 else if m = 2 then (if isLeap y then 29 else 28)
  else if m = 3 then 31 else if m = 4 then 30 else if m = 5 then 31
  else if m = 6 then 30 else if m = 7 then 31 else if m = 8 then 31
  else if m = 9 then 30 else if m = 10 then 31 else if m = 11 then 30
  else if m = 12 then 31 else 0

/-- A calendar date in the proleptic Gregorian calendar (as `datetime.date`). -/
structure Date where
  year : Nat
  month : Nat
  day : Nat
deriving DecidableEq, Repr

/-- The validity condition `datetime.date` enforces on construction. -/
def Date.Valid (d : Date) : Prop :=
  1 ≤ d.year ∧ 1 ≤ d.month ∧ d.month ≤ 12 ∧ 1 ≤ d.day ∧
    d.day ≤ daysInMonth d.year d.month

instance : DecidablePred Date.Valid := fun d => by
  unfold Date.Valid; infer_instance

/-- Number of leap years strictly before year `y` (years `1..y-1`). -/
def leapsBefore (y : Nat) : Nat := (y-1)/4 - (y-1)/100 + (y-1)/400

/-- Number of days in all years strictly before year `y`. -/
def daysBeforeYear (y : Nat) : Nat := 365 * (y-1) + leapsBefore y

/-- Number of days in the months of year `y` strictly before month `m`. -/
def daysBeforeMonth (y m : Nat) : Nat :=
  (List.range (m-1)).foldl (fun a k => a + daysInMonth y (k+1)) 0

/-- Day count since `0001-01-01` (the ordinal used by `datetime.date`,
shifted so that `0001-01-01` is day 0). -/
def Date.toDays (d : Date) : Nat :=
  daysBeforeYear d.year + daysBeforeMonth d.year d.month + (d.day - 1)

/-- Weekday as Python's `date.weekday()`: Monday = 0 … Sunday = 6
(`0001-01-01` is a Monday). -/
def Date.weekday (d : Date) : Nat := d.toDays % 7

/-- Successor date, `d + timedelta(days=1)`. -/
def Date.nextDay (d : Date) : Date :=
  if d.day < daysInMonth d.year d.month then ⟨d.year, d.month, d.day + 1⟩
  else if d.month < 12 then ⟨d.year, d.month + 1, 1⟩
  else ⟨d.year + 1, 1, 1⟩

/-- Date shifted forward by `n` days, `d + timedelta(days=n)`. -/
def Date.addDays (d : Date) : Nat → Date
  | 0 => d
  | n+1 => (d.addDays n).nextDay

/-- Python's `d - timedelta(days=1)`, used only in equality comparisons of the
streak logic, modelled through `toDays`: `a = b - timedelta(days=1)` is
embedded as `isYesterdayOf a b`. -/
def isYesterdayOf (a b : Date) : Bool := a.toDays + 1 == b.toDays

lemma daysBeforeMonth_succ (y m : Nat) :
    daysBeforeMonth y (m+1) = daysBeforeMonth y m + daysInMonth y m := by
  cases m with
  | zero => simp [daysBeforeMonth, daysInMonth]
  | succ k =>
      unfold daysBeforeMonth
      simp [List.range_succ]

lemma daysInMonth_pos (y m : Nat) (h1 : 1 ≤ m) (h2 : m ≤ 12) :
    1 ≤ daysInMonth y m := by
  unfold daysInMonth
  cases h : isLeap y <;> interval_cases m <;> simp [h]

lemma daysBeforeMonth_year (y : Nat) :
    daysBeforeMonth y 13 = 365 + (if isLeap y then 1 else 0) := by
  have hr : List.range 12 = [0,1,2,3,4,5,6,7,8,9,10,11] := by rfl
  unfold daysBeforeMonth
  rw [show (13 : Nat) - 1 = 12 from rfl, hr]
  cases h : isLeap y <;> simp [daysInMonth, h, List.foldl]

lemma leapsBefore_succ (y : Nat) (hy : 1 ≤ y) :
    leapsBefore (y+1) = leapsBefore y + (if isLeap y then 1 else 0) := by
  unfold leapsBefore isLeap
  simp only [Nat.add_sub_cancel]
  rcases Nat.exists_eq_add_of_le hy with ⟨k, rfl⟩
  split <;> rename_i h <;> simp only [Bool.or_eq_true, Bool.and_eq_true,
    beq_iff_eq, bne_iff_ne, ne_eq] at h <;> omega

lemma daysBeforeYear_succ (y : Nat) (hy : 1 ≤ y) :
    daysBeforeYear (y+1) = daysBeforeYear y + 365 + (if isLeap y then 1 else 0) := by
  unfold daysBeforeYear
  rw [leapsBefore_succ y hy]
  have : (y + 1 - 1) = (y - 1) + 1 := by omega
  rw [this]
  ring

lemma toDays_nextDay (d : Date) (h : d.Valid) :
    d.nextDay.toDays = d.toDays + 1 ∧ d.nextDay.Valid := by
  obtain ⟨hy, hm1, hm2, hd1, hd2⟩ := h
  unfold Date.nextDay
  split
  · rename_i hlt
    constructor
    · show daysBeforeYear d.year + daysBeforeMonth d.year d.month + (d.day + 1 - 1)
        = d.toDays + 1
      simp only [Date.toDays]
      omega
    · exact ⟨hy, hm1, hm2, by show 1 ≤ d.day + 1; omega,
        by show d.day + 1 ≤ daysInMonth d.year d.month; omega⟩
  · rename_i hge
    have hday : d.day = daysInMonth d.year d.month := by omega
    split
    · rename_i hmlt
      constructor
      · show daysBeforeYear d.year + daysBeforeMonth d.year (d.month + 1) + (1 - 1)
          = d.toDays + 1
        simp only [Date.toDays, daysBeforeMonth_succ]
        omega
      · refine ⟨hy, by show 1 ≤ d.month + 1; omega, by show d.month + 1 ≤ 12; omega,
          le_refl 1, ?_⟩
        show 1 ≤ daysInMonth d.year (d.month + 1)
        exact daysInMonth_pos d.year (d.month+1) (by omega) (by omega)
    · rename_i hm12
      have hm : d.month = 12 := by omega
      have h13 := daysBeforeMonth_succ d.year 12
      rw [daysBeforeMonth_year d.year] at h13
      have h31 : daysInMonth d.year 12 = 31 := by simp [daysInMonth]
      constructor
      · show daysBeforeYear (d.year + 1) + daysBeforeMonth (d.year + 1) 1 + (1 - 1)
          = d.toDays + 1
        simp only [Date.toDays, daysBeforeYear_succ d.year hy]
        rw [hm] at hday hd2 ⊢
        rw [h31] at hday
        have hb : daysBeforeMonth (d.year + 1) 1 = 0 := by
          simp [daysBeforeMonth]
        rw [hb]
        omega
      · refine ⟨by show 1 ≤ d.year + 1; omega, le_refl 1, by show (1:Nat) ≤ 12; omega,
          le_refl 1, ?_⟩
        show 1 ≤ daysInMonth (d.year + 1) 1
        simp [daysInMonth]

lemma toDays_addDays (d : Date) (h : d.Valid) (n : Nat) :
    (d.addDays n).toDays = d.toDays + n ∧ (d.addDays n).Valid := by
  induction n with
  | zero => exact ⟨rfl, h⟩
  | succ k ih =>
      obtain ⟨ht, hv⟩ := ih
      obtain ⟨ht2, hv2⟩ := toDays_nextDay _ hv
      exact ⟨by simp only [Date.addDays, ht2, ht]; omega, hv2⟩

/-- Month-start day ordinal, indexed by the flat month index
`12*(year-1) + (month-1)`. -/
def monthStartIdx (i : Nat) : Nat :=
  daysBeforeYear (i / 12 + 1) + daysBeforeMonth (i / 12 + 1) (i % 12 + 1)

lemma monthStartIdx_succ (i : Nat) :
    monthStartIdx (i+1) = monthStartIdx i + daysInMonth (i / 12 + 1) (i % 12 + 1) := by
  unfold monthStartIdx
  rcases Nat.lt_or_ge (i % 12) 11 with hlt | hge
  · have h1 : (i+1) / 12 = i / 12 := by omega
    have h2 : (i+1) % 12 = i % 12 + 1 := by omega
    rw [h1, h2]
    have := daysBeforeMonth_succ (i / 12 + 1) (i % 12 + 1)
    omega
  · have h11 : i % 12 = 11 := by omega
    have h1 : (i+1) / 12 = i / 12 + 1 := by omega
    have h2 : (i+1) % 12 = 0 := by omega
    rw [h1, h2, h11]
    have h13 := daysBeforeMonth_succ (i / 12 + 1) 12
    rw [daysBeforeMonth_year (i / 12 + 1)] at h13
    have hys := daysBeforeYear_succ (i / 12 + 1) (by omega)
    have hb2 : daysBeforeMonth (i / 12 + 1 + 1) 1 = 0 := by simp [daysBeforeMonth]
    simp only [show (11:Nat)+1 = 12 from rfl]
    rw [hb2]
    cases hl : isLeap (i / 12 + 1) <;> simp [hl] at h13 hys <;> omega

lemma monthStartIdx_mono (i j : Nat) (h : i < j) :
    monthStartIdx i + 28 ≤ monthStartIdx j := by
  induction j with
  | zero => omega
  | succ k ih =>
      rw [monthStartIdx_succ]
      have hdim : 28 ≤ daysInMonth (k / 12 + 1) (k % 12 + 1) := by
        have h7 : k % 12 < 12 := Nat.mod_lt _ (by omega)
        unfold daysInMonth
        cases hl : isLeap (k / 12 + 1) <;> interval_cases hm : (k % 12) <;> simp [hl]
      rcases Nat.lt_or_ge i k with hik | hik
      · have := ih hik; omega
      · have : i = k := by omega
        subst this; omega

lemma toDays_eq_monthStartIdx (d : Date) (h : d.Valid) :
    d.toDays = monthStartIdx (12 * (d.year - 1) + (d.month - 1)) + (d.day - 1) := by
  obtain ⟨hy, hm1, hm2, _, _⟩ := h
  unfold Date.toDays monthStartIdx
  have h1 : (12 * (d.year - 1) + (d.month - 1)) / 12 = d.year - 1 := by omega
  have h2 : (12 * (d.year - 1) + (d.month - 1)) % 12 = d.month - 1 := by omega
  rw [h1, h2]
  have h3 : d.year - 1 + 1 = d.year := by omega
  have h4 : d.month - 1 + 1 = d.month := by omega
  rw [h3, h4]

/-- Python helper `KidsChoresDataCoordinator._add_months`: add `months` months
to a date, clamping the day of month to the length of the target month. -/
def add_months (d : Date) (months : Nat) : Date :=
  ⟨d.year + (d.month + months - 1) / 12,
   (d.month + months - 1) % 12 + 1,
   if d.day > daysInMonth (d.year + (d.month + months - 1) / 12)
       ((d.month + months - 1) % 12 + 1)
   then daysInMonth (d.year + (d.month + months - 1) / 12)
       ((d.month + months - 1) % 12 + 1)
   else d.day⟩

lemma add_months_year (d : Date) (months : Nat) :
    (add_months d months).year = d.year + (d.month + months - 1) / 12 := rfl

lemma add_months_month (d : Date) (months : Nat) :
    (add_months d months).month = (d.month + months - 1) % 12 + 1 := rfl

lemma add_months_day (d : Date) (months : Nat) :
    (add_months d months).day =
      if d.day > daysInMonth (add_months d months).year (add_months d months).month
      then daysInMonth (add_months d months).year (add_months d months).month
      else d.day := rfl

lemma add_months_valid (d : Date) (h : d.Valid) (months : Nat) :
    (add_months d months).Valid := by
  obtain ⟨hy, hm1, hm2, hd1, hd2⟩ := h
  have hpos : 1 ≤ daysInMonth (add_months d months).year (add_months d months).month := by
    apply daysInMonth_pos
    · rw [add_months_month]; omega
    · rw [add_months_month]; omega
  refine ⟨?_, ?_, ?_, ?_, ?_⟩
  · rw [add_months_year]; omega
  · rw [add_months_month]; omega
  · rw [add_months_month]; omega
  · rw [add_months_day]; split <;> omega
  · rw [add_months_day]; split <;> omega

lemma add_months_toDays_lt (d : Date) (h : d.Valid) (months : Nat)
    (hm : 1 ≤ months) : d.toDays < (add_months d months).toDays := by
  obtain ⟨hy, hm1, hm2, hd1, hd2⟩ := h
  have hv' := add_months_valid d ⟨hy, hm1, hm2, hd1, hd2⟩ months
  rw [toDays_eq_monthStartIdx d ⟨hy, hm1, hm2, hd1, hd2⟩,
    toDays_eq_monthStartIdx _ hv']
  set i := 12 * (d.year - 1) + (d.month - 1) with hi
  have hidx : 12 * ((add_months d months).year - 1) + ((add_months d months).month - 1)
      = i + months := by
    rw [add_months_year, add_months_month]
    omega
  rw [hidx]
  -- the day offset inside the source month is strictly below the month length,
  -- and the next month index starts exactly that many days later
  have hstep := monthStartIdx_succ i
  have hdim : daysInMonth (i / 12 + 1) (i % 12 + 1) = daysInMonth d.year d.month := by
    have h1 : i / 12 = d.year - 1 := by omega
    have h2 : i % 12 = d.month - 1 := by omega
    rw [h1, h2]
    have h3 : d.year - 1 + 1 = d.year := by omega
    have h4 : d.month - 1 + 1 = d.month := by omega
    rw [h3, h4]
  rcases Nat.eq_or_lt_of_le hm with h1 | h1
  · rw [← h1]
    omega
  · have := monthStartIdx_mono (i+1) (i + months) (by omega)
    omega

/-! ### Datetime model (Python `datetime.datetime`, minute resolution) -/

/-- A timezone-naive timestamp at minute resolution (Python `datetime`).
`minute` is the minute of the day, `0 ≤ minute < 1440` for valid values. -/
structure DateTime where
  date : Date
  minute : Nat
deriving DecidableEq, Repr

def DateTime.Valid (t : DateTime) : Prop := t.date.Valid ∧ t.minute < 1440

instance : DecidablePred DateTime.Valid := fun t => by
  unfold DateTime.Valid; infer_instance

/-- Total minute count; Python datetime comparison is comparison of these. -/
def DateTime.toMin (t : DateTime) : Nat := t.date.toDays * 1440 + t.minute

/-- Python `a <= b` on datetimes. -/
def dtLe (a b : DateTime) : Bool := a.toMin ≤ b.toMin

/-- Python `a < b` on datetimes. -/
def dtLt (a b : DateTime) : Bool := a.toMin < b.toMin

/-- Python `t + timedelta(days=n)`. -/
def DateTime.addDays (t : DateTime) (n : Nat) : DateTime := ⟨t.date.addDays n, t.minute⟩

/-- Python `_add_months` applied to a datetime (the time of day is preserved
by `datetime.replace`). -/
def DateTime.addMonths (t : DateTime) (months : Nat) : DateTime :=
  ⟨add_months t.date months, t.minute⟩

/-- Epoch-based reconstruction of a date from its day ordinal. -/
def dateFromDays (n : Nat) : Date := Date.addDays ⟨1, 1, 1⟩ n

/-- Reconstruction of a datetime from a total minute count. -/
def dtFromMin (n : Nat) : DateTime := ⟨dateFromDays (n / 1440), n % 1440⟩

/-- Python datetime + an integer number of minutes (used for window
arithmetic such as `end_date + (end_date - start_date)`); clamps below the
epoch, which Python would instead report as an overflow error. -/
def DateTime.addMinInt (t : DateTime) (i : Int) : DateTime :=
  dtFromMin ((t.toMin : Int) + i).toNat

/-- Python `(b - a).days` (floor division of the minute difference). -/
def dtDiffDays (a b : DateTime) : Int :=
  ((b.toMin : Int) - (a.toMin : Int)) / 1440

lemma dtLe_toDays {a b : DateTime} (hb : b.minute < 1440) (h : dtLe a b = true) :
    a.date.toDays ≤ b.date.toDays := by
  simp only [dtLe, decide_eq_true_eq, DateTime.toMin] at h
  by_contra hc
  push_neg at hc
  have : b.date.toDays + 1 ≤ a.date.toDays := hc
  nlinarith

lemma dtLe_of_toDays_lt {a b : DateTime} (ha : a.minute < 1440)
    (h : a.date.toDays < b.date.toDays) : dtLe b a = false := by
  simp only [dtLe, decide_eq_false_iff_not, DateTime.toMin]
  push_neg
  have : a.date.toDays + 1 ≤ b.date.toDays := h
  nlinarith

/-! ### Dictionaries (Python `dict`, insertion-ordered) -/

/-- Insertion-ordered association list standing in for a Python `dict`. -/
def AList (κ α : Type) : Type := List (κ × α)

instance {κ α : Type} [DecidableEq κ] [DecidableEq α] : DecidableEq (AList κ α) :=
  inferInstanceAs (DecidableEq (List (κ × α)))

instance {κ α : Type} [Repr κ] [Repr α] : Repr (AList κ α) :=
  inferInstanceAs (Repr (List (κ × α)))

instance {κ α : Type} : Inhabited (AList κ α) := ⟨([] : List (κ × α))⟩

namespace AList

variable {κ α : Type} [DecidableEq κ]

/-- Python `d.get(k)` / `d[k]`. -/
def find? : AList κ α → κ → Option α
  | [], _ => none
  | e :: t, k => if e.1 = k then some e.2 else find? t k

/-- Python `k in d`. -/
def contains (d : AList κ α) (k : κ) : Bool := (d.find? k).isSome

/-- Python `d[k] = v`: replace in place if the key exists, else append. -/
def set : AList κ α → κ → α → AList κ α
  | [], k, v => [(k, v)]
  | e :: t, k, v => if e.1 = k then (k, v) :: t else e :: set t k v

/-- Update the value at an existing key in place (no-op when absent);
Python `d[k].field = ...` / `d[k] += ...` on a key known to exist. -/
def modify : AList κ α → κ → (α → α) → AList κ α
  | [], _, _ => []
  | e :: t, k, f => if e.1 = k then (e.1, f e.2) :: t else e :: modify t k f

/-- Python `d.setdefault(k, v)` (returning the updated dict). -/
def setdefault (d : AList κ α) (k : κ) (v : α) : AList κ α :=
  if d.contains k then d else List.concat d (k, v)

/-- Python `d.pop(k, None)` / `del d[k]`. -/
def erase : AList κ α → κ → AList κ α
  | [], _ => []
  | e :: t, k => if e.1 = k then t else e :: erase t k

/-- Python `list(d.keys())`. -/
def keys (d : AList κ α) : List κ := d.map (fun e => e.1)

/-- Python `d.get(k, v)`. -/
def getD (d : AList κ α) (k : κ) (v : α) : α := (d.find? k).getD v

lemma find?_modify (d : AList κ α) (k : κ) (f : α → α) (i : κ) :
    find? (modify d k f) i =
      if i = k then (find? d i).map f else find? d i := by
  induction d with
  | nil => by_cases h : i = k <;> simp [find?, modify, h]
  | cons e t ih =>
      by_cases h1 : e.1 = k
      · by_cases h2 : e.1 = i
        · simp [modify, find?, h1, h2, h1 ▸ h2.symm]
        · have h3 : ¬ i = k := fun hik => h2 (h1.trans hik.symm)
          have h4 : ¬ k = i := fun hik => h2 (h1 ▸ hik)
          simp [modify, find?, h1, h2, h3, h4]
      · by_cases h2 : e.1 = i
        · have h3 : ¬ i = k := fun hik => h1 (h2.trans hik)
          simp [modify, find?, h1, h2, h3]
        · simp [modify, find?, h1, h2, ih]

lemma find?_set (d : AList κ α) (k : κ) (v : α) (i : κ) :
    find? (set d k v) i = if i = k then some v else find? d i := by
  induction d with
  | nil => by_cases h : i = k <;> simp [find?, set, h, Ne.symm]
  | cons e t ih =>
      by_cases h1 : e.1 = k
      · by_cases h2 : i = k
        · simp [set, find?, h1, h2]
        · have h3 : ¬ e.1 = i := fun hik => h2 (hik.symm.trans h1)
          simp [set, find?, h1, h2, h3, Ne.symm]
      · by_cases h2 : e.1 = i
        · have h3 : ¬ i = k := fun hik => h1 (h2.trans hik)
          simp [set, find?, h1, h2, h3]
        · simp [set, find?, h1, h2, ih]

lemma find?_concat (d : AList κ α) (k : κ) (v : α) (i : κ) :
    find? (List.concat d (k, v)) i =
      ((find? d i).orElse (fun _ => if i = k then some v else none)) := by
  induction d with
  | nil => by_cases h : i = k <;> simp [find?, List.concat, h, Ne.symm]
  | cons e t ih =>
      rw [List.concat_eq_append] at ih
      by_cases h2 : e.1 = i <;> simp [find?, List.concat_eq_append, h2, ih]

lemma find?_setdefault (d : AList κ α) (k : κ) (v : α) (i : κ) :
    find? (setdefault d k v) i =
      if i = k then some ((find? d k).getD v) else find? d i := by
  unfold setdefault contains
  cases hf : find? d k with
  | some a =>
      simp only [hf, Option.isSome_some, if_true, Option.getD_some]
      by_cases h : i = k
      · subst h; simp [hf]
      · simp [h]
  | none =>
      simp only [hf, Option.isSome_none, Bool.false_eq_true, if_false, Option.getD_none]
      rw [find?_concat]
      by_cases h : i = k
      · subst h; simp [hf]
      · cases hfi : find? d i <;> simp [h]

end AList

/-! ### String constants (const.py) -/

def FREQUENCY_NONE : String := "none"
def FREQUENCY_DAILY : String := "daily"
def FREQUENCY_WEEKLY : String := "weekly"
def FREQUENCY_BIWEEKLY : String := "biweekly"
def FREQUENCY_MONTHLY : String := "monthly"
def FREQUENCY_CUSTOM : String := "custom"
def CONF_DAYS : String := "days"
def CONF_WEEKS : String := "weeks"
def CONF_MONTHS : String := "months"
def CONF_WEEKLY : String := "weekly"
def CONF_MONTHLY : String := "monthly"
def CONF_CUSTOM : String := "custom"
def BADGE_TYPE_CUMULATIVE : String := "cumulative"
def BADGE_TYPE_DAILY : String := "daily"
def BADGE_TYPE_PERIODIC : String := "periodic"
def BADGE_TYPE_ACHIEVEMENT_LINKED : String := "achievement_linked"
def BADGE_TYPE_CHALLENGE_LINKED : String := "challenge_linked"
def BADGE_TYPE_SPECIAL_OCCASION : String := "special_occasions"
def BADGE_THRESHOLD_TYPE_POINTS : String := "points"
def BADGE_THRESHOLD_TYPE_CHORE_COUNT : String := "chore_count"
def DATA_BADGE_AWARD_POINTS : String := "award_points"
def DATA_BADGE_AWARD_REWARD : String := "award_reward"
def DATA_BADGE_AWARD_POINTS_REWARD : String := "award_points_reward"
def DEFAULT_BADGE_AWARD_MODE : String := "points"
def ACHIEVEMENT_TYPE_STREAK : String := "chore_streak"
def ACHIEVEMENT_TYPE_TOTAL : String := "chore_total"
def ACHIEVEMENT_TYPE_DAILY_MIN : String := "daily_minimum"
def CHALLENGE_TYPE_DAILY_MIN : String := "daily_minimum"
def CHALLENGE_TYPE_TOTAL_WITHIN_WINDOW : String := "total_within_window"
def DEFAULT_KID_POINTS_MULTIPLIER : ℚ := 1
def DEFAULT_POINTS : ℚ := 5
def DEFAULT_BADGE_DAILY_THRESHOLD : ℚ := 5
def DEFAULT_BADGE_THRESHOLD_VALUE : ℚ := 50

/-! ### Data model (the dict shapes stored in `coordinator._data`) -/

/-- The chore state strings of const.py (`CHORE_STATE_*`). -/
inductive ChoreState where
  | pending | claimed | approved | overdue
  | approvedInPart | claimedInPart | independent | unknown
deriving DecidableEq, Repr

/-- One entry of a kid's `chore_streaks` map. -/
structure StreakRec where
  current_streak : Nat
  max_streak : Nat
  last_streak_date : Option Date
deriving DecidableEq, Repr

/-- Per-kid progress record of an achievement (all keys any branch may
create; a key a branch does not create reads as its default). `baseline`
is an `Option` because the code tests its key for presence. -/
structure AchProgress where
  current_streak : Nat := 0
  last_streak_date : Option Date := none
  awarded : Bool := false
  baseline : Option Nat := none
  current_value : Nat := 0
  last_awarded_date : Option Date := none
deriving DecidableEq, Repr

/-- Per-kid progress record of a challenge. -/
structure ChalProgress where
  count : Nat := 0
  awarded : Bool := false
  daily_counts : AList Date Nat := []
deriving DecidableEq, Repr

/-- A kid record (`coordinator._create_kid`). -/
structure Kid where
  name : String := ""
  points : ℚ := 0
  badges : List String := []
  claimed_chores : List String := []
  approved_chores : List String := []
  completed_chores_today : Nat := 0
  completed_chores_weekly : Nat := 0
  completed_chores_monthly : Nat := 0
  completed_chores_total : Nat := 0
  points_multiplier : ℚ := DEFAULT_KID_POINTS_MULTIPLIER
  reward_claims : AList String Nat := []
  reward_approvals : AList String Nat := []
  chore_claims : AList String Nat := []
  chore_approvals : AList String Nat := []
  penalty_applies : AList String Nat := []
  bonus_applies : AList String Nat := []
  pending_rewards : List String := []
  redeemed_rewards : List String := []
  points_earned_today : ℚ := 0
  points_earned_weekly : ℚ := 0
  points_earned_monthly : ℚ := 0
  max_points_ever : ℚ := 0
  chore_streaks : AList String StreakRec := []
  overall_chore_streak : Nat := 0
  last_chore_date : Option Date := none
  overdue_chores : List String := []
  overdue_notifications : AList String DateTime := []
  today_chore_approvals : AList String Nat := []
  cumulative_earned_points : ℚ := 0
  cumulative_badge_baseline : Option ℚ := none
  pre_reset_badge : Option String := none
  periodic_badge_success : AList String Nat := []
  periodic_badge_points : AList String ℚ := []
  special_occasion_last_awarded : AList String Date := []
deriving DecidableEq, Repr

/-- A chore record (`coordinator._create_chore`). -/
structure Chore where
  internal_id : String := ""
  default_points : ℚ := DEFAULT_POINTS
  allow_multiple_claims_per_day : Bool := false
  assigned_kids : List String := []
  shared_chore : Bool := false
  state : ChoreState := ChoreState.pending
  due_date : Option DateTime := none
  last_claimed : Option DateTime := none
  last_completed : Option DateTime := none
  applicable_days : List (Fin 7) := []
  recurring_frequency : String := FREQUENCY_NONE
  custom_interval : Option Nat := none
  custom_interval_unit : Option String := none
deriving DecidableEq, Repr

/-- A badge record (`coordinator._create_badge`). -/
structure Badge where
  internal_id : String := ""
  name : String := ""
  badge_type : String := BADGE_TYPE_CUMULATIVE
  threshold_value : ℚ := DEFAULT_BADGE_THRESHOLD_VALUE
  threshold_type : String := BADGE_THRESHOLD_TYPE_POINTS
  daily_threshold : ℚ := DEFAULT_BADGE_DAILY_THRESHOLD
  maintenance_rules : ℚ := 0
  points_multiplier : ℚ := DEFAULT_KID_POINTS_MULTIPLIER
  reset_periodically : Bool := false
  reset_schedule : String := CONF_WEEKLY
  award_mode : String := DEFAULT_BADGE_AWARD_MODE
  award_points : ℚ := 0
  award_reward : String := ""
  assigned_kids : List String := []
  earned_by : List String := []
  required_chores : List String := []
  start_date : Option DateTime := none
  end_date : Option DateTime := none
  periodic_recurrent : Bool := false
  associated_achievement : Option String := none
  associated_challenge : Option String := none
  special_occasion_date : Option Date := none
  special_occasion_recurrency : Bool := false
deriving DecidableEq, Repr

/-- A reward record. -/
structure Reward where
  name : String := ""
  cost : ℚ := 0
deriving DecidableEq, Repr

/-- An achievement record. -/
structure Achievement where
  achievement_type : String := ACHIEVEMENT_TYPE_STREAK
  selected_chore_id : Option String := none
  target_value : Nat := 1
  reward_points : ℚ := 0
  progress : AList String AchProgress := []
deriving DecidableEq, Repr

/-- A challenge record. -/
structure Challenge where
  challenge_type : String := CHALLENGE_TYPE_TOTAL_WITHIN_WINDOW
  selected_chore_id : Option String := none
  target_value : Nat := 1
  reward_points : ℚ := 0
  start_date : Option DateTime := none
  end_date : Option DateTime := none
  assigned_kids : List String := []
  required_daily : Nat := 1
  progress : AList String ChalProgress := []
deriving DecidableEq, Repr

/-- One entry of `_data["pending_chore_approvals"]`. -/
structure PendingChoreApproval where
  kid_id : String
  chore_id : String
  timestamp : DateTime
deriving DecidableEq, Repr

/-- One entry of `_data["pending_reward_approvals"]`. -/
structure PendingRewardApproval where
  kid_id : String
  reward_id : String
  timestamp : DateTime
  notification_id : String
deriving DecidableEq, Repr

/-- The engine state, `coordinator._data`. -/
structure State where
  kids : AList String Kid := []
  chores : AList String Chore := []
  badges : AList String Badge := []
  rewards : AList String Reward := []
  achievements : AList String Achievement := []
  challenges : AList String Challenge := []
  pending_chore_approvals : List PendingChoreApproval := []
  pending_reward_approvals : List PendingRewardApproval := []
deriving DecidableEq, Repr

/-- The error classes raised by the coordinator (`HomeAssistantError` with
the indicated message category). -/
inductive KCError where
  | notFound | notAssigned | alreadyActed | insufficientBalance
deriving DecidableEq, Repr

/-! ### Engine helpers (pure methods without re-entrant calls) -/

/-- Python truthiness of an optional string (`if s:`). -/
def truthyStr : Option String → Bool
  | none => false
  | some st => st ≠ ""

/-- Ordering of badges by `threshold_value`, the sort key used by
`_determine_cumulative_badge_for_kid` / `_get_next_lower_badge`. -/
def badgeLe (a b : Badge) : Prop := a.threshold_value ≤ b.threshold_value

instance : DecidableRel badgeLe := fun a b => by unfold badgeLe; infer_instance

instance : IsTotal Badge badgeLe := ⟨fun a b => le_total a.threshold_value b.threshold_value⟩

instance : IsTrans Badge badgeLe := ⟨fun _ _ _ h1 h2 => le_trans h1 h2⟩

/-- The threshold-sorted list of cumulative badges (`cumulative_badges` local
of the badge engine: filter by type, then a stable sort on threshold). -/
def cumulativeBadgesSorted (s : State) : List Badge :=
  List.insertionSort badgeLe
    ((s.badges.map (fun e => e.2)).filter
      (fun b => b.badge_type = BADGE_TYPE_CUMULATIVE))

/-- Method `_get_next_lower_badge`: the badge immediately lower in threshold
order, `None` from the lowest rung or an unknown id. -/
def get_next_lower_badge (s : State) (current_badge_id : String) : Option String :=
  let sorted := cumulativeBadgesSorted s
  match sorted.findIdx? (fun b => b.internal_id = current_badge_id) with
  | none => none
  | some 0 => none
  | some (i+1) => (sorted.get? i).map (fun b => b.internal_id)

/-- Method `_determine_cumulative_badge_for_kid`.  Returns the effective badge
id together with the state (the upgrade path records the new badge and
absorbs the cycle points into the baseline). -/
def determine_cumulative_badge_for_kid (s : State) (kid_id : String) :
    Option String × State :=
  match s.kids.find? kid_id with
  | none => (none, s)
  | some kid_info =>
    let sorted := cumulativeBadgesSorted s
    let baseline := kid_info.cumulative_badge_baseline.getD 0
    let cycle_points := kid_info.cumulative_earned_points
    let total := baseline + cycle_points
    let current_badge_id := kid_info.pre_reset_badge
    if truthyStr current_badge_id then
      match sorted.find? (fun b => b.internal_id = current_badge_id.getD "") with
      | some current_badge =>
        let maintenance_required := current_badge.maintenance_rules
        let current_threshold := current_badge.threshold_value
        if cycle_points ≥ maintenance_required then
          -- check for upgrade possibility: the first (lowest-threshold) badge
          -- above the current tier whose threshold the total meets
          match sorted.find? (fun b =>
              b.threshold_value > current_threshold ∧ total ≥ b.threshold_value) with
          | some b =>
              (some b.internal_id,
               { s with
                        kids := s.kids.modify kid_id (fun k =>
                  { k with
                           pre_reset_badge := some b.internal_id,
                           cumulative_badge_baseline := some total }) })
          | none => (current_badge_id, s)
        else
          -- not maintained: downgrade by one level
          (get_next_lower_badge s (current_badge_id.getD ""), s)
      | none => (none, s)
    else
      -- no pre-reset badge recorded: award the highest badge that qualifies
      match sorted.foldl
          (fun acc b => if total ≥ b.threshold_value then some b else acc) none with
      | some b => (some b.internal_id, s)
      | none => (none, s)

/-- Method `_update_kid_multiplier`: highest multiplier across all earned
badges, or the default when none are held. -/
def update_kid_multiplier (s : State) (kid_id : String) : State :=
  match s.kids.find? kid_id with
  | none => s
  | some _ =>
    let earned := (s.badges.map (fun e => e.2)).filter
      (fun b => kid_id ∈ b.earned_by)
    match earned with
    | [] => { s with
                     kids := s.kids.modify kid_id (fun k =>
        { k with points_multiplier := DEFAULT_KID_POINTS_MULTIPLIER }) }
    | b0 :: rest =>
      let highest := rest.foldl (fun m b => max m b.points_multiplier)
        b0.points_multiplier
      { s with
               kids := s.kids.modify kid_id (fun k =>
        { k with points_multiplier := highest }) }

/-- Method `_remove_badge_from_kid` (the badge argument is passed by
reference in Python; here it is addressed by its id in `s.badges`). -/
def remove_badge_from_kid (s : State) (kid_id badge_id : String) : State :=
  match s.badges.find? badge_id with
  | none => s
  | some badge =>
    let s1 := if kid_id ∈ badge.earned_by then
        { s with
                 badges := s.badges.modify badge_id (fun b =>
          { b with earned_by := b.earned_by.erase kid_id }) }
      else s
    let badge_name := badge.name
    match s1.kids.find? kid_id with
    | none => s1
    | some kid_info =>
      if badge_name ∈ kid_info.badges then
        { s1 with
                  kids := s1.kids.modify kid_id (fun k =>
          { k with badges := k.badges.erase badge_name }) }
      else s1

/-- Method `_update_streak_progress` on one achievement-progress record. -/
def update_streak_progress (progress : AchProgress) (today : Date) : AchProgress :=
  let last_date := progress.last_streak_date
  if last_date = some today then progress
  else if (match last_date with
           | some d => isYesterdayOf d today
           | none => false) then
    { progress with
                    current_streak := progress.current_streak + 1,
                    last_streak_date := some today }
  else
    { progress with current_streak := 1, last_streak_date := some today }

/-- Default streak record created by `_update_chore_streak_for_kid`. -/
def defaultStreakRec : StreakRec :=
  { current_streak := 0, max_streak := 0, last_streak_date := none }

/-- The record transformation of `_update_chore_streak_for_kid` on a streak
record that is not yet stamped today: extend or break the streak, stamp the
date, raise the max when exceeded. -/
def chore_streak_step (streak : StreakRec) (completion_date : Date) : StreakRec :=
  let streak1 :=
    if (match streak.last_streak_date with
        | some d => isYesterdayOf d completion_date
        | none => false) then
      { streak with current_streak := streak.current_streak + 1 }
    else
      { streak with current_streak := 1 }
  let streak2 := { streak1 with last_streak_date := some completion_date }
  if streak2.current_streak > streak2.max_streak then
    { streak2 with max_streak := streak2.current_streak }
  else streak2

/-- Method `_update_chore_streak_for_kid`. -/
def update_chore_streak_for_kid (s : State) (kid_id chore_id : String)
    (completion_date : Date) : State :=
  match s.kids.find? kid_id with
  | none => s
  | some kid_info =>
    let streak := kid_info.chore_streaks.getD chore_id defaultStreakRec
    let last_date := streak.last_streak_date
    if last_date = some completion_date then s
    else
      let streak3 := chore_streak_step streak completion_date
      { s with kids := s.kids.modify kid_id (fun k =>
          { k with chore_streaks := k.chore_streaks.set chore_id streak3 }) }

/-- Method `_update_overall_chore_streak`. -/
def update_overall_chore_streak (s : State) (kid_id : String)
    (completion_date : Date) : State :=
  match s.kids.find? kid_id with
  | none => s
  | some kid_info =>
    let last_date := kid_info.last_chore_date
    if last_date = some completion_date then s
    else if (match last_date with
             | some d => isYesterdayOf d completion_date
             | none => false) then
      { s with
               kids := s.kids.modify kid_id (fun k =>
          { k with
                   overall_chore_streak := k.overall_chore_streak + 1,
                   last_chore_date := some completion_date }) }
    else
      { s with
               kids := s.kids.modify kid_id (fun k =>
          { k with
                   overall_chore_streak := 1,
                   last_chore_date := some completion_date }) }


/-! ### State update helpers (Python in-place mutation of one record) -/

/-- Mutate one kid record in place. -/
def State.modifyKid (s : State) (kid_id : String) (f : Kid → Kid) : State :=
  { s with kids := s.kids.modify kid_id f }

/-- Mutate one badge record in place. -/
def State.modifyBadge (s : State) (badge_id : String) (f : Badge → Badge) : State :=
  { s with badges := s.badges.modify badge_id f }

/-- Mutate one chore record in place. -/
def State.modifyChore (s : State) (chore_id : String) (f : Chore → Chore) : State :=
  { s with chores := s.chores.modify chore_id f }

/-- Mutate one achievement record in place. -/
def State.modifyAchievement (s : State) (achievement_id : String)
    (f : Achievement → Achievement) : State :=
  { s with achievements := s.achievements.modify achievement_id f }

/-- Mutate one challenge record in place. -/
def State.modifyChallenge (s : State) (challenge_id : String)
    (f : Challenge → Challenge) : State :=
  { s with challenges := s.challenges.modify challenge_id f }

/-! ### Pure read-only predicates used by the badge engine -/

/-- The `all_completed` computation of the weekly chore-count periodic badge:
every required chore is in the kid's approved list, exists, and was last
completed on or after the Monday of the current week (`week_start`). -/
def periodic_chores_week_ok (s : State) (kid_info : Kid) (badge : Badge)
    (now : DateTime) : Bool :=
  let week_start_days := now.date.toDays - now.date.weekday
  badge.required_chores.all (fun req_chore =>
    decide (req_chore ∈ kid_info.approved_chores) &&
    (match s.chores.find? req_chore with
     | none => false
     | some chore =>
       match chore.last_completed with
       | none => false
       | some last_dt => ! decide (last_dt.date.toDays < week_start_days)))

/-- The `all_completed` computation of the custom-window chore-count periodic
badge: every required chore exists and was last completed inside the window. -/
def periodic_chores_window_ok (s : State) (badge : Badge)
    (start_date end_date : DateTime) : Bool :=
  badge.required_chores.all (fun req_chore =>
    match s.chores.find? req_chore with
    | none => false
    | some chore =>
      match chore.last_completed with
      | none => false
      | some last_dt => dtLe start_date last_dt && dtLe last_dt end_date)

/-- The per-day success check of a daily-minimum challenge: every day of the
window `[start, end]` has at least `required_daily` approvals recorded. -/
def challenge_daily_min_ok (progress : ChalProgress) (required_daily : Nat)
    (start_date end_date : DateTime) : Bool :=
  let num_days := dtDiffDays start_date end_date + 1
  (List.range num_days.toNat).all (fun n =>
    ! decide (progress.daily_counts.getD (start_date.addDays n).date 0 < required_daily))

/-! ### Points ledger and badge / achievement / challenge engines

Python methods `update_kid_points`, `_check_badges_for_kid`, `_award_badge`,
`_check_achievements_for_kid`, `_award_achievement`,
`_check_challenges_for_kid` and `_award_challenge` form a recursive call
cycle (awards grant points, which re-run the checks).  The embedding threads
an explicit fuel through that cycle; at fuel 0 the remaining call (in any
actual execution the nesting is finite) is dropped.  The deferred
`_reset_cumulative_badges` task scheduled by `update_kid_points` via
`async_create_task` runs outside the synchronous mutation and is therefore
not part of these functions. -/

/-- One iteration of the `_check_badges_for_kid` loop: evaluate one badge
for the kid (`award` is the re-entrant `_award_badge` call). -/
def check_badge_step (award : State → String → String → DateTime → State)
    (s : State) (kid_id badge_id : String) (now : DateTime) : State :=
  match s.badges.find? badge_id, s.kids.find? kid_id with
  | some badge, some kid_info =>
    let badge_type := badge.badge_type
    if badge.badge_type ≠ BADGE_TYPE_CUMULATIVE ∧
        badge.assigned_kids ≠ [] ∧ kid_id ∉ badge.assigned_kids then s
    else if badge_type ≠ BADGE_TYPE_SPECIAL_OCCASION ∧
        kid_id ∈ badge.earned_by then s
    else if badge_type = BADGE_TYPE_CUMULATIVE then
      match determine_cumulative_badge_for_kid s kid_id with
      | (effective_badge_id, s') =>
        if effective_badge_id = some badge_id then
          award s' kid_id badge_id now
        else
          remove_badge_from_kid s' kid_id badge_id
    else if badge_type = BADGE_TYPE_DAILY then
      if (kid_info.completed_chores_today : ℚ) ≥ badge.daily_threshold then
        award s kid_id badge_id now
      else s
    else if badge_type = BADGE_TYPE_PERIODIC then
      let threshold := badge.threshold_value
      let criteria_type := badge.threshold_type
      let reset_schedule := badge.reset_schedule
      if reset_schedule = CONF_WEEKLY ∨ reset_schedule = CONF_MONTHLY then
        if criteria_type = BADGE_THRESHOLD_TYPE_POINTS then
          let period_points :=
            if reset_schedule = CONF_WEEKLY then kid_info.points_earned_weekly
            else if reset_schedule = CONF_MONTHLY then
              kid_info.points_earned_monthly
            else kid_info.points_earned_today
          if period_points ≥ threshold then
            award s kid_id badge_id now
          else s
        else if criteria_type = BADGE_THRESHOLD_TYPE_CHORE_COUNT then
          if periodic_chores_week_ok s kid_info badge now then
            let count := kid_info.periodic_badge_success.getD badge_id 0 + 1
            let s' := s.modifyKid kid_id (fun k =>
              { k with
                periodic_badge_success :=
                  k.periodic_badge_success.set badge_id count })
            if (count : ℚ) ≥ threshold then
              award s' kid_id badge_id now
            else s'
          else s
        else s
      else if reset_schedule = CONF_CUSTOM then
        match badge.start_date, badge.end_date with
        | some start_date, some end_date =>
          if dtLt now start_date ∨ dtLt end_date now then
            if dtLt end_date now ∧ badge.periodic_recurrent then
              -- recurrent window closed: self-advance by one period length
              let period_delta :=
                (end_date.toMin : Int) - (start_date.toMin : Int)
              let new_start := start_date.addMinInt period_delta
              let new_end := end_date.addMinInt period_delta
              let s' := s.modifyBadge badge_id (fun b =>
                { b with
                  start_date := some new_start,
                  end_date := some new_end })
              s'.modifyKid kid_id (fun k =>
                { k with
                  periodic_badge_success :=
                    k.periodic_badge_success.set badge_id 0 })
            else s
          else
            if criteria_type = BADGE_THRESHOLD_TYPE_POINTS then
              let kid_points := kid_info.periodic_badge_points.getD badge_id 0
              if kid_points ≥ threshold then
                award s kid_id badge_id now
              else s
            else if criteria_type = BADGE_THRESHOLD_TYPE_CHORE_COUNT then
              if periodic_chores_window_ok s badge start_date end_date then
                let count := kid_info.periodic_badge_success.getD badge_id 0 + 1
                let s' := s.modifyKid kid_id (fun k =>
                  { k with
                    periodic_badge_success :=
                      k.periodic_badge_success.set badge_id count })
                if (count : ℚ) ≥ threshold then
                  award s' kid_id badge_id now
                else s'
              else s
            else s
        | _, _ => s
      else s
    else if badge_type = BADGE_TYPE_ACHIEVEMENT_LINKED then
      if truthyStr badge.associated_achievement then
        match s.achievements.find? (badge.associated_achievement.getD "") with
        | some achievement =>
          match achievement.progress.find? kid_id with
          | some kid_prog =>
              if kid_prog.awarded then award s kid_id badge_id now
              else s
          | none => s
        | none => s
      else s
    else if badge_type = BADGE_TYPE_CHALLENGE_LINKED then
      if truthyStr badge.associated_challenge then
        match s.challenges.find? (badge.associated_challenge.getD "") with
        | some challenge =>
          match challenge.progress.find? kid_id with
          | some kid_prog =>
              if kid_prog.awarded then award s kid_id badge_id now
              else s
          | none => s
        | none => s
      else s
    else if badge_type = BADGE_TYPE_SPECIAL_OCCASION then
      match badge.special_occasion_date with
      | none => s
      | some occasion_date =>
        let today := now.date
        if badge.special_occasion_recurrency then
          if today.month = occasion_date.month ∧
              today.day = occasion_date.day then
            if kid_info.completed_chores_today > 0 then
              let s' := award s kid_id badge_id now
              -- bump the badge date by one year for the next recurrence
              -- (date.replace raises ValueError exactly when the day does
              -- not exist in the target month; then day 28 is used)
              let next_year := today.year + 1
              let new_date : Date :=
                if occasion_date.day ≤
                    daysInMonth next_year occasion_date.month then
                  ⟨next_year, occasion_date.month, occasion_date.day⟩
                else ⟨next_year, occasion_date.month, 28⟩
              s'.modifyBadge badge_id (fun b =>
                { b with special_occasion_date := some new_date })
            else s
          else s
        else
          if today = occasion_date then
            if kid_info.completed_chores_today > 0 then
              award s kid_id badge_id now
            else s
          else s
    else s
  | _, _ => s

/-- One iteration of the `_check_achievements_for_kid` loop (`award` is the
re-entrant `_award_achievement` call). -/
def check_achievement_step (award : State → String → String → DateTime → State)
    (s : State) (kid_id achievement_id : String) (now : DateTime) : State :=
  match s.achievements.find? achievement_id, s.kids.find? kid_id with
  | some achievement, some kid_info =>
    if (match achievement.progress.find? kid_id with
        | some p => p.awarded
        | none => false) then s
    else
      let ach_type := achievement.achievement_type
      let target := achievement.target_value
      if ach_type = ACHIEVEMENT_TYPE_STREAK then
        let progress0 := (achievement.progress.find? kid_id).getD {}
        let progress1 := update_streak_progress progress0 now.date
        let s' := s.modifyAchievement achievement_id (fun a =>
          { a with progress := a.progress.set kid_id progress1 })
        if progress1.current_streak ≥ target then
          award s' kid_id achievement_id now
        else s'
      else if ach_type = ACHIEVEMENT_TYPE_TOTAL then
        let progress0 := (achievement.progress.find? kid_id).getD {}
        let baseline := match progress0.baseline with
          | none => kid_info.completed_chores_total
          | some b => b
        let current_total := kid_info.completed_chores_total
        let progress1 :=
          { progress0 with
            baseline := some baseline,
            current_value := current_total }
        let s' := s.modifyAchievement achievement_id (fun a =>
          { a with progress := a.progress.set kid_id progress1 })
        if current_total ≥ baseline + target then
          award s' kid_id achievement_id now
        else s'
      else if ach_type = ACHIEVEMENT_TYPE_DAILY_MIN then
        let progress0 := (achievement.progress.find? kid_id).getD {}
        let s' := s.modifyAchievement achievement_id (fun a =>
          { a with progress := a.progress.setdefault kid_id {} })
        if progress0.last_awarded_date ≠ some now.date ∧
            kid_info.completed_chores_today ≥ target then
          let s2 := award s' kid_id achievement_id now
          s2.modifyAchievement achievement_id (fun a =>
            { a with
              progress := a.progress.modify kid_id (fun p =>
                { p with last_awarded_date := some now.date }) })
        else s'
      else s
  | _, _ => s

/-- One iteration of the `_check_challenges_for_kid` loop (`award` is the
re-entrant `_award_challenge` call). -/
def check_challenge_step (award : State → String → String → DateTime → State)
    (s : State) (kid_id challenge_id : String) (now : DateTime) : State :=
  match s.challenges.find? challenge_id with
  | some challenge =>
    if (match challenge.progress.find? kid_id with
        | some p => p.awarded
        | none => false) then s
    else
      if (match challenge.start_date with
          | some start_dt => dtLt now start_dt
          | none => false) then s
      else if (match challenge.end_date with
          | some end_dt => dtLt end_dt now
          | none => false) then s
      else
        let target := challenge.target_value
        let challenge_type := challenge.challenge_type
        if challenge_type = CHALLENGE_TYPE_TOTAL_WITHIN_WINDOW then
          let progress0 := (challenge.progress.find? kid_id).getD {}
          let s' := s.modifyChallenge challenge_id (fun c =>
            { c with progress := c.progress.setdefault kid_id {} })
          if progress0.count ≥ target then
            award s' kid_id challenge_id now
          else s'
        else if challenge_type = CHALLENGE_TYPE_DAILY_MIN then
          let progress0 := (challenge.progress.find? kid_id).getD {}
          let s' := s.modifyChallenge challenge_id (fun c =>
            { c with progress := c.progress.setdefault kid_id {} })
          match challenge.start_date, challenge.end_date with
          | some start_dt, some end_dt =>
            if challenge_daily_min_ok progress0 challenge.required_daily
                start_dt end_dt then
              award s' kid_id challenge_id now
            else s'
          | _, _ => s'
        else s
  | none => s

/-- `_award_badge`: special-occasion award-date recording (and clearing of
the earlier `earned_by` entry so the badge can be re-awarded). -/
def award_badge_special_record (s : State) (kid_id badge_id : String)
    (badge0 : Badge) (now : DateTime) : State :=
  if badge0.badge_type = BADGE_TYPE_SPECIAL_OCCASION then
    let sa := s.modifyKid kid_id (fun k =>
      { k with
        special_occasion_last_awarded :=
          k.special_occasion_last_awarded.set badge_id now.date })
    if kid_id ∈ badge0.earned_by then
      sa.modifyBadge badge_id (fun b =>
        { b with earned_by := b.earned_by.erase kid_id })
    else sa
  else s

/-- `_award_badge`: record the baseline for a periodic cumulative badge when
absent. -/
def award_badge_cum_baseline (s1 : State) (kid_id : String) : State :=
  match s1.kids.find? kid_id with
  | some k1 =>
    if k1.cumulative_badge_baseline = none then
      s1.modifyKid kid_id (fun k =>
        { k with
          cumulative_badge_baseline := some k.cumulative_earned_points })
    else s1
  | none => s1

/-- `_award_badge`: record the current badge for a periodic cumulative badge
when absent. -/
def award_badge_cum_prereset (sb : State) (kid_id badge_id : String) : State :=
  match sb.kids.find? kid_id with
  | some k2 =>
    if k2.pre_reset_badge = none then
      sb.modifyKid kid_id (fun k => { k with pre_reset_badge := some badge_id })
    else sb
  | none => sb

/-- `_award_badge`: periodic cumulative badge baseline / current-badge
initialisation when absent. -/
def award_badge_cum_init (s1 : State) (kid_id badge_id : String)
    (badge0 : Badge) : State :=
  if badge0.badge_type = BADGE_TYPE_CUMULATIVE ∧ badge0.reset_periodically then
    award_badge_cum_prereset (award_badge_cum_baseline s1 kid_id) kid_id badge_id
  else s1

/-- `_award_badge`: append the badge name to the kid record. -/
def award_badge_add_name (s3 : State) (kid_id : String) (badge0 : Badge) :
    State :=
  let badge_name := badge0.name
  match s3.kids.find? kid_id with
  | some k3 =>
    if badge_name ∉ k3.badges then
      s3.modifyKid kid_id (fun k => { k with badges := k.badges ++ [badge_name] })
    else s3
  | none => s3

/-- `_award_badge`: the extra-points part of the award-mode payout (`ukp` is
the re-entrant `update_kid_points` call). -/
def award_badge_payout_points (ukp : State → String → ℚ → DateTime → State)
    (s4 : State) (kid_id : String) (extra_points : ℚ) (now : DateTime) :
    State :=
  if extra_points ≠ 0 then
    match s4.kids.find? kid_id with
    | some k4 => ukp s4 kid_id (k4.points + extra_points) now
    | none => s4
  else s4

/-- `_award_badge`: mark the one-time reward as redeemed on the kid record. -/
def reward_mark_redeemed (s7 : State) (kid_id one_time_reward : String) :
    State :=
  match s7.kids.find? kid_id with
  | some k7 =>
    if one_time_reward ∉ k7.redeemed_rewards then
      s7.modifyKid kid_id (fun k =>
        { k with
          redeemed_rewards := k.redeemed_rewards ++ [one_time_reward] })
    else s7
  | none => s7

/-- `_award_badge`: the one-time-reward part of the award-mode payout. -/
def award_badge_payout_reward (s5 : State) (kid_id one_time_reward : String) :
    State :=
  if one_time_reward ≠ "" then
    match s5.kids.find? kid_id with
    | some k5 =>
      let s6 := if one_time_reward ∈ k5.pending_rewards then
          s5.modifyKid kid_id (fun k =>
            { k with
              pending_rewards := k.pending_rewards.erase one_time_reward })
        else s5
      let s7 := s6.modifyKid kid_id (fun k =>
        { k with
          reward_approvals := k.reward_approvals.set one_time_reward
            (k.reward_approvals.getD one_time_reward 0 + 1) })
      reward_mark_redeemed s7 kid_id one_time_reward
    | none => s5
  else s5

/-- `_award_badge`: the award-mode payout section (`ukp` is the re-entrant
`update_kid_points` call). -/
def award_badge_payout (ukp : State → String → ℚ → DateTime → State)
    (s4 : State) (kid_id : String) (badge0 : Badge) (now : DateTime) : State :=
  let award_mode := badge0.award_mode
  let extra_points : ℚ :=
    if award_mode = DATA_BADGE_AWARD_POINTS then badge0.award_points
    else if award_mode = DATA_BADGE_AWARD_REWARD then 0
    else badge0.award_points
  let one_time_reward : String :=
    if award_mode = DATA_BADGE_AWARD_POINTS then ""
    else badge0.award_reward
  let s5 := award_badge_payout_points ukp s4 kid_id extra_points now
  award_badge_payout_reward s5 kid_id one_time_reward

mutual

/-- Method `update_kid_points`. -/
def update_kid_points (fuel : Nat) (s : State) (kid_id : String)
    (new_points : ℚ) (now : DateTime) : State :=
  match fuel with
  | 0 => s
  | fuel + 1 =>
    match s.kids.find? kid_id with
    | none => s
    | some kid_info =>
      let old_points := kid_info.points
      let delta := new_points - old_points
      if delta = 0 then s
      else
        let s1 := s.modifyKid kid_id (fun k =>
          { k with
            points := new_points,
            points_earned_today := k.points_earned_today + delta,
            points_earned_weekly := k.points_earned_weekly + delta,
            points_earned_monthly := k.points_earned_monthly + delta })
        let s2 := if delta > 0 then
            s1.modifyKid kid_id (fun k =>
              { k with
                cumulative_earned_points := k.cumulative_earned_points + delta })
          else s1
        let s3 := if new_points > kid_info.max_points_ever then
            s2.modifyKid kid_id (fun k => { k with max_points_ever := new_points })
          else s2
        let s4 := check_badges_for_kid fuel s3 kid_id now
        let s5 := check_achievements_for_kid fuel s4 kid_id now
        check_challenges_for_kid fuel s5 kid_id now
termination_by structural fuel

/-- Method `_check_badges_for_kid`: evaluate every badge for the kid.  The
iteration is over the badge ids captured at entry; each step re-reads the
current badge and kid records (Python iterates the live dict and reads
through aliases). -/
def check_badges_for_kid (fuel : Nat) (s : State) (kid_id : String)
    (now : DateTime) : State :=
  match fuel with
  | 0 => s
  | fuel + 1 =>
    match s.kids.find? kid_id with
    | none => s
    | some _ =>
      (AList.keys s.badges).foldl (fun s badge_id =>
        check_badge_step (fun st kd bid n => award_badge fuel st kd bid n)
          s kid_id badge_id now) s
termination_by structural fuel

/-- Method `_award_badge`. -/
def award_badge (fuel : Nat) (s : State) (kid_id badge_id : String)
    (now : DateTime) : State :=
  match fuel with
  | 0 => s
  | fuel + 1 =>
    match s.kids.find? kid_id with
    | none => s
    | some kid_info0 =>
      match s.badges.find? badge_id with
      | none => s
      | some badge0 =>
        let badge_type := badge0.badge_type
        if badge_type ≠ BADGE_TYPE_SPECIAL_OCCASION ∧
            kid_id ∈ badge0.earned_by then s
        else if badge_type = BADGE_TYPE_SPECIAL_OCCASION ∧
            kid_info0.special_occasion_last_awarded.find? badge_id
              = some now.date then s
        else
          let s1 := award_badge_special_record s kid_id badge_id badge0 now
          let s2 := award_badge_cum_init s1 kid_id badge_id badge0
          let s3 := s2.modifyBadge badge_id (fun b =>
            { b with earned_by := b.earned_by ++ [kid_id] })
          let s4 := award_badge_add_name s3 kid_id badge0
          if badge_type = BADGE_TYPE_CUMULATIVE then
            update_kid_multiplier s4 kid_id
          else if badge_type = BADGE_TYPE_DAILY ∨
              badge_type = BADGE_TYPE_PERIODIC ∨
              badge_type = BADGE_TYPE_ACHIEVEMENT_LINKED ∨
              badge_type = BADGE_TYPE_CHALLENGE_LINKED ∨
              badge_type = BADGE_TYPE_SPECIAL_OCCASION then
            award_badge_payout (fun st kd p n => update_kid_points fuel st kd p n)
              s4 kid_id badge0 now
          else s4
termination_by structural fuel

/-- Method `_check_achievements_for_kid`. -/
def check_achievements_for_kid (fuel : Nat) (s : State) (kid_id : String)
    (now : DateTime) : State :=
  match fuel with
  | 0 => s
  | fuel + 1 =>
    match s.kids.find? kid_id with
    | none => s
    | some _ =>
      (AList.keys s.achievements).foldl (fun s achievement_id =>
        check_achievement_step
          (fun st kd aid n => award_achievement fuel st kd aid n)
          s kid_id achievement_id now) s
termination_by structural fuel

/-- Method `_award_achievement`. -/
def award_achievement (fuel : Nat) (s : State) (kid_id achievement_id : String)
    (now : DateTime) : State :=
  match fuel with
  | 0 => s
  | fuel + 1 =>
    match s.achievements.find? achievement_id with
    | none => s
    | some achievement =>
      let s1 := match achievement.progress.find? kid_id with
        | some _ => s
        | none =>
          let kid_total := match s.kids.find? kid_id with
            | some k => k.completed_chores_total
            | none => 0
          s.modifyAchievement achievement_id (fun a =>
            { a with
              progress := a.progress.set kid_id
                { baseline := some kid_total, current_value := 0, awarded := false } })
      let s2 := s1.modifyAchievement achievement_id (fun a =>
        { a with
          progress := a.progress.modify kid_id (fun p =>
            { p with
              awarded := true,
              current_value := achievement.target_value }) })
      let extra_points := achievement.reward_points
      match s2.kids.find? kid_id with
      | some kid_info =>
          update_kid_points fuel s2 kid_id (kid_info.points + extra_points) now
      | none => s2
termination_by structural fuel

/-- Method `_check_challenges_for_kid`. -/
def check_challenges_for_kid (fuel : Nat) (s : State) (kid_id : String)
    (now : DateTime) : State :=
  match fuel with
  | 0 => s
  | fuel + 1 =>
    match s.kids.find? kid_id with
    | none => s
    | some _ =>
      (AList.keys s.challenges).foldl (fun s challenge_id =>
        check_challenge_step
          (fun st kd cid n => award_challenge fuel st kd cid n)
          s kid_id challenge_id now) s
termination_by structural fuel

/-- Method `_award_challenge`. -/
def award_challenge (fuel : Nat) (s : State) (kid_id challenge_id : String)
    (now : DateTime) : State :=
  match fuel with
  | 0 => s
  | fuel + 1 =>
    match s.challenges.find? challenge_id with
    | none => s
    | some challenge =>
      let s1 := s.modifyChallenge challenge_id (fun c =>
        { c with progress := c.progress.setdefault kid_id {} })
      let s2 := s1.modifyChallenge challenge_id (fun c =>
        { c with
          progress := c.progress.modify kid_id (fun p =>
            { p with awarded := true, count := challenge.target_value }) })
      let extra_points := challenge.reward_points
      match s2.kids.find? kid_id with
      | some kid_info =>
          update_kid_points fuel s2 kid_id (kid_info.points + extra_points) now
      | none => s2
termination_by structural fuel

end

/-! ### Chore lifecycle engine -/

/-- Per-kid derived chore state, the elif chain of the global-state counting
loop in `_process_chore_state` (missing kids count as pending, as
`kids_data.get(kid_id, {})` does). -/
def kid_chore_state (s : State) (chore_id kid_id : String) : ChoreState :=
  let kid_info := (s.kids.find? kid_id).getD {}
  if chore_id ∈ kid_info.overdue_chores then ChoreState.overdue
  else if chore_id ∈ kid_info.approved_chores then ChoreState.approved
  else if chore_id ∈ kid_info.claimed_chores then ChoreState.claimed
  else ChoreState.pending

/-- The global-state reduction at the end of `_process_chore_state` (the
per-kid state counting and the precedence chain), applied to the state after
the per-kid branch ran. -/
def compute_global_state (s : State) (chore_id : String)
    (new_state : ChoreState) : State :=
  match s.chores.find? chore_id with
  | none => s
  | some chore_info =>
    let assigned_kids := chore_info.assigned_kids
    if assigned_kids.length = 1 then
      s.modifyChore chore_id (fun c => { c with state := new_state })
    else if assigned_kids.length > 1 then
      let count_pending := assigned_kids.countP
        (fun k => kid_chore_state s chore_id k = ChoreState.pending)
      let count_claimed := assigned_kids.countP
        (fun k => kid_chore_state s chore_id k = ChoreState.claimed)
      let count_approved := assigned_kids.countP
        (fun k => kid_chore_state s chore_id k = ChoreState.approved)
      let count_overdue := assigned_kids.countP
        (fun k => kid_chore_state s chore_id k = ChoreState.overdue)
      let total := assigned_kids.length
      if count_pending = total ∨ count_claimed = total ∨
          count_approved = total ∨ count_overdue = total then
        s.modifyChore chore_id (fun c => { c with state := new_state })
      else if chore_info.shared_chore then
        if count_overdue > 0 then
          s.modifyChore chore_id (fun c => { c with state := ChoreState.overdue })
        else if count_approved > 0 then
          s.modifyChore chore_id (fun c =>
            { c with state := ChoreState.approvedInPart })
        else if count_claimed > 0 then
          s.modifyChore chore_id (fun c =>
            { c with state := ChoreState.claimedInPart })
        else
          s.modifyChore chore_id (fun c => { c with state := ChoreState.unknown })
      else
        s.modifyChore chore_id (fun c => { c with state := ChoreState.independent })
    else
      s.modifyChore chore_id (fun c => { c with state := ChoreState.unknown })

/-- `_process_chore_state`, claimed branch: remove previous approvals, add
to claimed, stamp the chore, enqueue the pending approval. -/
def process_claimed_branch (sA : State) (kid_id chore_id : String)
    (now : DateTime) : State :=
  let t1 := sA.modifyKid kid_id (fun k =>
    { k with
      approved_chores := k.approved_chores.filter (fun e => e ≠ chore_id) })
  let t2 := t1.modifyKid kid_id (fun k =>
    if chore_id ∉ k.claimed_chores then
      { k with claimed_chores := k.claimed_chores ++ [chore_id] }
    else k)
  let t3 := t2.modifyChore chore_id (fun c =>
    { c with last_claimed := some now })
  { t3 with
    pending_chore_approvals := t3.pending_chore_approvals ++
      [({ kid_id := kid_id, chore_id := chore_id,
          timestamp := now } : PendingChoreApproval)] }

/-- `_process_chore_state`, approved branch: remove claims, add to
approvals, stamp, award points, update streaks, drop the matching pending
approvals. -/
def process_approved_branch (fuel : Nat) (sA : State)
    (kid_id chore_id : String) (points_awarded : Option ℚ)
    (now : DateTime) : State :=
  let t1 := sA.modifyKid kid_id (fun k =>
    { k with
      claimed_chores := k.claimed_chores.filter (fun e => e ≠ chore_id) })
  let t2 := t1.modifyKid kid_id (fun k =>
    if chore_id ∉ k.approved_chores then
      { k with approved_chores := k.approved_chores ++ [chore_id] }
    else k)
  let t3 := t2.modifyChore chore_id (fun c =>
    { c with last_completed := some now })
  let t4 := match points_awarded with
    | some pts =>
      let current_points := ((t3.kids.find? kid_id).getD {}).points
      update_kid_points fuel t3 kid_id (current_points + pts) now
    | none => t3
  let today := now.date
  let t5 := update_chore_streak_for_kid t4 kid_id chore_id today
  let t6 := update_overall_chore_streak t5 kid_id today
  { t6 with
    pending_chore_approvals := t6.pending_chore_approvals.filter
      (fun ap => ¬ (ap.kid_id = kid_id ∧ ap.chore_id = chore_id)) }

/-- `_process_chore_state`, pending branch: clear the chore from both lists
and drop the matching pending approvals. -/
def process_pending_branch (sA : State) (kid_id chore_id : String) : State :=
  let t1 := sA.modifyKid kid_id (fun k =>
    { k with
      claimed_chores := k.claimed_chores.filter (fun e => e ≠ chore_id),
      approved_chores := k.approved_chores.filter (fun e => e ≠ chore_id) })
  { t1 with
    pending_chore_approvals := t1.pending_chore_approvals.filter
      (fun ap => ¬ (ap.kid_id = kid_id ∧ ap.chore_id = chore_id)) }

/-- `_process_chore_state`, overdue branch: add the chore to the kid's
overdue list. -/
def process_overdue_branch (sA : State) (kid_id chore_id : String) : State :=
  sA.modifyKid kid_id (fun k =>
    if chore_id ∉ k.overdue_chores then
      { k with overdue_chores := k.overdue_chores ++ [chore_id] }
    else k)

/-- Method `_process_chore_state`: the centralized per-kid chore state
transition followed by the global-state recomputation. -/
def process_chore_state (fuel : Nat) (s : State) (kid_id chore_id : String)
    (new_state : ChoreState) (points_awarded : Option ℚ) (now : DateTime) : State :=
  match s.kids.find? kid_id, s.chores.find? chore_id with
  | some _, some _ =>
    -- remove all instances of the chore from the overdue list
    let s0 := s.modifyKid kid_id (fun k =>
      { k with overdue_chores := k.overdue_chores.filter (fun e => e ≠ chore_id) })
    -- clear overdue notification tracking only when not processing overdue
    let sA := if new_state ≠ ChoreState.overdue then
        s0.modifyKid kid_id (fun k =>
          { k with
            overdue_notifications := k.overdue_notifications.erase chore_id })
      else s0
    let sB :=
      if new_state = ChoreState.claimed then
        process_claimed_branch sA kid_id chore_id now
      else if new_state = ChoreState.approved then
        process_approved_branch fuel sA kid_id chore_id points_awarded now
      else if new_state = ChoreState.pending then
        process_pending_branch sA kid_id chore_id
      else if new_state = ChoreState.overdue then
        process_overdue_branch sA kid_id chore_id
      else sA
    compute_global_state sB chore_id new_state
  | _, _ => s

/-- Method `claim_chore` (the notification dispatch is external; the
`_normalize_kid_lists` call repairs dynamic-typing corruption that cannot
occur in this typed model and is the identity here). -/
def claim_chore (fuel : Nat) (s : State) (kid_id chore_id : String)
    (now : DateTime) : Except (KCError × State) State :=
  match s.chores.find? chore_id with
  | none => Except.error (KCError.notFound, s)
  | some chore_info =>
    if kid_id ∉ chore_info.assigned_kids then
      Except.error (KCError.notAssigned, s)
    else match s.kids.find? kid_id with
    | none => Except.error (KCError.notFound, s)
    | some kid_info =>
      let allow_multiple := chore_info.allow_multiple_claims_per_day
      let s1 := if allow_multiple then
          s.modifyKid kid_id (fun k =>
            { k with
              approved_chores := k.approved_chores.filter (fun e => e ≠ chore_id) })
        else s
      if ¬ allow_multiple ∧ (chore_id ∈ kid_info.claimed_chores ∨
          chore_id ∈ kid_info.approved_chores) then
        Except.error (KCError.alreadyActed, s1)
      else
        Except.ok (process_chore_state fuel s1 kid_id chore_id
          ChoreState.claimed none now)

/-- Method `approve_chore`. -/
def approve_chore (fuel : Nat) (s : State) (kid_id chore_id : String)
    (points_awarded : Option ℚ) (now : DateTime) : Except (KCError × State) State :=
  match s.chores.find? chore_id with
  | none => Except.error (KCError.notFound, s)
  | some chore_info =>
    if kid_id ∉ chore_info.assigned_kids then
      Except.error (KCError.notAssigned, s)
    else match s.kids.find? kid_id with
    | none => Except.error (KCError.notFound, s)
    | some kid_info =>
      let allow_multiple := chore_info.allow_multiple_claims_per_day
      if ¬ allow_multiple ∧ chore_id ∈ kid_info.approved_chores then
        Except.error (KCError.alreadyActed, s)
      else
        let default_points := chore_info.default_points
        let multiplier := kid_info.points_multiplier
        let awarded_points := match points_awarded with
          | some p => p * multiplier
          | none => default_points * multiplier
        let s1 := process_chore_state fuel s kid_id chore_id
          ChoreState.approved (some awarded_points) now
        -- increment completed chores counters
        let s2 := s1.modifyKid kid_id (fun k =>
          { k with
            completed_chores_today := k.completed_chores_today + 1,
            completed_chores_weekly := k.completed_chores_weekly + 1,
            completed_chores_monthly := k.completed_chores_monthly + 1,
            completed_chores_total := k.completed_chores_total + 1 })
        -- track today's approvals for chores that allow multiple claims
        let s3 := if chore_info.allow_multiple_claims_per_day then
            s2.modifyKid kid_id (fun k =>
              { k with
                today_chore_approvals := k.today_chore_approvals.set chore_id
                  (k.today_chore_approvals.getD chore_id 0 + 1) })
          else s2
        let s4 := s3.modifyChore chore_id (fun c =>
          { c with last_completed := some now })
        let today := now.date
        let s5 := update_chore_streak_for_kid s4 kid_id chore_id today
        let s6 := update_overall_chore_streak s5 kid_id today
        -- remove from pending approvals
        let s7 := { s6 with
          pending_chore_approvals := s6.pending_chore_approvals.filter
            (fun ap => ¬ (ap.kid_id = kid_id ∧ ap.chore_id = chore_id)) }
        -- increment chore approvals
        let s8 := s7.modifyKid kid_id (fun k =>
          { k with
            chore_approvals := k.chore_approvals.set chore_id
              (k.chore_approvals.getD chore_id 0 + 1) })
        -- manage achievements: streak achievements bound to this chore
        let s9 := (AList.keys s8.achievements).foldl (fun s achievement_id =>
          match s.achievements.find? achievement_id with
          | none => s
          | some achievement =>
            if achievement.achievement_type = ACHIEVEMENT_TYPE_STREAK then
              if achievement.selected_chore_id = some chore_id then
                let progress0 := (achievement.progress.find? kid_id).getD {}
                let progress1 := update_streak_progress progress0 today
                s.modifyAchievement achievement_id (fun a =>
                  { a with progress := a.progress.set kid_id progress1 })
              else s
            else s) s8
        -- manage challenges
        let s10 := (AList.keys s9.challenges).foldl (fun s challenge_id =>
          match s.challenges.find? challenge_id with
          | none => s
          | some challenge =>
            let challenge_type := challenge.challenge_type
            if challenge_type = CHALLENGE_TYPE_TOTAL_WITHIN_WINDOW then
              if truthyStr challenge.selected_chore_id ∧
                  challenge.selected_chore_id.getD "" ≠ chore_id then s
              else
                match challenge.start_date, challenge.end_date with
                | some start_date, some end_date =>
                  if dtLe start_date now ∧ dtLe now end_date then
                    let progress0 := (challenge.progress.find? kid_id).getD {}
                    s.modifyChallenge challenge_id (fun c =>
                      { c with
                        progress := c.progress.set kid_id
                          { progress0 with count := progress0.count + 1 } })
                  else s
                | _, _ => s
            else if challenge_type = CHALLENGE_TYPE_DAILY_MIN then
              if ¬ truthyStr challenge.selected_chore_id then s
              else if challenge.selected_chore_id.getD "" ≠ chore_id then s
              else if kid_id ∈ challenge.assigned_kids then
                let progress0 := (challenge.progress.find? kid_id).getD {}
                s.modifyChallenge challenge_id (fun c =>
                  { c with
                    progress := c.progress.set kid_id
                      { progress0 with
                        daily_counts := progress0.daily_counts.set today
                          (progress0.daily_counts.getD today 0 + 1) } })
              else s
            else s) s9
        Except.ok s10

/-- Method `disapprove_chore`. -/
def disapprove_chore (fuel : Nat) (s : State) (kid_id chore_id : String)
    (now : DateTime) : Except (KCError × State) State :=
  match s.chores.find? chore_id with
  | none => Except.error (KCError.notFound, s)
  | some _ =>
    match s.kids.find? kid_id with
    | none => Except.error (KCError.notFound, s)
    | some _ =>
      Except.ok (process_chore_state fuel s kid_id chore_id
        ChoreState.pending none now)

/-! ### Rewards -/

/-- Method `redeem_reward`: claim a reward, queueing it for approval and
deducting nothing yet.  `notif_id` stands for the generated uuid. -/
def redeem_reward (s : State) (kid_id reward_id notif_id : String)
    (now : DateTime) : Except (KCError × State) State :=
  match s.rewards.find? reward_id with
  | none => Except.error (KCError.notFound, s)
  | some reward =>
    match s.kids.find? kid_id with
    | none => Except.error (KCError.notFound, s)
    | some kid_info =>
      let cost := reward.cost
      if kid_info.points < cost then
        Except.error (KCError.insufficientBalance, s)
      else
        let s1 := s.modifyKid kid_id (fun k =>
          { k with pending_rewards := k.pending_rewards ++ [reward_id] })
        let s2 := { s1 with
          pending_reward_approvals := s1.pending_reward_approvals ++
            [({ kid_id := kid_id, reward_id := reward_id, timestamp := now,
                notification_id := notif_id } : PendingRewardApproval)] }
        let s3 := s2.modifyKid kid_id (fun k =>
          { k with
            reward_claims := k.reward_claims.set reward_id
              (k.reward_claims.getD reward_id 0 + 1) })
        Except.ok s3

/-- Remove the first element satisfying the predicate (the
`for i, ap in enumerate(...): ... del approvals[i]; break` pattern). -/
def removeFirstP {α : Type} : List α → (α → Bool) → List α
  | [], _ => []
  | x :: t, p => if p x then t else x :: removeFirstP t p

/-- Tail of `approve_reward` shared by both branches: remove one matching
pending reward approval, bump the approval counter and re-check badges. -/
def approve_reward_tail (fuel : Nat) (s : State) (kid_id reward_id : String)
    (notif_id : Option String) (now : DateTime) : State :=
  let s1 := { s with
    pending_reward_approvals := removeFirstP s.pending_reward_approvals
      (fun ap => decide (ap.kid_id = kid_id) && decide (ap.reward_id = reward_id) &&
        (match notif_id with
         | none => true
         | some n => decide (ap.notification_id = n))) }
  let s2 := s1.modifyKid kid_id (fun k =>
    { k with
      reward_approvals := k.reward_approvals.set reward_id
        (k.reward_approvals.getD reward_id 0 + 1) })
  check_badges_for_kid fuel s2 kid_id now

/-- Method `approve_reward`: deduct points and move the reward to redeemed;
works with or without a prior pending claim. -/
def approve_reward (fuel : Nat) (s : State) (kid_id reward_id : String)
    (notif_id : Option String) (now : DateTime) : Except (KCError × State) State :=
  match s.kids.find? kid_id with
  | none => Except.error (KCError.notFound, s)
  | some kid_info =>
    match s.rewards.find? reward_id with
    | none => Except.error (KCError.notFound, s)
    | some reward =>
      let cost := reward.cost
      let pending_count := kid_info.pending_rewards.count reward_id
      if pending_count > 0 then
        if kid_info.points < cost then
          Except.error (KCError.insufficientBalance, s)
        else
          let new_points := kid_info.points - cost
          let s1 := update_kid_points fuel s kid_id new_points now
          let s2 := s1.modifyKid kid_id (fun k =>
            { k with
              pending_rewards := k.pending_rewards.erase reward_id,
              redeemed_rewards := k.redeemed_rewards ++ [reward_id] })
          Except.ok (approve_reward_tail fuel s2 kid_id reward_id notif_id now)
      else
        -- direct approval (no pending claim present)
        if kid_info.points < cost then
          Except.error (KCError.insufficientBalance, s)
        else
          let s1 := s.modifyKid kid_id (fun k =>
            { k with
              points := k.points - cost,
              redeemed_rewards := k.redeemed_rewards ++ [reward_id] })
          Except.ok (approve_reward_tail fuel s1 kid_id reward_id notif_id now)



/-! ### Overdue sweep and periodic resets -/

/-- Method `_check_overdue_chores`.  The fold state carries, besides the
engine state, the id of the kid bound to the function-level `kid_info`
variable: the source's debug loop leaves `kid_info` aliased to the last
assigned kid processed, and the two reset-to-pending cleanup paths read that
stale alias (before the first binding, where Python would raise NameError,
the model reads an empty record). -/
def check_overdue_chores (fuel : Nat) (s : State) (now : DateTime) : State :=
  ((AList.keys s.chores).foldl (fun acc chore_id =>
    let s := acc.1
    let last_kid : Option String := acc.2
    match s.chores.find? chore_id with
    | none => acc
    | some chore_info =>
      let assigned_kids := chore_info.assigned_kids
      let all_kids_claimed_or_approved := assigned_kids.all (fun kid_id =>
        let kid_info := (s.kids.find? kid_id).getD {}
        decide (chore_id ∈ kid_info.claimed_chores) ||
          decide (chore_id ∈ kid_info.approved_chores))
      -- the debug loop rebinds kid_info to each assigned kid in turn
      let last_kid := match assigned_kids.getLast? with
        | some k => some k
        | none => last_kid
      if all_kids_claimed_or_approved then (s, last_kid)
      else
        let stale_kid_info := (match last_kid with
          | some k => (s.kids.find? k).getD {}
          | none => {})
        match chore_info.due_date with
        | none =>
          -- no due date: clear overdue flags if the global state says overdue
          if chore_info.state = ChoreState.overdue ∨
              chore_info.state = ChoreState.independent then
            (assigned_kids.foldl (fun s kid_id =>
              if chore_id ∈ stale_kid_info.overdue_chores then
                process_chore_state fuel s kid_id chore_id
                  ChoreState.pending none now
              else s) s, last_kid)
          else (s, last_kid)
        | some due_date =>
          if dtLt now due_date then
            ((assigned_kids.foldl (fun s kid_id =>
              if chore_id ∈ stale_kid_info.overdue_chores then
                process_chore_state fuel s kid_id chore_id
                  ChoreState.pending none now
              else s) s), last_kid)
          else
            -- past due: mark overdue per kid that has neither claimed nor
            -- approved, with the 24h notification cooldown bookkeeping
            ((assigned_kids.foldl (fun s kid_id =>
              let kid_info := (s.kids.find? kid_id).getD {}
              if chore_id ∈ kid_info.claimed_chores ∨
                  chore_id ∈ kid_info.approved_chores then s
              else
                let s1 := process_chore_state fuel s kid_id chore_id
                  ChoreState.overdue none now
                let kid_info1 := (s1.kids.find? kid_id).getD {}
                let notify : Bool :=
                  match kid_info1.overdue_notifications.find? chore_id with
                  | some last_dt =>
                      dtLt last_dt due_date ||
                        decide ((now.toMin : Int) - (last_dt.toMin : Int) ≥ 24 * 60)
                  | none => true
                if notify then
                  s1.modifyKid kid_id (fun k =>
                    { k with
                      overdue_notifications :=
                        k.overdue_notifications.set chore_id now })
                else s1) s), last_kid)) (s, (none : Option String))).1

/-- Method `_reset_daily_chore_statuses`: reset chore statuses (and purge the
matching pending approvals) for chores of the targeted frequencies. -/
def reset_daily_chore_statuses (fuel : Nat) (s : State)
    (target_freqs : List String) (now : DateTime) : State :=
  let s1 := (AList.keys s.chores).foldl (fun s chore_id =>
    match s.chores.find? chore_id with
    | none => s
    | some chore_info =>
      let frequency := chore_info.recurring_frequency
      if frequency ∈ target_freqs ∨ frequency = FREQUENCY_NONE then
        -- when a due date exists and has not been reached yet, skip
        if (match chore_info.due_date with
            | some due_date => dtLt now due_date
            | none => false) then s
        else
          if chore_info.state ≠ ChoreState.pending ∧
              chore_info.state ≠ ChoreState.overdue then
            chore_info.assigned_kids.foldl (fun s kid_id =>
              if kid_id ≠ "" then
                process_chore_state fuel s kid_id chore_id
                  ChoreState.pending none now
              else s) s
          else s
      else s) s
  let target_chore_ids := (s1.chores.filter
    (fun e => e.2.recurring_frequency ∈ target_freqs)).map (fun e => e.1)
  { s1 with
    pending_chore_approvals := s1.pending_chore_approvals.filter
      (fun ap => ap.chore_id ∉ target_chore_ids) }

/-- Method `_reset_chore_counts`: zero the periodic counters of every kid and
reset the matching chore statuses. -/
def reset_chore_counts (fuel : Nat) (s : State) (frequency : String)
    (now : DateTime) : State :=
  let s1 := { s with
    kids := s.kids.map (fun e =>
      (e.1,
        if frequency = FREQUENCY_DAILY then
          { e.2 with completed_chores_today := 0, points_earned_today := 0 }
        else if frequency = FREQUENCY_WEEKLY then
          { e.2 with completed_chores_weekly := 0, points_earned_weekly := 0 }
        else if frequency = FREQUENCY_MONTHLY then
          { e.2 with completed_chores_monthly := 0, points_earned_monthly := 0 }
        else e.2)) }
  if frequency = FREQUENCY_DAILY then
    reset_daily_chore_statuses fuel s1 [frequency] now
  else if frequency = FREQUENCY_WEEKLY then
    reset_daily_chore_statuses fuel s1 [frequency, FREQUENCY_WEEKLY] now
  else s1

/-! ### Recurrence scheduler -/

/-- Weekday of a date as an element of `Fin 7` (the applicable-days filter is
drawn from the seven `WEEKDAY_OPTIONS` keys, in `weekday()` order). -/
def Date.weekdayF (d : Date) : Fin 7 := ⟨d.toDays % 7, Nat.mod_lt _ (by norm_num)⟩

/-- One advance of the due date by the full frequency period (the
period branch of the reschedule loop body). -/
def period_advance (freq : String) (custom_interval : Option Nat)
    (custom_interval_unit : Option String) (dt : DateTime) : DateTime :=
  if freq = FREQUENCY_DAILY then dt.addDays 1
  else if freq = FREQUENCY_WEEKLY then dt.addDays 7
  else if freq = FREQUENCY_BIWEEKLY then dt.addDays 14
  else if freq = FREQUENCY_MONTHLY then dt.addMonths 1
  else if freq = FREQUENCY_CUSTOM then
    if custom_interval_unit = some CONF_DAYS then
      dt.addDays (custom_interval.getD 0)
    else if custom_interval_unit = some CONF_WEEKS then
      dt.addDays (7 * custom_interval.getD 0)
    else if custom_interval_unit = some CONF_MONTHS then
      dt.addMonths (custom_interval.getD 0)
    else dt
  else dt

/-- The while loop of `_reschedule_next_due_date`, with fuel standing for the
number of remaining iterations (`none` when the loop has not exited within
the given fuel). -/
def reschedule_loop (freq : String) (custom_interval : Option Nat)
    (custom_interval_unit : Option String) (now : DateTime)
    (applicable_days : List (Fin 7)) :
    Bool → DateTime → Nat → Option DateTime
  | _, _, 0 => none
  | first_iteration, next_due, fuel + 1 =>
    if first_iteration ∨ dtLe next_due now ∨
        (applicable_days ≠ [] ∧ next_due.date.weekdayF ∉ applicable_days) then
      let next_due' :=
        if first_iteration ∨ dtLe next_due now then
          period_advance freq custom_interval custom_interval_unit next_due
        else
          next_due.addDays 1
      reschedule_loop freq custom_interval custom_interval_unit now
        applicable_days false next_due' fuel
    else some next_due

/-- Method `_reschedule_next_due_date`: compute the next due date from the
recurring frequency and reset the chore to pending for every assigned kid.
`loop_fuel` bounds the while loop; `none` means the loop was still running
(Python would not have returned yet). -/
def reschedule_next_due_date (fuel loop_fuel : Nat) (s : State)
    (chore_id : String) (now : DateTime) : Option State :=
  match s.chores.find? chore_id with
  | none => some s
  | some chore_info =>
    let freq := chore_info.recurring_frequency
    if freq = FREQUENCY_CUSTOM ∧ (chore_info.custom_interval = none ∨
        (chore_info.custom_interval_unit ≠ some CONF_DAYS ∧
         chore_info.custom_interval_unit ≠ some CONF_WEEKS ∧
         chore_info.custom_interval_unit ≠ some CONF_MONTHS)) then some s
    else
      match chore_info.due_date with
      | none => some s
      | some original_due =>
        if freq = "" ∨ freq = FREQUENCY_NONE then some s
        else
          match reschedule_loop freq chore_info.custom_interval
              chore_info.custom_interval_unit now chore_info.applicable_days
              true original_due loop_fuel with
          | none => none
          | some next_due =>
            let s1 := s.modifyChore chore_id (fun c =>
              { c with due_date := some next_due })
            -- reset the chore state to pending for all assigned kids
            some (chore_info.assigned_kids.foldl (fun s kid_id =>
              if kid_id ≠ "" then
                process_chore_state fuel s kid_id chore_info.internal_id
                  ChoreState.pending none now
              else s) s1)

/-! ### Claim theorems -/

lemma find?_modifyKid_self (s : State) (kid_id : String) (f : Kid → Kid) :
    (s.modifyKid kid_id f).kids.find? kid_id = (s.kids.find? kid_id).map f := by
  simp [State.modifyKid, AList.find?_modify]

lemma find?_modifyKid_chores (s : State) (kid_id : String) (f : Kid → Kid) :
    (s.modifyKid kid_id f).chores = s.chores := rfl

lemma chore_streak_step_spec (st : StreakRec) (d : Date) :
    (chore_streak_step st d).last_streak_date = some d ∧
    (chore_streak_step st d).current_streak =
      (match st.last_streak_date with
       | some y => if isYesterdayOf y d then st.current_streak + 1 else 1
       | none => 1) ∧
    (st.max_streak < (chore_streak_step st d).current_streak →
      (chore_streak_step st d).max_streak = (chore_streak_step st d).current_streak) ∧
    (¬ st.max_streak < (chore_streak_step st d).current_streak →
      (chore_streak_step st d).max_streak = st.max_streak) := by
  unfold chore_streak_step
  cases hl : st.last_streak_date with
  | none =>
      simp only [hl]
      split <;> rename_i hyif
      · simp at hyif
      · split <;> rename_i hmax <;>
          refine ⟨rfl, rfl, fun h => ?_, fun h => ?_⟩ <;>
            first | rfl | exact absurd hmax h | exact absurd h hmax
  | some y =>
      simp only [hl]
      rcases Bool.eq_false_or_eq_true (isYesterdayOf y d) with hy | hy <;>
        simp only [hy, Bool.false_eq_true, if_true, if_false] <;>
        split <;> rename_i hmax <;>
          refine ⟨rfl, rfl, fun h => ?_, fun h => ?_⟩ <;>
            first | rfl | exact absurd hmax h | exact absurd h hmax

/-- Claim C8: approving a chore whose last recorded completion was exactly
the previous calendar day increments the per-chore current streak by 1;
approving with an older or absent last completion resets the streak to 1; a
second approval on the same calendar day leaves the state unchanged; and
max-streak is raised to the new current streak exactly when exceeded. -/
theorem c8_chore_streak (s : State) (kid_id chore_id : String) (d : Date)
    (kid : Kid) (hk : s.kids.find? kid_id = some kid) :
    (let streak := kid.chore_streaks.getD chore_id defaultStreakRec
     let s' := update_chore_streak_for_kid s kid_id chore_id d
     let streak_rec := ((s'.kids.find? kid_id).getD {}).chore_streaks.getD chore_id
       defaultStreakRec
     (streak.last_streak_date = some d → s' = s) ∧
     (streak.last_streak_date ≠ some d →
       streak_rec.last_streak_date = some d ∧
       streak_rec.current_streak =
         (match streak.last_streak_date with
          | some y => if isYesterdayOf y d then streak.current_streak + 1 else 1
          | none => 1) ∧
       (streak.max_streak < streak_rec.current_streak →
         streak_rec.max_streak = streak_rec.current_streak) ∧
       (¬ streak.max_streak < streak_rec.current_streak →
         streak_rec.max_streak = streak.max_streak))) := by
  simp only
  constructor
  · intro hsame
    unfold update_chore_streak_for_kid
    rw [hk]
    simp [hsame]
  · intro hdiff
    unfold update_chore_streak_for_kid
    rw [hk]
    simp only [if_neg hdiff]
    simp [AList.find?_modify, hk, AList.getD, AList.find?_set]
    simpa [Nat.not_lt] using chore_streak_step_spec ((kid.chore_streaks.find? chore_id).getD defaultStreakRec) d

/-- Concrete kid for the C8 witness: chore "c" last completed 2024-01-01 with
a current streak of 2. -/
def c8_witness_kid : Kid :=
  { chore_streaks := [("c", ⟨2, 2, some ⟨2024, 1, 1⟩⟩)] }

/-- Concrete state for the C8 witness. -/
def c8_witness_state : State := { kids := [("k", c8_witness_kid)] }

theorem c8_chore_streak_witness :
    ((((update_chore_streak_for_kid c8_witness_state "k" "c"
        ⟨2024, 1, 2⟩).kids.find? "k").getD {}).chore_streaks.getD "c"
      defaultStreakRec).current_streak = 3 := by
  have h := c8_chore_streak c8_witness_state "k" "c" ⟨2024, 1, 2⟩
    c8_witness_kid (by decide)
  simp only at h
  have h3 := (h.2 (by decide)).2.1
  rw [h3]
  decide

/-- Claim C9: with the reward and kid present, `redeem_reward` fails with an
insufficient-balance error exactly when the reward's cost exceeds the kid's
current points, and any failure leaves the entire state unchanged (all
validation happens before any mutation). -/
theorem c9_redeem_reward_insufficient (s : State) (kid_id reward_id notif_id : String)
    (now : DateTime) (reward : Reward) (kid : Kid)
    (hr : s.rewards.find? reward_id = some reward)
    (hk : s.kids.find? kid_id = some kid) :
    (redeem_reward s kid_id reward_id notif_id now =
        Except.error (KCError.insufficientBalance, s) ↔ kid.points < reward.cost) ∧
    (∀ es, redeem_reward s kid_id reward_id notif_id now = Except.error es →
      es.2 = s) := by
  unfold redeem_reward
  rw [hr, hk]
  by_cases hlt : kid.points < reward.cost
  · simp [hlt]
  · simp [hlt]

/-- Concrete state for the C9 witness: reward "movie" costs 20, kid "k" has
15 points (scenario 5 of the specification). -/
def c9_witness_state : State :=
  { kids := [("k", { points := 15 })],
    rewards := [("movie", { cost := 20 })] }

theorem c9_redeem_reward_insufficient_witness :
    redeem_reward c9_witness_state "k" "movie" "n1" ⟨⟨2024, 1, 2⟩, 600⟩ =
      Except.error (KCError.insufficientBalance, c9_witness_state) := by
  have h := c9_redeem_reward_insufficient c9_witness_state "k" "movie" "n1"
    ⟨⟨2024, 1, 2⟩, 600⟩ { cost := 20 } { points := 15 } (by decide) (by decide)
  exact h.1.mpr (by norm_num)

lemma AList.modify_modify {κ α : Type} [DecidableEq κ] (d : AList κ α) (k : κ)
    (f g : α → α) :
    AList.modify (AList.modify d k f) k g = AList.modify d k (fun v => g (f v)) := by
  induction d with
  | nil => rfl
  | cons e t ih =>
      by_cases h : e.1 = k <;> simp [AList.modify, h, ih]

lemma State.modifyKid_modifyKid (s : State) (kid_id : String) (f g : Kid → Kid) :
    (s.modifyKid kid_id f).modifyKid kid_id g =
      s.modifyKid kid_id (fun k => g (f k)) := by
  simp [State.modifyKid, AList.modify_modify]

lemma check_badges_for_kid_empty (fuel : Nat) (s : State) (kid_id : String)
    (now : DateTime) (h : s.badges = []) :
    check_badges_for_kid fuel s kid_id now = s := by
  cases fuel with
  | zero => rfl
  | succ n =>
      unfold check_badges_for_kid
      cases hf : s.kids.find? kid_id <;> simp [h, AList.keys]

lemma check_achievements_for_kid_empty (fuel : Nat) (s : State) (kid_id : String)
    (now : DateTime) (h : s.achievements = []) :
    check_achievements_for_kid fuel s kid_id now = s := by
  cases fuel with
  | zero => rfl
  | succ n =>
      unfold check_achievements_for_kid
      cases hf : s.kids.find? kid_id <;> simp [h, AList.keys]

lemma check_challenges_for_kid_empty (fuel : Nat) (s : State) (kid_id : String)
    (now : DateTime) (h : s.challenges = []) :
    check_challenges_for_kid fuel s kid_id now = s := by
  cases fuel with
  | zero => rfl
  | succ n =>
      unfold check_challenges_for_kid
      cases hf : s.kids.find? kid_id <;> simp [h, AList.keys]

/-- Claim C4: with no badges, achievements or challenges configured (so that
the re-evaluation hooks have nothing to do) and a kid whose balance does not
exceed its recorded maximum, `update_kid_points` is a no-op when the new
balance equals the current one; otherwise it sets the balance, adds the delta
to the today/week/month earned counters, and exactly when the delta is
positive it also adds the delta to the cumulative-earned points and raises
max-points-ever when the new balance exceeds it. -/
theorem c4_update_kid_points (fuel : Nat) (s : State) (kid_id : String)
    (new_points : ℚ) (now : DateTime) (kid : Kid)
    (hk : s.kids.find? kid_id = some kid)
    (hb : s.badges = []) (ha : s.achievements = []) (hc : s.challenges = [])
    (hinv : kid.points ≤ kid.max_points_ever) :
    (new_points = kid.points →
      update_kid_points (fuel + 1) s kid_id new_points now = s) ∧
    (new_points ≠ kid.points →
      update_kid_points (fuel + 1) s kid_id new_points now =
        s.modifyKid kid_id (fun k =>
          { k with
            points := new_points,
            points_earned_today := k.points_earned_today + (new_points - kid.points),
            points_earned_weekly := k.points_earned_weekly + (new_points - kid.points),
            points_earned_monthly := k.points_earned_monthly + (new_points - kid.points),
            cumulative_earned_points := k.cumulative_earned_points +
              (if kid.points < new_points then new_points - kid.points else 0),
            max_points_ever :=
              if kid.points < new_points then
                (if kid.max_points_ever < new_points then new_points
                 else k.max_points_ever)
              else k.max_points_ever })) := by
  constructor
  · intro heq
    unfold update_kid_points
    rw [hk]
    simp [heq]
  · intro hne
    unfold update_kid_points
    rw [hk]
    have hδ : ¬ (new_points - kid.points = 0) := sub_ne_zero.mpr hne
    simp only [hδ, if_false]
    by_cases hpos : kid.points < new_points
    · by_cases hmax : kid.max_points_ever < new_points
      · simp only [gt_iff_lt, sub_pos, hpos, hmax, if_true]
        rw [check_badges_for_kid_empty _ _ _ _ (by simp [hb, State.modifyKid]),
            check_achievements_for_kid_empty _ _ _ _ (by simp [ha, State.modifyKid]),
            check_challenges_for_kid_empty _ _ _ _ (by simp [hc, State.modifyKid])]
        rw [State.modifyKid_modifyKid, State.modifyKid_modifyKid]
      · simp only [gt_iff_lt, sub_pos, hpos, hmax, if_true, if_false]
        rw [check_badges_for_kid_empty _ _ _ _ (by simp [hb, State.modifyKid]),
            check_achievements_for_kid_empty _ _ _ _ (by simp [ha, State.modifyKid]),
            check_challenges_for_kid_empty _ _ _ _ (by simp [hc, State.modifyKid])]
        rw [State.modifyKid_modifyKid]
    · by_cases hmax : kid.max_points_ever < new_points
      · exact absurd (lt_of_le_of_lt hinv hmax) hpos
      · simp only [gt_iff_lt, sub_pos, hpos, hmax, if_false, add_zero]
        rw [check_badges_for_kid_empty _ _ _ _ (by simp [hb, State.modifyKid]),
            check_achievements_for_kid_empty _ _ _ _ (by simp [ha, State.modifyKid]),
            check_challenges_for_kid_empty _ _ _ _ (by simp [hc, State.modifyKid])]

/-- Concrete state for the C4 witness: kid "k" with 10 points, max 10. -/
def c4_witness_state : State :=
  { kids := [("k", { points := 10, max_points_ever := 10,
                     cumulative_earned_points := 2,
                     points_earned_today := 1 })] }

theorem c4_update_kid_points_witness :
    ((((update_kid_points (0 + 1) c4_witness_state "k" 15
        ⟨⟨2024, 1, 2⟩, 600⟩).kids.find? "k").getD {}).max_points_ever = 15) ∧
    ((((update_kid_points (0 + 1) c4_witness_state "k" 15
        ⟨⟨2024, 1, 2⟩, 600⟩).kids.find? "k").getD {}).cumulative_earned_points = 7) := by
  have h := (c4_update_kid_points 0 c4_witness_state "k" 15 ⟨⟨2024, 1, 2⟩, 600⟩
    { points := 10, max_points_ever := 10, cumulative_earned_points := 2,
      points_earned_today := 1 }
    (by decide) rfl rfl rfl (by norm_num)).2 (by norm_num)
  rw [h]
  constructor <;>
    simp [c4_witness_state, State.modifyKid, AList.modify, AList.find?,
      AList.getD] <;> norm_num

/-- Claim C10: `approve_reward` needs no prior redemption.  With the kid and
reward present, no pending claim of the reward, and no badges configured:
when the kid's points cover the cost the approval succeeds, deducts the cost
directly from the points, appends the reward to the redeemed list and
increments the reward-approval counter; it fails (with an insufficient-balance
error and the state unchanged) exactly when the points are below the cost. -/
theorem c10_approve_reward_direct (fuel : Nat) (s : State)
    (kid_id reward_id : String) (notif_id : Option String) (now : DateTime)
    (kid : Kid) (reward : Reward)
    (hk : s.kids.find? kid_id = some kid)
    (hr : s.rewards.find? reward_id = some reward)
    (hp : reward_id ∉ kid.pending_rewards)
    (hb : s.badges = []) :
    (kid.points < reward.cost →
      approve_reward fuel s kid_id reward_id notif_id now =
        Except.error (KCError.insufficientBalance, s)) ∧
    (¬ kid.points < reward.cost →
      ∀ s', approve_reward fuel s kid_id reward_id notif_id now = Except.ok s' →
        s'.kids.find? kid_id = some
          { kid with
            points := kid.points - reward.cost,
            redeemed_rewards := kid.redeemed_rewards ++ [reward_id],
            reward_approvals := kid.reward_approvals.set reward_id
              (kid.reward_approvals.getD reward_id 0 + 1) }) ∧
    (¬ kid.points < reward.cost →
      (approve_reward fuel s kid_id reward_id notif_id now).isOk = true) := by
  have hcount : kid.pending_rewards.count reward_id = 0 :=
    List.count_eq_zero.mpr hp
  unfold approve_reward
  rw [hk, hr]
  dsimp only
  rw [hcount]
  simp only [gt_iff_lt, lt_self_iff_false, if_false]
  by_cases hlt : kid.points < reward.cost
  · simp [hlt]
  · simp only [hlt, if_false]
    refine ⟨fun h => h.elim, fun _ s' hs' => ?_, fun _ => rfl⟩
    have hs2 : s' = approve_reward_tail fuel
        (s.modifyKid kid_id (fun k =>
          { k with
            points := k.points - reward.cost,
            redeemed_rewards := k.redeemed_rewards ++ [reward_id] }))
        kid_id reward_id notif_id now := by
      simpa using hs'.symm
    subst hs2
    unfold approve_reward_tail
    rw [check_badges_for_kid_empty _ _ _ _ (by simp [hb, State.modifyKid])]
    simp [State.modifyKid, AList.find?_modify, hk, AList.getD]

/-- Concrete state for the C10 witness: kid "k" with 30 points and no pending
claim of reward "movie" (cost 20). -/
def c10_witness_state : State :=
  { kids := [("k", { points := 30 })],
    rewards := [("movie", { cost := 20 })] }

theorem c10_approve_reward_direct_witness :
    (approve_reward 1 c10_witness_state "k" "movie" none
      ⟨⟨2024, 1, 2⟩, 600⟩).isOk = true ∧
    ∀ s', approve_reward 1 c10_witness_state "k" "movie" none
        ⟨⟨2024, 1, 2⟩, 600⟩ = Except.ok s' →
      s'.kids.find? "k" = some
        { ({ points := 30 } : Kid) with
          points := (30 : ℚ) - 20,
          redeemed_rewards := [] ++ ["movie"],
          reward_approvals := AList.set [] "movie"
            (AList.getD [] "movie" 0 + 1) } := by
  have h := c10_approve_reward_direct 1 c10_witness_state "k" "movie" none
    ⟨⟨2024, 1, 2⟩, 600⟩ { points := 30 } { cost := 20 }
    (by decide) (by decide) (by decide) rfl
  exact ⟨h.2.2 (by norm_num), h.2.1 (by norm_num)⟩

/-- Failing input for claim C7: a streak achievement "A" bound to chore
"chA" with a running 3-day streak last counted yesterday (2024-01-01), and a
kid "k" who then receives 5 points on 2024-01-02 through a plain points
update (e.g. a manual bonus) that involves no approval of chore "chA". -/
def c7_failing_state : State :=
  { kids := [("k", { points := 0 })],
    achievements := [("A",
      { achievement_type := ACHIEVEMENT_TYPE_STREAK,
        selected_chore_id := some "chA",
        target_value := 10,
        progress := [("k",
          { current_streak := 3, last_streak_date := some ⟨2024, 1, 1⟩,
            awarded := false })] })] }

/-- Claim C7 (code bug): a plain `update_kid_points` call — with no approval
of the achievement's designated chore "chA" anywhere in sight — advances the
streak achievement's per-kid counter from 3 to 4 and stamps today's date,
because `_check_achievements_for_kid` runs on every point change and its
streak branch updates the progress record unconditionally.  The claim (and
the spec) say the streak advances only when the designated chore is
approved. -/
theorem c7_streak_advanced_by_plain_point_update :
    (((update_kid_points 2 c7_failing_state "k" 5
        ⟨⟨2024, 1, 2⟩, 600⟩).achievements.find? "A").getD {}).progress.find? "k"
      = some { current_streak := 4, last_streak_date := some ⟨2024, 1, 2⟩,
               awarded := false } := by
  norm_num [update_kid_points, check_badges_for_kid, check_achievements_for_kid,
    check_challenges_for_kid, c7_failing_state, State.modifyKid,
    State.modifyAchievement, AList.find?, AList.modify, AList.set, AList.keys,
    AList.getD, update_streak_progress, isYesterdayOf, Date.toDays,
    daysBeforeYear, daysBeforeMonth, leapsBefore, isLeap,
    ACHIEVEMENT_TYPE_STREAK]

/-- Counterexample state for claim C1: kid "k" is assigned to chore "ch" but
has no pending claim anywhere — `claimed_chores` is empty and there is no
pending approval entry — and the chore does not allow multiple claims. -/
def c1_no_claim_state : State :=
  { kids := [("k", {})],
    chores := [("ch", { assigned_kids := ["k"] })] }

/-- Counterexample to claim C1: approving chore "ch" for kid "k" succeeds
even though the kid never claimed it (no pending claim exists at all), so
approval does not require a pending state. -/
theorem c1_counterexample_no_claim_approve_succeeds :
    c1_no_claim_state.pending_chore_approvals = [] ∧
    ((c1_no_claim_state.kids.find? "k").getD {}).claimed_chores = [] ∧
    ((c1_no_claim_state.chores.find? "ch").getD {}).allow_multiple_claims_per_day
      = false ∧
    (approve_chore 3 c1_no_claim_state "k" "ch" none
        ⟨⟨2024, 1, 2⟩, 600⟩).isOk = true :=
  ⟨rfl, rfl, rfl, rfl⟩

/-- Claim C1 (amended): `approve_chore` never checks for a pending claim.
It fails — always with the input state unchanged — exactly when the chore is
unknown, the kid is not assigned to it, the kid is unknown, or the chore
disallows multiple claims per day and is already in the kid's
approved-chores list; in every other situation the approval succeeds, a
prior claim being irrelevant. -/
theorem c1_approve_chore_error_conditions (fuel : Nat) (s : State)
    (kid_id chore_id : String) (pts : Option ℚ) (now : DateTime) :
    (∀ e s', approve_chore fuel s kid_id chore_id pts now
        = Except.error (e, s') → s' = s) ∧
    ((approve_chore fuel s kid_id chore_id pts now).isOk = true ↔
      ∃ c k, s.chores.find? chore_id = some c ∧ kid_id ∈ c.assigned_kids ∧
        s.kids.find? kid_id = some k ∧
        (c.allow_multiple_claims_per_day = true ∨
          chore_id ∉ k.approved_chores)) := by
  unfold approve_chore
  cases hc : s.chores.find? chore_id with
  | none => simp [Except.isOk, Except.toBool]
  | some c =>
    by_cases hm : kid_id ∈ c.assigned_kids
    · cases hk : s.kids.find? kid_id with
      | none => simp [hm, Except.isOk, Except.toBool]
      | some k =>
        by_cases hcond : c.allow_multiple_claims_per_day = false ∧
            chore_id ∈ k.approved_chores
        · simp [hm, hcond, Except.isOk, Except.toBool, hcond.1, hcond.2]
        · simp [hm, hcond, Except.isOk, Except.toBool]
          rw [not_and_or] at hcond
          rcases hcond with ha | hmem
          · exact Or.inl (by simpa using ha)
          · exact Or.inr hmem
    · simp [hm, Except.isOk, Except.toBool]

/-- The badge-engine ladder is sorted by threshold (Python `list.sort` on
`threshold_value`). -/
theorem cumulativeBadgesSorted_sorted (s : State) :
    (cumulativeBadgesSorted s).Sorted badgeLe :=
  List.sorted_insertionSort badgeLe _

/-- On a threshold-sorted ladder, the first badge satisfying a predicate has
the least threshold among all badges satisfying it. -/
theorem sorted_find?_le (p : Badge → Bool) :
    ∀ l : List Badge, l.Sorted badgeLe → ∀ b, l.find? p = some b →
      ∀ x ∈ l, p x = true → badgeLe b x := by
  intro l
  induction l with
  | nil => intro _ b hb; simp at hb
  | cons a t ih =>
    intro hs b hb x hx hpx
    rcases List.sorted_cons.mp hs with ⟨ha, ht⟩
    cases hpa : p a with
    | true =>
      rw [List.find?_cons_of_pos _ hpa] at hb
      injection hb with hb'
      subst hb'
      rcases List.mem_cons.mp hx with rfl | hxt
      · exact le_refl _
      · exact ha x hxt
    | false =>
      rw [List.find?_cons_of_neg _ (by simp [hpa])] at hb
      rcases List.mem_cons.mp hx with rfl | hxt
      · rw [hpa] at hpx; cases hpx
      · exact ih ht b hb x hxt hpx

/-- Claim C5 (amended): for a kid holding a current cumulative-badge tier,
when cycle points fall below the tier's maintenance requirement the kid
moves down exactly one rung of the threshold-sorted ladder (the entry just
before the current one), with the state untouched; when maintenance is met,
the kid moves to the badge `_determine_cumulative_badge_for_kid` finds
first in ascending threshold order — the LOWEST rung strictly above the
current threshold whose threshold the baseline+cycle total meets — not to
the highest qualifying rung. -/
theorem c5_cumulative_badge_transition (s : State) (kid_id : String) (k : Kid)
    (cb : Badge)
    (hk : s.kids.find? kid_id = some k)
    (hcur : truthyStr k.pre_reset_badge = true)
    (hfind : (cumulativeBadgesSorted s).find?
        (fun b => b.internal_id = k.pre_reset_badge.getD "") = some cb) :
    (k.cumulative_earned_points < cb.maintenance_rules →
      (∀ i, (cumulativeBadgesSorted s).findIdx?
            (fun b => b.internal_id = k.pre_reset_badge.getD "") = some (i + 1) →
        (determine_cumulative_badge_for_kid s kid_id).1
          = ((cumulativeBadgesSorted s).get? i).map (fun b => b.internal_id)) ∧
      (determine_cumulative_badge_for_kid s kid_id).2 = s) ∧
    (cb.maintenance_rules ≤ k.cumulative_earned_points →
      ∀ b, (cumulativeBadgesSorted s).find? (fun x =>
          x.threshold_value > cb.threshold_value ∧
          k.cumulative_badge_baseline.getD 0 + k.cumulative_earned_points
            ≥ x.threshold_value) = some b →
        (determine_cumulative_badge_for_kid s kid_id).1 = some b.internal_id ∧
        cb.threshold_value < b.threshold_value ∧
        b.threshold_value
          ≤ k.cumulative_badge_baseline.getD 0 + k.cumulative_earned_points ∧
        ∀ x ∈ cumulativeBadgesSorted s,
          cb.threshold_value < x.threshold_value →
          x.threshold_value
              ≤ k.cumulative_badge_baseline.getD 0 + k.cumulative_earned_points →
          b.threshold_value ≤ x.threshold_value) := by
  unfold determine_cumulative_badge_for_kid
  rw [hk]
  simp only [hcur, if_true, hfind]
  constructor
  · intro hlt
    rw [if_neg (not_le.mpr hlt)]
    constructor
    · intro i hidx
      unfold get_next_lower_badge
      simp only [hidx]
    · rfl
  · intro hge b hb
    rw [if_pos hge, hb]
    refine ⟨rfl, ?_, ?_, ?_⟩
    · have := List.find?_some hb
      simp at this
      exact this.1
    · have := List.find?_some hb
      simp at this
      exact this.2
    · intro x hx hxgt hxle
      exact sorted_find?_le _ _ (cumulativeBadgesSorted_sorted s) b hb x hx
        (by simp; exact ⟨hxgt, hxle⟩)

/-- Counterexample state for claim C5: ladder b10/b20/b30 with thresholds
10/20/30, kid "k" on tier b10 with maintenance met and
baseline+cycle = 0+35, enough for b30. -/
def c5_upgrade_state : State :=
  { kids := [("k",
      { pre_reset_badge := some "b10",
        cumulative_badge_baseline := some 0,
        cumulative_earned_points := 35 })],
    badges :=
      [("b10", { internal_id := "b10", threshold_value := 10,
                 maintenance_rules := 0 }),
       ("b20", { internal_id := "b20", threshold_value := 20 }),
       ("b30", { internal_id := "b30", threshold_value := 30 })] }

/-- Counterexample to claim C5: with 35 total points the highest qualifying
rung is b30 (threshold 30 ≤ 35), yet re-evaluation moves the kid to b20 —
the upgrade never skips a qualifying rung, contradicting "reaching the
highest rung whose threshold is ≤ baseline+cycle-points". -/
theorem c5_counterexample_upgrade_not_highest :
    (determine_cumulative_badge_for_kid c5_upgrade_state "k").1 = some "b20" ∧
    ((c5_upgrade_state.badges.find? "b30").getD {}).badge_type
      = BADGE_TYPE_CUMULATIVE ∧
    ((c5_upgrade_state.badges.find? "b30").getD {}).threshold_value ≤ 0 + 35 ∧
    "b20" ≠ "b30" := by
  refine ⟨?_, rfl, ?_, by decide⟩
  · norm_num [determine_cumulative_badge_for_kid, cumulativeBadgesSorted,
      c5_upgrade_state, AList.find?, AList.getD, truthyStr,
      List.insertionSort, List.orderedInsert, badgeLe,
      List.find?, List.findIdx?, AList.modify]
    all_goals decide
  · norm_num [c5_upgrade_state, AList.find?, AList.getD]
    all_goals decide

/-- Witness state for the C5 theorem: kid "k" on tier b20 (maintenance 5)
with only 3 cycle points — a downgrade cycle. -/
def c5_down_state : State :=
  { kids := [("k",
      { pre_reset_badge := some "b20",
        cumulative_badge_baseline := some 0,
        cumulative_earned_points := 3 })],
    badges :=
      [("b10", { internal_id := "b10", threshold_value := 10,
                 maintenance_rules := 0 }),
       ("b20", { internal_id := "b20", threshold_value := 20,
                 maintenance_rules := 5 }),
       ("b30", { internal_id := "b30", threshold_value := 30 })] }

/-- Witness for the C5 theorem: on the concrete downgrade cycle the kid
moves down exactly one rung, from b20 to b10. -/
theorem c5_cumulative_badge_transition_witness :
    (determine_cumulative_badge_for_kid c5_down_state "k").1 = some "b10" := by
  have h := c5_cumulative_badge_transition c5_down_state "k"
    { pre_reset_badge := some "b20",
      cumulative_badge_baseline := some 0,
      cumulative_earned_points := 3 }
    { internal_id := "b20", threshold_value := 20, maintenance_rules := 5 }
    rfl rfl rfl
  have h2 := (h.1 (by norm_num)).1 0 rfl
  exact h2.trans rfl

def choreLists (k : Kid) : List String × List String × List String :=
  (k.claimed_chores, k.approved_chores, k.overdue_chores)

def Frame (s t : State) : Prop :=
  t.chores = s.chores ∧
  ∀ kd, (t.kids.find? kd).map choreLists = (s.kids.find? kd).map choreLists

theorem frame_refl (s : State) : Frame s s := ⟨Eq.refl _, fun _ => Eq.refl _⟩

theorem frame_trans {s t u : State} (h1 : Frame s t) (h2 : Frame t u) :
    Frame s u :=
  ⟨h2.1.trans h1.1, fun kd => (h2.2 kd).trans (h1.2 kd)⟩

theorem frame_ite {s : State} (c : Prop) [Decidable c] {a b : State}
    (ha : Frame s a) (hb : Frame s b) : Frame s (if c then a else b) := by
  split
  · exact ha
  · exact hb

theorem frame_modifyKid (s : State) (kid_id : String) (f : Kid → Kid)
    (h : ∀ k, choreLists (f k) = choreLists k) :
    Frame s (s.modifyKid kid_id f) := by
  refine ⟨Eq.refl _, fun kd => ?_⟩
  show ((s.kids.modify kid_id f).find? kd).map choreLists
    = ((s.kids.find? kd)).map choreLists
  rw [AList.find?_modify]
  by_cases hkd : kd = kid_id
  · rw [if_pos hkd]
    cases s.kids.find? kd <;> simp [h]
  · rw [if_neg hkd]

theorem frame_modifyBadge (s : State) (b : String) (f : Badge → Badge) :
    Frame s (s.modifyBadge b f) := ⟨Eq.refl _, fun _ => Eq.refl _⟩

theorem frame_modifyAchievement (s : State) (a : String)
    (f : Achievement → Achievement) :
    Frame s (s.modifyAchievement a f) := ⟨Eq.refl _, fun _ => Eq.refl _⟩

theorem frame_modifyChallenge (s : State) (c : String)
    (f : Challenge → Challenge) :
    Frame s (s.modifyChallenge c f) := ⟨Eq.refl _, fun _ => Eq.refl _⟩

theorem frame_foldl {β : Type} (step : State → β → State)
    (h : ∀ t x, Frame t (step t x)) :
    ∀ (l : List β) (s : State), Frame s (l.foldl step s) := by
  intro l
  induction l with
  | nil => intro s; exact frame_refl s
  | cons x xs ih =>
    intro s
    exact frame_trans (h s x) (ih (step s x))

theorem frame_update_kid_multiplier (s : State) (kid_id : String) :
    Frame s (update_kid_multiplier s kid_id) := by
  unfold update_kid_multiplier
  cases s.kids.find? kid_id with
  | none => exact frame_refl s
  | some _ =>
    dsimp only
    split
    · exact frame_modifyKid s kid_id _ (fun _ => Eq.refl _)
    · exact frame_modifyKid s kid_id _ (fun _ => Eq.refl _)

theorem frame_remove_badge_from_kid (s : State) (kid_id badge_id : String) :
    Frame s (remove_badge_from_kid s kid_id badge_id) := by
  unfold remove_badge_from_kid
  cases s.badges.find? badge_id with
  | none => exact frame_refl s
  | some badge =>
    dsimp only
    split
    · exact frame_ite _ ⟨Eq.refl _, fun _ => Eq.refl _⟩ (frame_refl s)
    · split
      · refine frame_trans ?_ (frame_modifyKid _ kid_id _ (by intro k; rfl))
        exact frame_ite _ ⟨Eq.refl _, fun _ => Eq.refl _⟩ (frame_refl s)
      · exact frame_ite _ ⟨Eq.refl _, fun _ => Eq.refl _⟩ (frame_refl s)

theorem frame_determine_cumulative (s : State) (kid_id : String) :
    Frame s (determine_cumulative_badge_for_kid s kid_id).2 := by
  unfold determine_cumulative_badge_for_kid
  cases s.kids.find? kid_id with
  | none => exact frame_refl s
  | some kid_info =>
    dsimp only
    split
    · split
      · split
        · split
          · exact frame_modifyKid s kid_id _ (by intro k; rfl)
          · exact frame_refl s
        · exact frame_refl s
      · exact frame_refl s
    · split
      · exact frame_refl s
      · exact frame_refl s

theorem frame_update_chore_streak (s : State) (kid_id chore_id : String)
    (d : Date) : Frame s (update_chore_streak_for_kid s kid_id chore_id d) := by
  unfold update_chore_streak_for_kid
  cases s.kids.find? kid_id with
  | none => exact frame_refl s
  | some kid_info =>
    dsimp only
    split
    · exact frame_refl s
    · exact frame_modifyKid s kid_id _ (by intro k; rfl)

theorem frame_update_overall_streak (s : State) (kid_id : String)
    (d : Date) : Frame s (update_overall_chore_streak s kid_id d) := by
  unfold update_overall_chore_streak
  cases s.kids.find? kid_id with
  | none => exact frame_refl s
  | some kid_info =>
    dsimp only
    split
    · exact frame_refl s
    · split
      · exact frame_modifyKid s kid_id _ (by intro k; rfl)
      · exact frame_modifyKid s kid_id _ (by intro k; rfl)

theorem frame_check_badge_step
    (award : State → String → String → DateTime → State)
    (haward : ∀ (st : State) (kd bid : String) (n : DateTime),
      Frame st (award st kd bid n))
    (s : State) (kid_id badge_id : String) (now : DateTime) :
    Frame s (check_badge_step award s kid_id badge_id now) := by
  unfold check_badge_step
  cases hb : s.badges.find? badge_id with
  | none => exact frame_refl s
  | some badge =>
  cases hk : s.kids.find? kid_id with
  | none => exact frame_refl s
  | some kid_info =>
  refine frame_ite _ ?_ ?_
  · exact frame_refl s
  refine frame_ite _ ?_ ?_
  · exact frame_refl s
  refine frame_ite _ ?_ ?_
  · -- cumulative
    refine frame_ite _ ?_ ?_
    · exact frame_trans (frame_determine_cumulative s kid_id) (haward _ _ _ _)
    · exact frame_trans (frame_determine_cumulative s kid_id)
        (frame_remove_badge_from_kid _ _ _)
  refine frame_ite _ ?_ ?_
  · -- daily
    exact frame_ite _ (haward _ _ _ _) (frame_refl s)
  refine frame_ite _ ?_ ?_
  · -- periodic
    refine frame_ite _ ?_ ?_
    · -- weekly or monthly reset
      refine frame_ite _ ?_ ?_
      · exact frame_ite _ (haward _ _ _ _) (frame_refl s)
      refine frame_ite _ ?_ ?_
      · refine frame_ite _ ?_ ?_
        · refine frame_ite _ ?_ ?_
          · exact frame_trans (frame_modifyKid _ kid_id _ (by intro k; rfl))
              (haward _ _ _ _)
          · exact frame_modifyKid _ kid_id _ (by intro k; rfl)
        · exact frame_refl s
      · exact frame_refl s
    refine frame_ite _ ?_ ?_
    · -- custom reset window
      cases hsd : badge.start_date with
      | none =>
        cases hed : badge.end_date with
        | none => exact frame_refl s
        | some ed => exact frame_refl s
      | some sd =>
        cases hed : badge.end_date with
        | none => exact frame_refl s
        | some ed =>
          refine frame_ite _ ?_ ?_
          · refine frame_ite _ ?_ ?_
            · exact frame_trans (frame_modifyBadge _ _ _)
                (frame_modifyKid _ kid_id _ (by intro k; rfl))
            · exact frame_refl s
          · refine frame_ite _ ?_ ?_
            · exact frame_ite _ (haward _ _ _ _) (frame_refl s)
            refine frame_ite _ ?_ ?_
            · refine frame_ite _ ?_ ?_
              · refine frame_ite _ ?_ ?_
                · exact frame_trans
                    (frame_modifyKid _ kid_id _ (by intro k; rfl))
                    (haward _ _ _ _)
                · exact frame_modifyKid _ kid_id _ (by intro k; rfl)
              · exact frame_refl s
            · exact frame_refl s
    · exact frame_refl s
  refine frame_ite _ ?_ ?_
  · -- achievement-linked
    refine frame_ite _ ?_ ?_
    · cases ha : s.achievements.find? (badge.associated_achievement.getD "") with
      | none => exact frame_refl s
      | some achievement =>
        show Frame s (match achievement.progress.find? kid_id with
          | some kid_prog =>
            if kid_prog.awarded = true then award s kid_id badge_id now
            else s
          | none => s)
        cases hp : achievement.progress.find? kid_id with
        | none => exact frame_refl s
        | some kid_prog =>
          exact frame_ite _ (haward _ _ _ _) (frame_refl s)
    · exact frame_refl s
  refine frame_ite _ ?_ ?_
  · -- challenge-linked
    refine frame_ite _ ?_ ?_
    · cases hc : s.challenges.find? (badge.associated_challenge.getD "") with
      | none => exact frame_refl s
      | some challenge =>
        show Frame s (match challenge.progress.find? kid_id with
          | some kid_prog =>
            if kid_prog.awarded = true then award s kid_id badge_id now
            else s
          | none => s)
        cases hp : challenge.progress.find? kid_id with
        | none => exact frame_refl s
        | some kid_prog =>
          exact frame_ite _ (haward _ _ _ _) (frame_refl s)
    · exact frame_refl s
  refine frame_ite _ ?_ ?_
  · -- special occasion
    cases hod : badge.special_occasion_date with
    | none => exact frame_refl s
    | some occasion_date =>
      refine frame_ite _ ?_ ?_
      · refine frame_ite _ ?_ ?_
        · refine frame_ite _ ?_ ?_
          · exact frame_trans (haward _ _ _ _) (frame_modifyBadge _ _ _)
          · exact frame_refl s
        · exact frame_refl s
      · refine frame_ite _ ?_ ?_
        · exact frame_ite _ (haward _ _ _ _) (frame_refl s)
        · exact frame_refl s
  · exact frame_refl s

theorem frame_check_achievement_step
    (award : State → String → String → DateTime → State)
    (haward : ∀ (st : State) (kd aid : String) (n : DateTime),
      Frame st (award st kd aid n))
    (s : State) (kid_id achievement_id : String) (now : DateTime) :
    Frame s (check_achievement_step award s kid_id achievement_id now) := by
  unfold check_achievement_step
  cases ha : s.achievements.find? achievement_id with
  | none => exact frame_refl s
  | some achievement =>
  cases hk : s.kids.find? kid_id with
  | none => exact frame_refl s
  | some kid_info =>
  refine frame_ite _ ?_ ?_
  · exact frame_refl s
  refine frame_ite _ ?_ ?_
  · -- streak
    refine frame_ite _ ?_ ?_
    · exact frame_trans (frame_modifyAchievement _ _ _) (haward _ _ _ _)
    · exact frame_modifyAchievement _ _ _
  refine frame_ite _ ?_ ?_
  · -- total
    refine frame_ite _ ?_ ?_
    · exact frame_trans (frame_modifyAchievement _ _ _) (haward _ _ _ _)
    · exact frame_modifyAchievement _ _ _
  refine frame_ite _ ?_ ?_
  · -- daily minimum
    refine frame_ite _ ?_ ?_
    · exact frame_trans
        (frame_trans (frame_modifyAchievement _ _ _) (haward _ _ _ _))
        (frame_modifyAchievement _ _ _)
    · exact frame_modifyAchievement _ _ _
  · exact frame_refl s

theorem frame_check_challenge_step
    (award : State → String → String → DateTime → State)
    (haward : ∀ (st : State) (kd cid : String) (n : DateTime),
      Frame st (award st kd cid n))
    (s : State) (kid_id challenge_id : String) (now : DateTime) :
    Frame s (check_challenge_step award s kid_id challenge_id now) := by
  unfold check_challenge_step
  cases hc : s.challenges.find? challenge_id with
  | none => exact frame_refl s
  | some challenge =>
  refine frame_ite _ ?_ ?_
  · exact frame_refl s
  refine frame_ite _ ?_ ?_
  · exact frame_refl s
  refine frame_ite _ ?_ ?_
  · exact frame_refl s
  refine frame_ite _ ?_ ?_
  · -- total within window
    refine frame_ite _ ?_ ?_
    · exact frame_trans (frame_modifyChallenge _ _ _) (haward _ _ _ _)
    · exact frame_modifyChallenge _ _ _
  refine frame_ite _ ?_ ?_
  · -- daily minimum
    cases hsd : challenge.start_date with
    | none =>
      cases hed : challenge.end_date with
      | none => exact frame_modifyChallenge _ _ _
      | some ed => exact frame_modifyChallenge _ _ _
    | some sd =>
      cases hed : challenge.end_date with
      | none => exact frame_modifyChallenge _ _ _
      | some ed =>
        refine frame_ite _ ?_ ?_
        · exact frame_trans (frame_modifyChallenge _ _ _) (haward _ _ _ _)
        · exact frame_modifyChallenge _ _ _
  · exact frame_refl s

theorem frame_award_badge_special_record (s : State) (kid_id badge_id : String)
    (badge0 : Badge) (now : DateTime) :
    Frame s (award_badge_special_record s kid_id badge_id badge0 now) := by
  unfold award_badge_special_record
  refine frame_ite _ ?_ (frame_refl s)
  refine frame_ite _ ?_ ?_
  · exact frame_trans (frame_modifyKid _ kid_id _ (by intro k; rfl))
      (frame_modifyBadge _ _ _)
  · exact frame_modifyKid _ kid_id _ (by intro k; rfl)

theorem frame_award_badge_cum_baseline (s1 : State) (kid_id : String) :
    Frame s1 (award_badge_cum_baseline s1 kid_id) := by
  unfold award_badge_cum_baseline
  cases s1.kids.find? kid_id with
  | none => exact frame_refl s1
  | some k1 =>
    exact frame_ite _ (frame_modifyKid _ kid_id _ (by intro k; rfl))
      (frame_refl s1)

theorem frame_award_badge_cum_prereset (sb : State) (kid_id badge_id : String) :
    Frame sb (award_badge_cum_prereset sb kid_id badge_id) := by
  unfold award_badge_cum_prereset
  cases sb.kids.find? kid_id with
  | none => exact frame_refl sb
  | some k2 =>
    exact frame_ite _ (frame_modifyKid _ kid_id _ (by intro k; rfl))
      (frame_refl sb)

theorem frame_award_badge_cum_init (s1 : State) (kid_id badge_id : String)
    (badge0 : Badge) :
    Frame s1 (award_badge_cum_init s1 kid_id badge_id badge0) := by
  unfold award_badge_cum_init
  refine frame_ite _ ?_ (frame_refl s1)
  exact frame_trans (frame_award_badge_cum_baseline s1 kid_id)
    (frame_award_badge_cum_prereset _ kid_id badge_id)

theorem frame_award_badge_add_name (s3 : State) (kid_id : String)
    (badge0 : Badge) :
    Frame s3 (award_badge_add_name s3 kid_id badge0) := by
  unfold award_badge_add_name
  cases s3.kids.find? kid_id with
  | none => exact frame_refl s3
  | some k3 =>
    refine frame_ite _ ?_ ?_
    · exact frame_modifyKid _ kid_id _ (by intro k; rfl)
    · exact frame_refl s3

theorem frame_award_badge_payout_points
    (ukp : State → String → ℚ → DateTime → State)
    (hukp : ∀ (st : State) (kd : String) (p : ℚ) (n : DateTime),
      Frame st (ukp st kd p n))
    (s4 : State) (kid_id : String) (extra_points : ℚ) (now : DateTime) :
    Frame s4 (award_badge_payout_points ukp s4 kid_id extra_points now) := by
  unfold award_badge_payout_points
  refine frame_ite _ ?_ (frame_refl s4)
  cases s4.kids.find? kid_id with
  | none => exact frame_refl s4
  | some k4 => exact hukp _ _ _ _

theorem frame_reward_mark_redeemed (s7 : State)
    (kid_id one_time_reward : String) :
    Frame s7 (reward_mark_redeemed s7 kid_id one_time_reward) := by
  unfold reward_mark_redeemed
  cases s7.kids.find? kid_id with
  | none => exact frame_refl s7
  | some k7 =>
    exact frame_ite _ (frame_modifyKid _ kid_id _ (by intro k; rfl))
      (frame_refl s7)

theorem frame_award_badge_payout_reward (s5 : State)
    (kid_id one_time_reward : String) :
    Frame s5 (award_badge_payout_reward s5 kid_id one_time_reward) := by
  unfold award_badge_payout_reward
  refine frame_ite _ ?_ (frame_refl s5)
  cases s5.kids.find? kid_id with
  | none => exact frame_refl s5
  | some k5 =>
    refine frame_trans ?_ (frame_reward_mark_redeemed _ kid_id one_time_reward)
    refine frame_trans ?_ (frame_modifyKid _ kid_id _ (by intro k; rfl))
    exact frame_ite _ (frame_modifyKid _ kid_id _ (by intro k; rfl))
      (frame_refl s5)

theorem frame_award_badge_payout
    (ukp : State → String → ℚ → DateTime → State)
    (hukp : ∀ (st : State) (kd : String) (p : ℚ) (n : DateTime),
      Frame st (ukp st kd p n))
    (s4 : State) (kid_id : String) (badge0 : Badge) (now : DateTime) :
    Frame s4 (award_badge_payout ukp s4 kid_id badge0 now) := by
  unfold award_badge_payout
  exact frame_trans (frame_award_badge_payout_points ukp hukp s4 kid_id _ now)
    (frame_award_badge_payout_reward _ kid_id _)

theorem engine_frame (fuel : Nat) :
    (∀ (s : State) (kid_id : String) (p : ℚ) (now : DateTime),
      Frame s (update_kid_points fuel s kid_id p now)) ∧
    (∀ (s : State) (kid_id : String) (now : DateTime),
      Frame s (check_badges_for_kid fuel s kid_id now)) ∧
    (∀ (s : State) (kid_id badge_id : String) (now : DateTime),
      Frame s (award_badge fuel s kid_id badge_id now)) ∧
    (∀ (s : State) (kid_id : String) (now : DateTime),
      Frame s (check_achievements_for_kid fuel s kid_id now)) ∧
    (∀ (s : State) (kid_id achievement_id : String) (now : DateTime),
      Frame s (award_achievement fuel s kid_id achievement_id now)) ∧
    (∀ (s : State) (kid_id : String) (now : DateTime),
      Frame s (check_challenges_for_kid fuel s kid_id now)) ∧
    (∀ (s : State) (kid_id challenge_id : String) (now : DateTime),
      Frame s (award_challenge fuel s kid_id challenge_id now)) := by
  induction fuel with
  | zero =>
    refine ⟨?_, ?_, ?_, ?_, ?_, ?_, ?_⟩ <;> intros <;> exact frame_refl _
  | succ fuel ih =>
    obtain ⟨ih_ukp, ih_cb, ih_ab, ih_ca, ih_aa, ih_cc, ih_ac⟩ := ih
    refine ⟨?_, ?_, ?_, ?_, ?_, ?_, ?_⟩
    · -- update_kid_points
      intro s kid_id p now
      unfold update_kid_points
      cases s.kids.find? kid_id with
      | none => exact frame_refl s
      | some kid_info =>
        dsimp only
        split
        · exact frame_refl s
        · refine frame_trans (frame_trans (frame_trans ?_ (ih_cb _ _ _))
            (ih_ca _ _ _)) (ih_cc _ _ _)
          refine frame_ite _ ?_ ?_
          · refine frame_trans ?_ (frame_modifyKid _ kid_id _ (by intro k; rfl))
            refine frame_ite _ ?_ ?_
            · exact frame_trans (frame_modifyKid _ kid_id _ (by intro k; rfl))
                (frame_modifyKid _ kid_id _ (by intro k; rfl))
            · exact frame_modifyKid _ kid_id _ (by intro k; rfl)
          · refine frame_ite _ ?_ ?_
            · exact frame_trans (frame_modifyKid _ kid_id _ (by intro k; rfl))
                (frame_modifyKid _ kid_id _ (by intro k; rfl))
            · exact frame_modifyKid _ kid_id _ (by intro k; rfl)
    · -- check_badges_for_kid
      intro s kid_id now
      unfold check_badges_for_kid
      cases s.kids.find? kid_id with
      | none => exact frame_refl s
      | some _ =>
        refine frame_foldl _ ?_ _ _
        intro t bid
        exact frame_check_badge_step _
          (fun st kd b n => ih_ab st kd b n) t kid_id bid now
    · -- award_badge
      intro s kid_id badge_id now
      unfold award_badge
      cases s.kids.find? kid_id with
      | none => exact frame_refl s
      | some kid_info0 =>
        cases s.badges.find? badge_id with
        | none => exact frame_refl s
        | some badge0 =>
          refine frame_ite _ ?_ ?_
          · exact frame_refl s
          refine frame_ite _ ?_ ?_
          · exact frame_refl s
          refine frame_ite _ ?_ ?_
          · refine frame_trans ?_ (frame_update_kid_multiplier _ kid_id)
            refine frame_trans ?_ (frame_award_badge_add_name _ kid_id badge0)
            refine frame_trans ?_ (frame_modifyBadge _ _ _)
            refine frame_trans ?_
              (frame_award_badge_cum_init _ kid_id badge_id badge0)
            exact frame_award_badge_special_record s kid_id badge_id badge0 now
          refine frame_ite _ ?_ ?_
          · refine frame_trans ?_ (frame_award_badge_payout _
              (fun st kd p n => ih_ukp st kd p n) _ kid_id badge0 now)
            refine frame_trans ?_ (frame_award_badge_add_name _ kid_id badge0)
            refine frame_trans ?_ (frame_modifyBadge _ _ _)
            refine frame_trans ?_
              (frame_award_badge_cum_init _ kid_id badge_id badge0)
            exact frame_award_badge_special_record s kid_id badge_id badge0 now
          · refine frame_trans ?_ (frame_award_badge_add_name _ kid_id badge0)
            refine frame_trans ?_ (frame_modifyBadge _ _ _)
            refine frame_trans ?_
              (frame_award_badge_cum_init _ kid_id badge_id badge0)
            exact frame_award_badge_special_record s kid_id badge_id badge0 now
    · -- check_achievements_for_kid
      intro s kid_id now
      unfold check_achievements_for_kid
      cases s.kids.find? kid_id with
      | none => exact frame_refl s
      | some _ =>
        refine frame_foldl _ ?_ _ _
        intro t aid
        exact frame_check_achievement_step _
          (fun st kd a n => ih_aa st kd a n) t kid_id aid now
    · -- award_achievement
      intro s kid_id achievement_id now
      have htMA : ∀ (u : State) (a : String) (f : Achievement → Achievement),
          Frame s u → Frame s (u.modifyAchievement a f) := fun u a f h =>
        frame_trans h (frame_modifyAchievement u a f)
      have htUKP : ∀ (u : State) (kd : String) (p : ℚ) (n : DateTime),
          Frame s u → Frame s (update_kid_points fuel u kd p n) :=
        fun u kd p n h => frame_trans h (ih_ukp u kd p n)
      unfold award_achievement
      cases s.achievements.find? achievement_id with
      | none => exact frame_refl s
      | some achievement =>
        repeat'
          first
          | refine htMA _ _ _ ?_
          | refine htUKP _ _ _ _ ?_
          | refine frame_ite _ ?_ ?_
          | split
          | dsimp only
          | exact frame_refl _
    · -- check_challenges_for_kid
      intro s kid_id now
      unfold check_challenges_for_kid
      cases s.kids.find? kid_id with
      | none => exact frame_refl s
      | some _ =>
        refine frame_foldl _ ?_ _ _
        intro t cid
        exact frame_check_challenge_step _
          (fun st kd c n => ih_ac st kd c n) t kid_id cid now
    · -- award_challenge
      intro s kid_id challenge_id now
      have htMC : ∀ (u : State) (c : String) (f : Challenge → Challenge),
          Frame s u → Frame s (u.modifyChallenge c f) := fun u c f h =>
        frame_trans h (frame_modifyChallenge u c f)
      have htUKP : ∀ (u : State) (kd : String) (p : ℚ) (n : DateTime),
          Frame s u → Frame s (update_kid_points fuel u kd p n) :=
        fun u kd p n h => frame_trans h (ih_ukp u kd p n)
      unfold award_challenge
      cases s.challenges.find? challenge_id with
      | none => exact frame_refl s
      | some challenge =>
        repeat'
          first
          | refine htMC _ _ _ ?_
          | refine htUKP _ _ _ _ ?_
          | refine frame_ite _ ?_ ?_
          | split
          | dsimp only
          | exact frame_refl _

def KidsAgree (u v : State) : Prop :=
  ∀ kd, (v.kids.find? kd).map choreLists = (u.kids.find? kd).map choreLists

theorem kidsAgree_refl (u : State) : KidsAgree u u := fun _ => Eq.refl _

theorem kidsAgree_trans {u v w : State} (h1 : KidsAgree u v)
    (h2 : KidsAgree v w) : KidsAgree u w :=
  fun kd => (h2 kd).trans (h1 kd)

theorem Frame.kidsAgree {u v : State} (h : Frame u v) : KidsAgree u v := h.2

theorem kid_chore_state_of_kidsAgree {u v : State} (h : KidsAgree u v)
    (cid kd : String) : kid_chore_state v cid kd = kid_chore_state u cid kd := by
  unfold kid_chore_state
  have h2 := h kd
  cases hu : u.kids.find? kd with
  | none =>
    cases hv : v.kids.find? kd with
    | none => rfl
    | some kv => rw [hu, hv] at h2; simp [choreLists] at h2
  | some ku =>
    cases hv : v.kids.find? kd with
    | none => rw [hu, hv] at h2; simp [choreLists] at h2
    | some kv =>
      rw [hu, hv] at h2
      simp [choreLists, Prod.ext_iff] at h2
      obtain ⟨e1, e2, e3⟩ := h2
      dsimp only [Option.getD_some]
      rw [e1, e2, e3]

theorem kid_chore_state_eval (u : State) (cid kd : String) (k : Kid)
    (h : u.kids.find? kd = some k) :
    kid_chore_state u cid kd =
      (if cid ∈ k.overdue_chores then ChoreState.overdue
       else if cid ∈ k.approved_chores then ChoreState.approved
       else if cid ∈ k.claimed_chores then ChoreState.claimed
       else ChoreState.pending) := by
  unfold kid_chore_state
  rw [h]
  rfl

theorem kid_chore_state_compute (u : State) (cid : String) (ns : ChoreState)
    (cid2 kd : String) :
    kid_chore_state (compute_global_state u cid ns) cid2 kd
      = kid_chore_state u cid2 kd := by
  unfold compute_global_state
  cases u.chores.find? cid with
  | none => rfl
  | some c =>
    dsimp only
    split_ifs <;> rfl

theorem compute_global_state_find? (u : State) (cid : String)
    (ns : ChoreState) (c' : Chore) (h : u.chores.find? cid = some c') :
    ∃ st, (compute_global_state u cid ns).chores.find? cid
      = some { c' with state := st } := by
  unfold compute_global_state
  rw [h]
  dsimp only
  split_ifs <;>
    exact ⟨_, by
      show (u.chores.modify cid _).find? cid = _
      rw [AList.find?_modify, if_pos rfl, h]
      rfl⟩


/-- The spec's global-state reducer, written from the specification text:
if all assignees share one state that state wins (a single assignee's own
state in particular); else for a shared chore the precedence
Overdue > ApprovedInPart > ClaimedInPart > Unknown applies; else the chore
is Independent. -/
def spec_global_reduce (shared : Bool) (states : List ChoreState) : ChoreState :=
  match states with
  | [] => ChoreState.unknown
  | st0 :: rest =>
    if (st0 :: rest).all (fun st => st = st0) then st0
    else if shared then
      if ChoreState.overdue ∈ st0 :: rest then ChoreState.overdue
      else if ChoreState.approved ∈ st0 :: rest then ChoreState.approvedInPart
      else if ChoreState.claimed ∈ st0 :: rest then ChoreState.claimedInPart
      else ChoreState.unknown
    else ChoreState.independent

theorem kid_chore_state_mem4 (s : State) (chore_id kd : String) :
    kid_chore_state s chore_id kd = ChoreState.pending ∨
    kid_chore_state s chore_id kd = ChoreState.claimed ∨
    kid_chore_state s chore_id kd = ChoreState.approved ∨
    kid_chore_state s chore_id kd = ChoreState.overdue := by
  unfold kid_chore_state
  dsimp only
  split_ifs <;> simp

theorem compute_global_state_spec (s : State) (chore_id : String)
    (new_state : ChoreState) (c : Chore) (kid_id : String)
    (hc : s.chores.find? chore_id = some c)
    (hmem : kid_id ∈ c.assigned_kids)
    (hkstate : kid_chore_state s chore_id kid_id = new_state) :
    (((compute_global_state s chore_id new_state).chores.find? chore_id).getD
        {}).state
      = spec_global_reduce c.shared_chore
          (c.assigned_kids.map (kid_chore_state s chore_id)) := by
  have hfind : ∀ f : Chore → Chore,
      ((s.modifyChore chore_id f).chores.find? chore_id).getD {} = f c := by
    intro f
    show ((s.chores.modify chore_id f).find? chore_id).getD {} = f c
    rw [AList.find?_modify, if_pos rfl, hc]
    rfl
  unfold compute_global_state
  rw [hc]
  dsimp only
  cases hak : c.assigned_kids with
  | nil =>
    rw [hak] at hmem
    exact absurd hmem (List.not_mem_nil _)
  | cons a0 rest =>
    by_cases hone : rest = []
    · subst hone
      rw [if_pos (by rfl)]
      rw [hfind]
      have ha0 : a0 = kid_id := by
        rw [hak] at hmem
        rcases List.mem_cons.mp hmem with h | h
        · exact h.symm
        · cases List.not_mem_nil _ h
      subst ha0
      simp [spec_global_reduce, hak, hkstate]
    · -- multiple assignees
      have hlen1 : ¬ ((a0 :: rest).length = 1) := by
        simp only [List.length_cons]
        intro h
        exact hone (List.eq_nil_of_length_eq_zero (by omega))
      have hlen2 : (a0 :: rest).length > 1 := by
        have := List.length_pos.mpr hone
        simp only [List.length_cons]
        omega
      rw [if_neg hlen1, if_pos hlen2]
      rw [hak] at hmem
      have hall : ∀ X : ChoreState,
          (List.countP (fun k =>
              decide (kid_chore_state s chore_id k = X)) (a0 :: rest)
            = (a0 :: rest).length)
          ↔ (∀ k ∈ a0 :: rest, kid_chore_state s chore_id k = X) := by
        intro X
        rw [List.countP_eq_length]
        simp
      have hallstates :
          (((a0 :: rest).map (kid_chore_state s chore_id)).all
              (fun st => st = kid_chore_state s chore_id a0) = true)
          ↔ ∀ k ∈ a0 :: rest,
              kid_chore_state s chore_id k = kid_chore_state s chore_id a0 := by
        simp [List.all_eq_true, List.mem_map]
      by_cases hsame : ∀ k ∈ a0 :: rest,
          kid_chore_state s chore_id k = kid_chore_state s chore_id a0
      · have hcond : List.countP (fun k =>
            decide (kid_chore_state s chore_id k = ChoreState.pending))
              (a0 :: rest) = (a0 :: rest).length ∨
            List.countP (fun k =>
              decide (kid_chore_state s chore_id k = ChoreState.claimed))
              (a0 :: rest) = (a0 :: rest).length ∨
            List.countP (fun k =>
              decide (kid_chore_state s chore_id k = ChoreState.approved))
              (a0 :: rest) = (a0 :: rest).length ∨
            List.countP (fun k =>
              decide (kid_chore_state s chore_id k = ChoreState.overdue))
              (a0 :: rest) = (a0 :: rest).length := by
          rcases kid_chore_state_mem4 s chore_id a0 with h4 | h4 | h4 | h4
          · exact Or.inl ((hall _).mpr (fun k hk => (hsame k hk).trans h4))
          · exact Or.inr (Or.inl ((hall _).mpr
              (fun k hk => (hsame k hk).trans h4)))
          · exact Or.inr (Or.inr (Or.inl ((hall _).mpr
              (fun k hk => (hsame k hk).trans h4))))
          · exact Or.inr (Or.inr (Or.inr ((hall _).mpr
              (fun k hk => (hsame k hk).trans h4))))
        rw [if_pos hcond, hfind]
        have hnsa0 : kid_chore_state s chore_id a0 = new_state := by
          rw [← hkstate]
          exact (hsame kid_id hmem).symm
        show new_state = spec_global_reduce c.shared_chore _
        rw [show ((a0 :: rest).map (kid_chore_state s chore_id))
            = kid_chore_state s chore_id a0
              :: rest.map (kid_chore_state s chore_id) from rfl]
        unfold spec_global_reduce
        dsimp only
        rw [if_pos (by
          have := hallstates.mpr hsame
          simpa using this)]
        exact hnsa0.symm
      · have hcond : ¬ (List.countP (fun k =>
            decide (kid_chore_state s chore_id k = ChoreState.pending))
              (a0 :: rest) = (a0 :: rest).length ∨
            List.countP (fun k =>
              decide (kid_chore_state s chore_id k = ChoreState.claimed))
              (a0 :: rest) = (a0 :: rest).length ∨
            List.countP (fun k =>
              decide (kid_chore_state s chore_id k = ChoreState.approved))
              (a0 :: rest) = (a0 :: rest).length ∨
            List.countP (fun k =>
              decide (kid_chore_state s chore_id k = ChoreState.overdue))
              (a0 :: rest) = (a0 :: rest).length) := by
          intro hor
          apply hsame
          rcases hor with h | h | h | h <;>
            { have hx := (hall _).mp h
              intro k hk
              rw [hx k hk, hx a0 (List.mem_cons_self _ _)] }
        rw [if_neg hcond]
        have hspec_same : ¬ ((kid_chore_state s chore_id a0
            :: rest.map (kid_chore_state s chore_id)).all
              (fun st => st = kid_chore_state s chore_id a0) = true) := by
          intro h
          exact hsame (hallstates.mp h)
        rw [show ((a0 :: rest).map (kid_chore_state s chore_id))
            = kid_chore_state s chore_id a0
              :: rest.map (kid_chore_state s chore_id) from rfl]
        unfold spec_global_reduce
        dsimp only
        rw [if_neg hspec_same]
        by_cases hsh : c.shared_chore = true
        · rw [if_pos hsh, if_pos hsh]
          have hmm : ∀ X : ChoreState,
              (0 < List.countP (fun k =>
                decide (kid_chore_state s chore_id k = X)) (a0 :: rest))
              ↔ X ∈ kid_chore_state s chore_id a0
                  :: rest.map (kid_chore_state s chore_id) := by
            intro X
            rw [List.countP_pos]
            constructor
            · rintro ⟨k, hk, hpk⟩
              simp at hpk
              rw [← hpk]
              rcases List.mem_cons.mp hk with rfl | hk2
              · exact List.mem_cons_self _ _
              · exact List.mem_cons_of_mem _
                  (List.mem_map.mpr ⟨k, hk2, rfl⟩)
            · intro hx
              rcases List.mem_cons.mp hx with h | h
              · exact ⟨a0, List.mem_cons_self _ _, by simp [h]⟩
              · rcases List.mem_map.mp h with ⟨k, hk2, hfk⟩
                exact ⟨k, List.mem_cons_of_mem _ hk2, by simp [hfk]⟩
          by_cases hov : ChoreState.overdue ∈ kid_chore_state s chore_id a0
              :: rest.map (kid_chore_state s chore_id)
          · rw [if_pos ((hmm _).mpr hov), if_pos hov, hfind]
          · rw [if_neg (fun h => hov ((hmm _).mp h)), if_neg hov]
            by_cases hap : ChoreState.approved ∈ kid_chore_state s chore_id a0
                :: rest.map (kid_chore_state s chore_id)
            · rw [if_pos ((hmm _).mpr hap), if_pos hap, hfind]
            · rw [if_neg (fun h => hap ((hmm _).mp h)), if_neg hap]
              by_cases hcl : ChoreState.claimed ∈ kid_chore_state s chore_id a0
                  :: rest.map (kid_chore_state s chore_id)
              · rw [if_pos ((hmm _).mpr hcl), if_pos hcl, hfind]
              · rw [if_neg (fun h => hcl ((hmm _).mp h)), if_neg hcl, hfind]
        · rw [if_neg hsh, if_neg hsh, hfind]

theorem process_claimed_branch_chores (u : State) (kid_id chore_id : String)
    (now : DateTime) :
    (process_claimed_branch u kid_id chore_id now).chores
      = u.chores.modify chore_id (fun c => { c with last_claimed := some now }) :=
  rfl

theorem process_pending_branch_chores (u : State) (kid_id chore_id : String) :
    (process_pending_branch u kid_id chore_id).chores = u.chores := rfl

theorem process_overdue_branch_chores (u : State) (kid_id chore_id : String) :
    (process_overdue_branch u kid_id chore_id).chores = u.chores := rfl

theorem process_approved_branch_chores (fuel : Nat) (u : State)
    (kid_id chore_id : String) (pts : Option ℚ) (now : DateTime) :
    (process_approved_branch fuel u kid_id chore_id pts now).chores
      = u.chores.modify chore_id
          (fun c => { c with last_completed := some now }) := by
  unfold process_approved_branch
  cases pts with
  | none =>
    show (update_overall_chore_streak
        (update_chore_streak_for_kid _ kid_id chore_id _) kid_id _).chores = _
    rw [(frame_update_overall_streak _ _ _).1,
      (frame_update_chore_streak _ _ _ _).1]
    rfl
  | some p =>
    show (update_overall_chore_streak
        (update_chore_streak_for_kid
          (update_kid_points fuel _ kid_id _ now) kid_id chore_id _)
        kid_id _).chores = _
    rw [(frame_update_overall_streak _ _ _).1,
      (frame_update_chore_streak _ _ _ _).1,
      ((engine_frame fuel).1 _ _ _ _).1]
    rfl

theorem process_claimed_branch_state (u : State) (kid_id chore_id : String)
    (now : DateTime) (ku : Kid) (hu : u.kids.find? kid_id = some ku)
    (hov : chore_id ∉ ku.overdue_chores) :
    kid_chore_state (process_claimed_branch u kid_id chore_id now)
      chore_id kid_id = ChoreState.claimed := by
  have hfind : (process_claimed_branch u kid_id chore_id now).kids.find? kid_id
      = ((u.kids.find? kid_id).map (fun k =>
          { k with
            approved_chores :=
              k.approved_chores.filter (fun e => e ≠ chore_id) })).map (fun k =>
        if chore_id ∉ k.claimed_chores then
          { k with claimed_chores := k.claimed_chores ++ [chore_id] }
        else k) := by
    show ((u.modifyKid kid_id _).modifyKid kid_id _).kids.find? kid_id = _
    rw [find?_modifyKid_self, find?_modifyKid_self]
  rw [hu] at hfind
  simp only [Option.map_some'] at hfind
  rw [kid_chore_state_eval _ _ _ _ hfind]
  by_cases hcl : chore_id ∈ ku.claimed_chores
  · rw [if_neg (not_not_intro hcl)]
    simp [List.mem_filter, hov, hcl]
  · rw [if_pos hcl]
    simp [List.mem_filter, hov]

theorem process_pending_branch_state (u : State) (kid_id chore_id : String)
    (ku : Kid) (hu : u.kids.find? kid_id = some ku)
    (hov : chore_id ∉ ku.overdue_chores) :
    kid_chore_state (process_pending_branch u kid_id chore_id)
      chore_id kid_id = ChoreState.pending := by
  have hfind : (process_pending_branch u kid_id chore_id).kids.find? kid_id
      = (u.kids.find? kid_id).map (fun k =>
          { k with
            claimed_chores := k.claimed_chores.filter (fun e => e ≠ chore_id),
            approved_chores :=
              k.approved_chores.filter (fun e => e ≠ chore_id) }) := by
    show (u.modifyKid kid_id _).kids.find? kid_id = _
    rw [find?_modifyKid_self]
  rw [hu] at hfind
  simp only [Option.map_some'] at hfind
  rw [kid_chore_state_eval _ _ _ _ hfind]
  simp [List.mem_filter, hov]

theorem process_overdue_branch_state (u : State) (kid_id chore_id : String)
    (ku : Kid) (hu : u.kids.find? kid_id = some ku) :
    kid_chore_state (process_overdue_branch u kid_id chore_id)
      chore_id kid_id = ChoreState.overdue := by
  have hfind : (process_overdue_branch u kid_id chore_id).kids.find? kid_id
      = (u.kids.find? kid_id).map (fun k =>
          if chore_id ∉ k.overdue_chores then
            { k with overdue_chores := k.overdue_chores ++ [chore_id] }
          else k) := by
    show (u.modifyKid kid_id _).kids.find? kid_id = _
    rw [find?_modifyKid_self]
  rw [hu] at hfind
  simp only [Option.map_some'] at hfind
  rw [kid_chore_state_eval _ _ _ _ hfind]
  by_cases hov2 : chore_id ∈ ku.overdue_chores
  · rw [if_neg (not_not_intro hov2)]
    simp [hov2]
  · rw [if_pos hov2]
    simp

theorem process_approved_branch_state (fuel : Nat) (u : State)
    (kid_id chore_id : String) (pts : Option ℚ) (now : DateTime)
    (ku : Kid) (hu : u.kids.find? kid_id = some ku)
    (hov : chore_id ∉ ku.overdue_chores) :
    kid_chore_state (process_approved_branch fuel u kid_id chore_id pts now)
      chore_id kid_id = ChoreState.approved := by
  have hagree : KidsAgree
      ((u.modifyKid kid_id (fun k =>
        { k with
          claimed_chores :=
            k.claimed_chores.filter (fun e => e ≠ chore_id) })).modifyKid kid_id
        (fun k =>
          if chore_id ∉ k.approved_chores then
            { k with approved_chores := k.approved_chores ++ [chore_id] }
          else k))
      (process_approved_branch fuel u kid_id chore_id pts now) := by
    cases pts with
    | none =>
      intro kd
      show ((update_overall_chore_streak
          (update_chore_streak_for_kid _ kid_id chore_id _) kid_id
          _).kids.find? kd).map choreLists = _
      rw [(frame_update_overall_streak _ _ _).2 kd,
        (frame_update_chore_streak _ _ _ _).2 kd]
      rfl
    | some p =>
      intro kd
      show ((update_overall_chore_streak
          (update_chore_streak_for_kid
            (update_kid_points fuel _ kid_id _ now) kid_id chore_id _) kid_id
          _).kids.find? kd).map choreLists = _
      rw [(frame_update_overall_streak _ _ _).2 kd,
        (frame_update_chore_streak _ _ _ _).2 kd,
        ((engine_frame fuel).1 _ _ _ _).2 kd]
      rfl
  rw [kid_chore_state_of_kidsAgree hagree]
  have hfind : ((u.modifyKid kid_id (fun k =>
      { k with
        claimed_chores :=
          k.claimed_chores.filter (fun e => e ≠ chore_id) })).modifyKid kid_id
      (fun k =>
        if chore_id ∉ k.approved_chores then
          { k with approved_chores := k.approved_chores ++ [chore_id] }
        else k)).kids.find? kid_id
      = ((u.kids.find? kid_id).map (fun k =>
          { k with
            claimed_chores :=
              k.claimed_chores.filter (fun e => e ≠ chore_id) })).map (fun k =>
        if chore_id ∉ k.approved_chores then
          { k with approved_chores := k.approved_chores ++ [chore_id] }
        else k) := by
    rw [find?_modifyKid_self, find?_modifyKid_self]
  rw [hu] at hfind
  simp only [Option.map_some'] at hfind
  rw [kid_chore_state_eval _ _ _ _ hfind]
  by_cases hap : chore_id ∈ ku.approved_chores
  · rw [if_neg (not_not_intro hap)]
    simp [List.mem_filter, hov, hap]
  · rw [if_pos hap]
    simp [List.mem_filter, hov]

/-- Claim C2: after any per-kid state transition through
`_process_chore_state` (the transitioning kid being assigned to the chore),
the chore's recorded global state is exactly the spec's reducer applied to
the vector of per-kid derived states: one assignee's own state with a single
assignee, the common state when all assignees agree, else for a shared chore
the precedence Overdue > ApprovedInPart > ClaimedInPart > Unknown, and
Independent for a mixed non-shared chore. -/
theorem c2_global_state_reduction (fuel : Nat) (s : State)
    (kid_id chore_id : String) (new_state : ChoreState) (pts : Option ℚ)
    (now : DateTime) (c : Chore) (k0 : Kid)
    (hk : s.kids.find? kid_id = some k0)
    (hc : s.chores.find? chore_id = some c)
    (hmem : kid_id ∈ c.assigned_kids)
    (hns : new_state = ChoreState.claimed ∨ new_state = ChoreState.approved ∨
      new_state = ChoreState.pending ∨ new_state = ChoreState.overdue) :
    (((process_chore_state fuel s kid_id chore_id new_state pts
        now).chores.find? chore_id).getD {}).state
      = spec_global_reduce
          ((((process_chore_state fuel s kid_id chore_id new_state pts
            now).chores.find? chore_id).getD {}).shared_chore)
          (((((process_chore_state fuel s kid_id chore_id new_state pts
            now).chores.find? chore_id).getD {}).assigned_kids).map
            (kid_chore_state
              (process_chore_state fuel s kid_id chore_id new_state pts now)
              chore_id)) := by
  rcases hns with rfl | rfl | rfl | rfl
  · -- claimed
    unfold process_chore_state
    rw [hk, hc]
    dsimp only
    rw [if_pos (show ChoreState.claimed ≠ ChoreState.overdue by decide),
      if_pos (show ChoreState.claimed = ChoreState.claimed from rfl)]
    generalize hsA : (s.modifyKid kid_id (fun k =>
        { k with
          overdue_chores :=
            k.overdue_chores.filter (fun e => e ≠ chore_id) })).modifyKid kid_id
        (fun k =>
          { k with
            overdue_notifications :=
              k.overdue_notifications.erase chore_id }) = sAv
    have hA : ∃ kA, sAv.kids.find? kid_id = some kA ∧
        chore_id ∉ kA.overdue_chores := by
      rw [← hsA, find?_modifyKid_self, find?_modifyKid_self, hk]
      refine ⟨_, rfl, ?_⟩
      simp [List.mem_filter]
    obtain ⟨kA, hA, hovA⟩ := hA
    have hAc : sAv.chores.find? chore_id = some c := by
      rw [← hsA]
      exact hc
    have hstate := process_claimed_branch_state sAv kid_id chore_id now kA hA
      hovA
    have hBc : (process_claimed_branch sAv kid_id
        chore_id now).chores.find? chore_id
        = some { c with last_claimed := some now } := by
      rw [process_claimed_branch_chores]
      rw [AList.find?_modify, if_pos rfl, hAc]
      rfl
    have main := compute_global_state_spec _ chore_id ChoreState.claimed _
      kid_id hBc hmem hstate
    obtain ⟨st, hsc⟩ := compute_global_state_find? _ chore_id
      ChoreState.claimed _ hBc
    rw [main, hsc]
    rw [show kid_chore_state (compute_global_state
        (process_claimed_branch sAv kid_id chore_id now) chore_id
        ChoreState.claimed) chore_id
      = kid_chore_state (process_claimed_branch sAv kid_id chore_id now)
          chore_id from funext fun kd => kid_chore_state_compute _ _ _ _ kd]
    rfl
  · -- approved
    unfold process_chore_state
    rw [hk, hc]
    dsimp only
    rw [if_pos (show ChoreState.approved ≠ ChoreState.overdue by decide),
      if_neg (show ¬ ChoreState.approved = ChoreState.claimed by decide),
      if_pos (show ChoreState.approved = ChoreState.approved from rfl)]
    generalize hsA : (s.modifyKid kid_id (fun k =>
        { k with
          overdue_chores :=
            k.overdue_chores.filter (fun e => e ≠ chore_id) })).modifyKid kid_id
        (fun k =>
          { k with
            overdue_notifications :=
              k.overdue_notifications.erase chore_id }) = sAv
    have hA : ∃ kA, sAv.kids.find? kid_id = some kA ∧
        chore_id ∉ kA.overdue_chores := by
      rw [← hsA, find?_modifyKid_self, find?_modifyKid_self, hk]
      refine ⟨_, rfl, ?_⟩
      simp [List.mem_filter]
    obtain ⟨kA, hA, hovA⟩ := hA
    have hAc : sAv.chores.find? chore_id = some c := by
      rw [← hsA]
      exact hc
    have hstate := process_approved_branch_state fuel sAv kid_id chore_id pts
      now kA hA hovA
    have hBc : (process_approved_branch fuel sAv kid_id chore_id pts
        now).chores.find? chore_id
        = some { c with last_completed := some now } := by
      rw [process_approved_branch_chores]
      rw [AList.find?_modify, if_pos rfl, hAc]
      rfl
    have main := compute_global_state_spec _ chore_id ChoreState.approved _
      kid_id hBc hmem hstate
    obtain ⟨st, hsc⟩ := compute_global_state_find? _ chore_id
      ChoreState.approved _ hBc
    rw [main, hsc]
    rw [show kid_chore_state (compute_global_state
        (process_approved_branch fuel sAv kid_id chore_id pts now) chore_id
        ChoreState.approved) chore_id
      = kid_chore_state (process_approved_branch fuel sAv kid_id chore_id pts
          now) chore_id from funext fun kd => kid_chore_state_compute _ _ _ _ kd]
    rfl
  · -- pending
    unfold process_chore_state
    rw [hk, hc]
    dsimp only
    rw [if_pos (show ChoreState.pending ≠ ChoreState.overdue by decide),
      if_neg (show ¬ ChoreState.pending = ChoreState.claimed by decide),
      if_neg (show ¬ ChoreState.pending = ChoreState.approved by decide),
      if_pos (show ChoreState.pending = ChoreState.pending from rfl)]
    generalize hsA : (s.modifyKid kid_id (fun k =>
        { k with
          overdue_chores :=
            k.overdue_chores.filter (fun e => e ≠ chore_id) })).modifyKid kid_id
        (fun k =>
          { k with
            overdue_notifications :=
              k.overdue_notifications.erase chore_id }) = sAv
    have hA : ∃ kA, sAv.kids.find? kid_id = some kA ∧
        chore_id ∉ kA.overdue_chores := by
      rw [← hsA, find?_modifyKid_self, find?_modifyKid_self, hk]
      refine ⟨_, rfl, ?_⟩
      simp [List.mem_filter]
    obtain ⟨kA, hA, hovA⟩ := hA
    have hAc : sAv.chores.find? chore_id = some c := by
      rw [← hsA]
      exact hc
    have hstate := process_pending_branch_state sAv kid_id chore_id kA hA hovA
    have hBc : (process_pending_branch sAv kid_id
        chore_id).chores.find? chore_id = some c := by
      rw [process_pending_branch_chores]
      exact hAc
    have main := compute_global_state_spec _ chore_id ChoreState.pending _
      kid_id hBc hmem hstate
    obtain ⟨st, hsc⟩ := compute_global_state_find? _ chore_id
      ChoreState.pending _ hBc
    rw [main, hsc]
    rw [show kid_chore_state (compute_global_state
        (process_pending_branch sAv kid_id chore_id) chore_id
        ChoreState.pending) chore_id
      = kid_chore_state (process_pending_branch sAv kid_id chore_id)
          chore_id from funext fun kd => kid_chore_state_compute _ _ _ _ kd]
    rfl
  · -- overdue
    unfold process_chore_state
    rw [hk, hc]
    dsimp only
    rw [if_neg (show ¬ ChoreState.overdue ≠ ChoreState.overdue by decide),
      if_neg (show ¬ ChoreState.overdue = ChoreState.claimed by decide),
      if_neg (show ¬ ChoreState.overdue = ChoreState.approved by decide),
      if_neg (show ¬ ChoreState.overdue = ChoreState.pending by decide),
      if_pos (show ChoreState.overdue = ChoreState.overdue from rfl)]
    generalize hsA : s.modifyKid kid_id (fun k =>
        { k with
          overdue_chores :=
            k.overdue_chores.filter (fun e => e ≠ chore_id) }) = sAv
    have hA : ∃ kA, sAv.kids.find? kid_id = some kA := by
      rw [← hsA, find?_modifyKid_self, hk]
      exact ⟨_, rfl⟩
    obtain ⟨kA, hA⟩ := hA
    have hAc : sAv.chores.find? chore_id = some c := by
      rw [← hsA]
      exact hc
    have hstate := process_overdue_branch_state sAv kid_id chore_id kA hA
    have hBc : (process_overdue_branch sAv kid_id
        chore_id).chores.find? chore_id = some c := by
      rw [process_overdue_branch_chores]
      exact hAc
    have main := compute_global_state_spec _ chore_id ChoreState.overdue _
      kid_id hBc hmem hstate
    obtain ⟨st, hsc⟩ := compute_global_state_find? _ chore_id
      ChoreState.overdue _ hBc
    rw [main, hsc]
    rw [show kid_chore_state (compute_global_state
        (process_overdue_branch sAv kid_id chore_id) chore_id
        ChoreState.overdue) chore_id
      = kid_chore_state (process_overdue_branch sAv kid_id chore_id)
          chore_id from funext fun kd => kid_chore_state_compute _ _ _ _ kd]
    rfl

/-- Witness state for claim C2: shared chore "ch" assigned to kids "a" and
"b", kid "b" already holding a claim. -/
def c2_witness_state : State :=
  { kids := [("a", {}), ("b", { claimed_chores := ["ch"] })],
    chores := [("ch", { assigned_kids := ["a", "b"], shared_chore := true })] }

/-- Witness for claim C2 at a concrete shared two-assignee chore. -/
theorem c2_global_state_reduction_witness :
    (((process_chore_state 1 c2_witness_state "a" "ch" ChoreState.claimed
        none ⟨⟨2024, 1, 2⟩, 600⟩).chores.find? "ch").getD {}).state
      = spec_global_reduce
          ((((process_chore_state 1 c2_witness_state "a" "ch"
            ChoreState.claimed none ⟨⟨2024, 1, 2⟩, 600⟩).chores.find?
              "ch").getD {}).shared_chore)
          (((((process_chore_state 1 c2_witness_state "a" "ch"
            ChoreState.claimed none ⟨⟨2024, 1, 2⟩, 600⟩).chores.find?
              "ch").getD {}).assigned_kids).map
            (kid_chore_state (process_chore_state 1 c2_witness_state "a" "ch"
              ChoreState.claimed none ⟨⟨2024, 1, 2⟩, 600⟩) "ch")) :=
  c2_global_state_reduction 1 c2_witness_state "a" "ch" ChoreState.claimed
    none ⟨⟨2024, 1, 2⟩, 600⟩
    { assigned_kids := ["a", "b"], shared_chore := true }
    {} rfl rfl (by decide) (Or.inl rfl)

/-- The C3 invariant: no chore id sits in both the claimed and the approved
list of any kid record reachable by id. -/
def Inv (s : State) : Prop :=
  ∀ (kd : String) (k : Kid), s.kids.find? kd = some k →
    ∀ cid ∈ k.claimed_chores, cid ∉ k.approved_chores

lemma find?_modifyKid_other (s : State) (kid_id : String) (f : Kid → Kid)
    (kd : String) (h : ¬ kd = kid_id) :
    (s.modifyKid kid_id f).kids.find? kd = s.kids.find? kd := by
  simp [State.modifyKid, AList.find?_modify, h]

theorem Inv_modifyKid_sub {u : State} (kid_id : String) (f : Kid → Kid)
    (hf : ∀ k, (∀ cid, cid ∈ (f k).claimed_chores → cid ∈ k.claimed_chores) ∧
        (∀ cid, cid ∈ (f k).approved_chores → cid ∈ k.approved_chores))
    (hu : Inv u) : Inv (u.modifyKid kid_id f) := by
  intro kd k h cid hcl
  by_cases hkd : kd = kid_id
  · subst hkd
    rw [find?_modifyKid_self] at h
    cases hk0 : u.kids.find? kd with
    | none => rw [hk0] at h; cases h
    | some k0 =>
      rw [hk0] at h
      injection h with h
      subst h
      intro hap
      exact hu kd k0 hk0 cid ((hf k0).1 cid hcl) ((hf k0).2 cid hap)
  · rw [find?_modifyKid_other _ _ _ _ hkd] at h
    exact hu kd k h cid hcl

theorem Inv_of_kidsAgree {u v : State} (h : KidsAgree u v) (hu : Inv u) :
    Inv v := by
  intro kd k hf cid hcl
  have h2 := h kd
  rw [hf] at h2
  cases hu0 : u.kids.find? kd with
  | none => rw [hu0] at h2; simp [choreLists] at h2
  | some k0 =>
    rw [hu0] at h2
    simp [choreLists, Prod.ext_iff] at h2
    obtain ⟨e1, e2, e3⟩ := h2
    rw [e2]
    exact hu kd k0 hu0 cid (e1 ▸ hcl)

theorem inv_foldl {β : Type} (step : State → β → State)
    (h : ∀ t x, Inv t → Inv (step t x)) :
    ∀ (l : List β) (s : State), Inv s → Inv (l.foldl step s) := by
  intro l
  induction l with
  | nil => intro s hs; exact hs
  | cons x xs ih => intro s hs; exact ih (step s x) (h s x hs)

theorem inv_foldl_pair {β γ : Type} (step : (State × γ) → β → (State × γ))
    (h : ∀ t x, Inv t.1 → Inv (step t x).1) :
    ∀ (l : List β) (acc : State × γ), Inv acc.1 →
      Inv ((l.foldl step acc).1) := by
  intro l
  induction l with
  | nil => intro acc hacc; exact hacc
  | cons x xs ih => intro acc hacc; exact ih (step acc x) (h acc x hacc)

theorem compute_global_state_kidsAgree (u : State) (cid : String)
    (ns : ChoreState) : KidsAgree u (compute_global_state u cid ns) := by
  unfold compute_global_state
  cases u.chores.find? cid with
  | none => intro kd; rfl
  | some c =>
    dsimp only
    split_ifs <;> intro kd <;> rfl

theorem Inv_process_claimed_branch {u : State} (kid_id chore_id : String)
    (now : DateTime) (hu : Inv u) :
    Inv (process_claimed_branch u kid_id chore_id now) := by
  intro kd k h cid2 hcl
  have hch : (process_claimed_branch u kid_id chore_id now).kids.find? kd
      = ((u.modifyKid kid_id (fun k =>
          { k with
            approved_chores :=
              k.approved_chores.filter (fun e => e ≠ chore_id) })).modifyKid
          kid_id (fun k =>
            if chore_id ∉ k.claimed_chores then
              { k with claimed_chores := k.claimed_chores ++ [chore_id] }
            else k)).kids.find? kd := rfl
  rw [hch] at h
  by_cases hkd : kd = kid_id
  · subst hkd
    rw [find?_modifyKid_self, find?_modifyKid_self] at h
    cases hk0 : u.kids.find? kd with
    | none => rw [hk0] at h; cases h
    | some k0 =>
      rw [hk0] at h
      simp only [Option.map_some'] at h
      injection h with h
      subst h
      intro hap
      by_cases hc0 : chore_id ∈ k0.claimed_chores
      · rw [if_neg (not_not_intro (by simpa using hc0))] at hcl hap
        simp only [List.mem_filter] at hap
        exact hu kd k0 hk0 cid2 (by simpa using hcl) hap.1
      · rw [if_pos (by simpa using hc0)] at hcl hap
        simp only [List.mem_filter] at hap
        rcases (by simpa using hcl :
            cid2 ∈ k0.claimed_chores ∨ cid2 = chore_id) with hA | hB
        · exact hu kd k0 hk0 cid2 hA hap.1
        · subst hB
          simp at hap
  · rw [find?_modifyKid_other _ _ _ _ hkd,
      find?_modifyKid_other _ _ _ _ hkd] at h
    exact hu kd k h cid2 hcl

theorem process_approved_branch_kidsAgree (fuel : Nat) (u : State)
    (kid_id chore_id : String) (pts : Option ℚ) (now : DateTime) :
    KidsAgree
      ((u.modifyKid kid_id (fun k =>
        { k with
          claimed_chores :=
            k.claimed_chores.filter (fun e => e ≠ chore_id) })).modifyKid kid_id
        (fun k =>
          if chore_id ∉ k.approved_chores then
            { k with approved_chores := k.approved_chores ++ [chore_id] }
          else k))
      (process_approved_branch fuel u kid_id chore_id pts now) := by
  cases pts with
  | none =>
    intro kd
    show ((update_overall_chore_streak
        (update_chore_streak_for_kid _ kid_id chore_id _) kid_id
        _).kids.find? kd).map choreLists = _
    rw [(frame_update_overall_streak _ _ _).2 kd,
      (frame_update_chore_streak _ _ _ _).2 kd]
    rfl
  | some p =>
    intro kd
    show ((update_overall_chore_streak
        (update_chore_streak_for_kid
          (update_kid_points fuel _ kid_id _ now) kid_id chore_id _) kid_id
        _).kids.find? kd).map choreLists = _
    rw [(frame_update_overall_streak _ _ _).2 kd,
      (frame_update_chore_streak _ _ _ _).2 kd,
      ((engine_frame fuel).1 _ _ _ _).2 kd]
    rfl

theorem Inv_process_approved_branch {u : State} (fuel : Nat)
    (kid_id chore_id : String) (pts : Option ℚ) (now : DateTime)
    (hu : Inv u) :
    Inv (process_approved_branch fuel u kid_id chore_id pts now) := by
  refine Inv_of_kidsAgree
    (process_approved_branch_kidsAgree fuel u kid_id chore_id pts now) ?_
  intro kd k h cid2 hcl
  by_cases hkd : kd = kid_id
  · subst hkd
    rw [find?_modifyKid_self, find?_modifyKid_self] at h
    cases hk0 : u.kids.find? kd with
    | none => rw [hk0] at h; cases h
    | some k0 =>
      rw [hk0] at h
      simp only [Option.map_some'] at h
      injection h with h
      subst h
      intro hap
      by_cases ha0 : chore_id ∈ k0.approved_chores
      · rw [if_neg (not_not_intro (by simpa using ha0))] at hcl hap
        simp only [List.mem_filter] at hcl
        exact hu kd k0 hk0 cid2 (by simpa using hcl.1) (by simpa using hap)
      · rw [if_pos (by simpa using ha0)] at hcl hap
        simp only [List.mem_filter] at hcl
        rcases (by simpa using hap :
            cid2 ∈ k0.approved_chores ∨ cid2 = chore_id) with hA | hB
        · exact hu kd k0 hk0 cid2 (by simpa using hcl.1) hA
        · subst hB
          simp at hcl
  · rw [find?_modifyKid_other _ _ _ _ hkd,
      find?_modifyKid_other _ _ _ _ hkd] at h
    exact hu kd k h cid2 hcl

theorem Inv_process_pending_branch {u : State} (kid_id chore_id : String)
    (hu : Inv u) : Inv (process_pending_branch u kid_id chore_id) := by
  intro kd k h cid2 hcl
  have hch : (process_pending_branch u kid_id chore_id).kids.find? kd
      = (u.modifyKid kid_id (fun k =>
          { k with
            claimed_chores := k.claimed_chores.filter (fun e => e ≠ chore_id),
            approved_chores :=
              k.approved_chores.filter (fun e => e ≠ chore_id) })).kids.find?
          kd := rfl
  rw [hch] at h
  revert hcl
  refine (fun hcl => ?_)
  have := Inv_modifyKid_sub kid_id _ (fun k => ?_) hu kd k h cid2 hcl
  · exact this
  · constructor <;> intro cid hc <;> simp only [List.mem_filter] at hc <;>
      exact hc.1

theorem Inv_process_overdue_branch {u : State} (kid_id chore_id : String)
    (hu : Inv u) : Inv (process_overdue_branch u kid_id chore_id) := by
  have hch : process_overdue_branch u kid_id chore_id
      = u.modifyKid kid_id (fun k =>
          if chore_id ∉ k.overdue_chores then
            { k with overdue_chores := k.overdue_chores ++ [chore_id] }
          else k) := rfl
  rw [hch]
  refine Inv_modifyKid_sub kid_id _ (fun k => ?_) hu
  constructor <;> intro cid hc <;>
    · by_cases hov : chore_id ∈ k.overdue_chores
      · rw [if_neg (not_not_intro hov)] at hc
        exact hc
      · rw [if_pos hov] at hc
        exact hc

theorem Inv_process_chore_state (fuel : Nat) {s : State}
    (kid_id chore_id : String) (new_state : ChoreState) (pts : Option ℚ)
    (now : DateTime) (hu : Inv s) :
    Inv (process_chore_state fuel s kid_id chore_id new_state pts now) := by
  unfold process_chore_state
  show Inv (match s.kids.find? kid_id, s.chores.find? chore_id with
    | some _, some _ => _
    | _, _ => s)
  cases hk : s.kids.find? kid_id with
  | none => exact hu
  | some k0 =>
  cases hc : s.chores.find? chore_id with
  | none => exact hu
  | some c =>
  dsimp only
  have hdisp : ∀ u : State, Inv u →
      Inv (if new_state = ChoreState.claimed then
          process_claimed_branch u kid_id chore_id now
        else if new_state = ChoreState.approved then
          process_approved_branch fuel u kid_id chore_id pts now
        else if new_state = ChoreState.pending then
          process_pending_branch u kid_id chore_id
        else if new_state = ChoreState.overdue then
          process_overdue_branch u kid_id chore_id
        else u) := by
    intro u hu2
    split_ifs
    · exact Inv_process_claimed_branch kid_id chore_id now hu2
    · exact Inv_process_approved_branch fuel kid_id chore_id pts now hu2
    · exact Inv_process_pending_branch kid_id chore_id hu2
    · exact Inv_process_overdue_branch kid_id chore_id hu2
    · exact hu2
  refine Inv_of_kidsAgree (compute_global_state_kidsAgree _ chore_id new_state)
    (hdisp _ ?_)
  split
  · exact Inv_modifyKid_sub kid_id _
      (fun k => ⟨fun _ hcd => hcd, fun _ hcd => hcd⟩)
      (Inv_modifyKid_sub kid_id _
        (fun k => ⟨fun _ hcd => hcd, fun _ hcd => hcd⟩) hu)
  · exact Inv_modifyKid_sub kid_id _
      (fun k => ⟨fun _ hcd => hcd, fun _ hcd => hcd⟩) hu

theorem Inv_modifyChore {u : State} (cid : String) (f : Chore → Chore)
    (hu : Inv u) : Inv (u.modifyChore cid f) := fun kd k h => hu kd k h

theorem Inv_modifyAchievement {u : State} (aid : String)
    (f : Achievement → Achievement) (hu : Inv u) :
    Inv (u.modifyAchievement aid f) := fun kd k h => hu kd k h

theorem Inv_modifyChallenge {u : State} (cid : String)
    (f : Challenge → Challenge) (hu : Inv u) :
    Inv (u.modifyChallenge cid f) := fun kd k h => hu kd k h

theorem Inv_set_pending {u : State} (l : List PendingChoreApproval)
    (hu : Inv u) : Inv { u with pending_chore_approvals := l } :=
  fun kd k h => hu kd k h

theorem Inv_claim_chore (fuel : Nat) (s : State) (kid_id chore_id : String)
    (now : DateTime) (hu : Inv s) :
    Inv (match claim_chore fuel s kid_id chore_id now with
      | Except.ok t => t
      | Except.error e => e.2) := by
  unfold claim_chore
  cases hc : s.chores.find? chore_id with
  | none => exact hu
  | some chore_info =>
    dsimp only
    by_cases hmem : kid_id ∉ chore_info.assigned_kids
    · rw [if_pos hmem]
      exact hu
    · rw [if_neg hmem]
      cases hk : s.kids.find? kid_id with
      | none => exact hu
      | some kid_info =>
        dsimp only
        have hs1 : Inv (if chore_info.allow_multiple_claims_per_day = true then
            s.modifyKid kid_id (fun k =>
              { k with
                approved_chores :=
                  k.approved_chores.filter (fun e => e ≠ chore_id) })
          else s) := by
          split
          · refine Inv_modifyKid_sub kid_id _ (fun k => ⟨fun _ hcd => hcd,
              fun _ hcd => ?_⟩) hu
            simp only [List.mem_filter] at hcd
            exact hcd.1
          · exact hu
        by_cases hcond : ¬ chore_info.allow_multiple_claims_per_day = true ∧
            (chore_id ∈ kid_info.claimed_chores ∨
              chore_id ∈ kid_info.approved_chores)
        · rw [if_pos hcond]
          exact hs1
        · rw [if_neg hcond]
          exact Inv_process_chore_state fuel kid_id chore_id _ none now hs1

theorem Inv_disapprove_chore (fuel : Nat) (s : State)
    (kid_id chore_id : String) (now : DateTime) (hu : Inv s) :
    Inv (match disapprove_chore fuel s kid_id chore_id now with
      | Except.ok t => t
      | Except.error e => e.2) := by
  unfold disapprove_chore
  cases hc : s.chores.find? chore_id with
  | none => exact hu
  | some chore_info =>
    dsimp only
    cases hk : s.kids.find? kid_id with
    | none => exact hu
    | some kid_info =>
      exact Inv_process_chore_state fuel kid_id chore_id _ none now hu

theorem Inv_approve_chore (fuel : Nat) (s : State) (kid_id chore_id : String)
    (pts : Option ℚ) (now : DateTime) (hu : Inv s) :
    Inv (match approve_chore fuel s kid_id chore_id pts now with
      | Except.ok t => t
      | Except.error e => e.2) := by
  unfold approve_chore
  cases hc : s.chores.find? chore_id with
  | none => exact hu
  | some chore_info =>
    dsimp only
    by_cases hmem : kid_id ∉ chore_info.assigned_kids
    · rw [if_pos hmem]
      exact hu
    · rw [if_neg hmem]
      cases hk : s.kids.find? kid_id with
      | none => exact hu
      | some kid_info =>
        dsimp only
        by_cases hcond : ¬ chore_info.allow_multiple_claims_per_day = true ∧
            chore_id ∈ kid_info.approved_chores
        · rw [if_pos hcond]
          exact hu
        · rw [if_neg hcond]
          refine inv_foldl _ ?_ _ _ ?_
          · intro t x ht
            dsimp only
            repeat' split
            all_goals exact ht
          refine inv_foldl _ ?_ _ _ ?_
          · intro t x ht
            dsimp only
            repeat' split
            all_goals exact ht
          refine Inv_modifyKid_sub kid_id _
            (fun k => ⟨fun _ h2 => h2, fun _ h2 => h2⟩) ?_
          refine Inv_set_pending _ ?_
          refine Inv_of_kidsAgree
            (frame_update_overall_streak _ _ _).kidsAgree ?_
          refine Inv_of_kidsAgree
            (frame_update_chore_streak _ _ _ _).kidsAgree ?_
          refine Inv_modifyChore _ _ ?_
          show Inv (if chore_info.allow_multiple_claims_per_day = true
            then _ else _)
          split
          · exact Inv_modifyKid_sub kid_id _
              (fun k => ⟨fun _ h2 => h2, fun _ h2 => h2⟩)
              (Inv_modifyKid_sub kid_id _
                (fun k => ⟨fun _ h2 => h2, fun _ h2 => h2⟩)
                (Inv_process_chore_state fuel kid_id chore_id _ _ now hu))
          · exact Inv_modifyKid_sub kid_id _
              (fun k => ⟨fun _ h2 => h2, fun _ h2 => h2⟩)
              (Inv_process_chore_state fuel kid_id chore_id _ _ now hu)

lemma AList.find?_map_pair {κ α : Type} [DecidableEq κ] (d : AList κ α)
    (F : α → α) (k : κ) :
    AList.find? (List.map (fun e => (e.1, F e.2)) d) k =
      (AList.find? d k).map F := by
  induction d with
  | nil => rfl
  | cons e t ih => by_cases h : e.1 = k <;> simp [AList.find?, h, ih]

theorem Inv_map_kids {u : State} (F : Kid → Kid)
    (hf : ∀ k, (F k).claimed_chores = k.claimed_chores ∧
      (F k).approved_chores = k.approved_chores) (hu : Inv u) :
    Inv { u with kids := List.map (fun e => (e.1, F e.2)) u.kids } := by
  intro kd k h cid hcl
  have h2 : AList.find? (List.map (fun e => (e.1, F e.2)) u.kids) kd
      = some k := h
  rw [AList.find?_map_pair] at h2
  cases h0 : u.kids.find? kd with
  | none => rw [h0] at h2; cases h2
  | some k0 =>
    rw [h0] at h2
    injection h2 with h2
    subst h2
    rw [(hf k0).1] at hcl
    rw [(hf k0).2]
    exact hu kd k0 h0 cid hcl

theorem Inv_check_overdue_chores (fuel : Nat) (s : State) (now : DateTime)
    (hu : Inv s) : Inv (check_overdue_chores fuel s now) := by
  unfold check_overdue_chores
  refine inv_foldl_pair _ ?_ _ _ hu
  intro t x ht
  dsimp only
  repeat' split
  all_goals try exact ht
  all_goals refine inv_foldl _ ?_ _ _ ht
  all_goals intro u y hu2
  all_goals dsimp only
  all_goals repeat' split
  all_goals first
    | exact hu2
    | exact Inv_modifyKid_sub y _ (fun k => ⟨fun _ h2 => h2, fun _ h2 => h2⟩)
        (Inv_process_chore_state fuel y _ ChoreState.overdue none now hu2)
    | exact Inv_process_chore_state fuel y _ ChoreState.pending none now hu2
    | exact Inv_process_chore_state fuel y _ ChoreState.overdue none now hu2

theorem Inv_reset_daily_chore_statuses (fuel : Nat) (s : State)
    (target_freqs : List String) (now : DateTime) (hu : Inv s) :
    Inv (reset_daily_chore_statuses fuel s target_freqs now) := by
  unfold reset_daily_chore_statuses
  refine Inv_set_pending _ ?_
  refine inv_foldl _ ?_ _ _ hu
  intro t x ht
  dsimp only
  repeat' split
  all_goals try exact ht
  all_goals refine inv_foldl _ ?_ _ _ ht
  all_goals intro u y hu2
  all_goals dsimp only
  all_goals repeat' split
  all_goals first
    | exact hu2
    | exact Inv_process_chore_state fuel y _ ChoreState.pending none now hu2

theorem Inv_reset_chore_counts (fuel : Nat) (s : State) (frequency : String)
    (now : DateTime) (hu : Inv s) :
    Inv (reset_chore_counts fuel s frequency now) := by
  unfold reset_chore_counts
  refine (?_ : ∀ u : State, Inv u →
      Inv (if frequency = FREQUENCY_DAILY then
          reset_daily_chore_statuses fuel u [frequency] now
        else if frequency = FREQUENCY_WEEKLY then
          reset_daily_chore_statuses fuel u [frequency, FREQUENCY_WEEKLY] now
        else u)) _ ?_
  · intro u hu2
    split_ifs
    · exact Inv_reset_daily_chore_statuses fuel u [frequency] now hu2
    · exact Inv_reset_daily_chore_statuses fuel u
        [frequency, FREQUENCY_WEEKLY] now hu2
    · exact hu2
  · refine Inv_map_kids (fun k =>
        if frequency = FREQUENCY_DAILY then
          { k with completed_chores_today := 0, points_earned_today := 0 }
        else if frequency = FREQUENCY_WEEKLY then
          { k with completed_chores_weekly := 0, points_earned_weekly := 0 }
        else if frequency = FREQUENCY_MONTHLY then
          { k with completed_chores_monthly := 0, points_earned_monthly := 0 }
        else k) ?_ hu
    intro k
    refine ⟨?_, ?_⟩ <;> split_ifs <;> rfl

theorem Inv_reschedule_next_due_date (fuel loop_fuel : Nat) (s : State)
    (chore_id : String) (now : DateTime) (hu : Inv s) :
    Inv ((reschedule_next_due_date fuel loop_fuel s chore_id now).getD s) := by
  unfold reschedule_next_due_date
  cases hc : s.chores.find? chore_id with
  | none => exact hu
  | some chore_info =>
    dsimp only
    split
    · exact hu
    · split
      · exact hu
      · split
        · exact hu
        · split
          · exact hu
          · refine inv_foldl _ ?_ _ _ (Inv_modifyChore _ _ hu)
            intro t x ht
            dsimp only
            split
            · exact Inv_process_chore_state fuel x _ ChoreState.pending
                none now ht
            · exact ht

/-- The engine operations of the coordinator that alter chore bookkeeping. -/
inductive EngineOp where
  | claim (fuel : Nat) (kid_id chore_id : String) (now : DateTime)
  | approve (fuel : Nat) (kid_id chore_id : String) (pts : Option ℚ)
      (now : DateTime)
  | disapprove (fuel : Nat) (kid_id chore_id : String) (now : DateTime)
  | overdue (fuel : Nat) (now : DateTime)
  | resetDaily (fuel : Nat) (target_freqs : List String) (now : DateTime)
  | resetCounts (fuel : Nat) (frequency : String) (now : DateTime)
  | reschedule (fuel loop_fuel : Nat) (chore_id : String) (now : DateTime)

/-- Resulting state of an engine operation (for the fallible operations the
state carried by an error outcome is the state the coordinator keeps). -/
def EngineOp.apply (op : EngineOp) (s : State) : State :=
  match op with
  | .claim fuel kid_id chore_id now =>
      (match claim_chore fuel s kid_id chore_id now with
        | Except.ok t => t
        | Except.error e => e.2)
  | .approve fuel kid_id chore_id pts now =>
      (match approve_chore fuel s kid_id chore_id pts now with
        | Except.ok t => t
        | Except.error e => e.2)
  | .disapprove fuel kid_id chore_id now =>
      (match disapprove_chore fuel s kid_id chore_id now with
        | Except.ok t => t
        | Except.error e => e.2)
  | .overdue fuel now => check_overdue_chores fuel s now
  | .resetDaily fuel target_freqs now =>
      reset_daily_chore_statuses fuel s target_freqs now
  | .resetCounts fuel frequency now => reset_chore_counts fuel s frequency now
  | .reschedule fuel loop_fuel chore_id now =>
      (reschedule_next_due_date fuel loop_fuel s chore_id now).getD s

/-- C3: after any engine operation (claim, approve, disapprove, overdue
marking, daily-status reset, periodic-count reset, reschedule) applied to a
state in which no chore id sits simultaneously in a kid's claimed-chores and
approved-chores lists, the resulting state again has no chore id present in
both lists of any kid. -/
theorem c3_claimed_approved_disjoint_invariant (op : EngineOp) (s : State)
    (hu : Inv s) : Inv (op.apply s) := by
  cases op with
  | claim fuel kid_id chore_id now =>
    exact Inv_claim_chore fuel s kid_id chore_id now hu
  | approve fuel kid_id chore_id pts now =>
    exact Inv_approve_chore fuel s kid_id chore_id pts now hu
  | disapprove fuel kid_id chore_id now =>
    exact Inv_disapprove_chore fuel s kid_id chore_id now hu
  | overdue fuel now => exact Inv_check_overdue_chores fuel s now hu
  | resetDaily fuel target_freqs now =>
    exact Inv_reset_daily_chore_statuses fuel s target_freqs now hu
  | resetCounts fuel frequency now =>
    exact Inv_reset_chore_counts fuel s frequency now hu
  | reschedule fuel loop_fuel chore_id now =>
    exact Inv_reschedule_next_due_date fuel loop_fuel s chore_id now hu

/-- Witness for claim C3: a claim operation on a concrete one-kid state. -/
theorem c3_claimed_approved_disjoint_invariant_witness :
    Inv (EngineOp.apply (EngineOp.claim 1 "a" "ch" ⟨⟨2024, 1, 2⟩, 600⟩)
      { kids := [("a", {})], chores := [("ch", { assigned_kids := ["a"] })] }) :=
  c3_claimed_approved_disjoint_invariant _ _ (by
    intro kd k h cid hcl
    revert h
    show (if "a" = kd then some ({} : Kid) else none) = some k → _
    split
    · intro h
      injection h with h
      subst h
      cases hcl
    · intro h
      cases h)

/-! ### C6: adequacy of the rescheduler -/

lemma DateTime.addDays_props (t : DateTime) (hv : t.Valid) (n : Nat) :
    (t.addDays n).Valid ∧ (t.addDays n).date.toDays = t.date.toDays + n ∧
      (t.addDays n).minute = t.minute := by
  obtain ⟨hd, hm⟩ := hv
  obtain ⟨h1, h2⟩ := toDays_addDays t.date hd n
  exact ⟨⟨h2, hm⟩, h1, rfl⟩

lemma DateTime.addMonths_props (t : DateTime) (hv : t.Valid) (n : Nat)
    (hn : 1 ≤ n) :
    (t.addMonths n).Valid ∧ t.date.toDays < (t.addMonths n).date.toDays ∧
      (t.addMonths n).minute = t.minute := by
  obtain ⟨hd, hm⟩ := hv
  exact ⟨⟨add_months_valid t.date hd n, hm⟩,
    add_months_toDays_lt t.date hd n hn, rfl⟩

/-- A recurring frequency configuration the scheduler can act on: one of the
fixed periods, or custom with a positive interval and a recognised unit. -/
def ValidFreq (freq : String) (ci : Option Nat) (ciu : Option String) : Prop :=
  freq = FREQUENCY_DAILY ∨ freq = FREQUENCY_WEEKLY ∨
    freq = FREQUENCY_BIWEEKLY ∨ freq = FREQUENCY_MONTHLY ∨
    (freq = FREQUENCY_CUSTOM ∧ 1 ≤ ci.getD 0 ∧
      (ciu = some CONF_DAYS ∨ ciu = some CONF_WEEKS ∨ ciu = some CONF_MONTHS))

lemma period_advance_props (freq : String) (ci : Option Nat)
    (ciu : Option String) (dt : DateTime) (hv : dt.Valid)
    (hf : ValidFreq freq ci ciu) :
    (period_advance freq ci ciu dt).Valid ∧
      dt.date.toDays + 1 ≤ (period_advance freq ci ciu dt).date.toDays ∧
      (period_advance freq ci ciu dt).minute = dt.minute := by
  unfold period_advance
  rcases hf with h | h | h | h | ⟨h, hci, hu⟩
  · subst h
    rw [if_pos rfl]
    obtain ⟨a, b, c⟩ := DateTime.addDays_props dt hv 1
    exact ⟨a, by omega, c⟩
  · subst h
    rw [if_neg (by decide), if_pos rfl]
    obtain ⟨a, b, c⟩ := DateTime.addDays_props dt hv 7
    exact ⟨a, by omega, c⟩
  · subst h
    rw [if_neg (by decide), if_neg (by decide), if_pos rfl]
    obtain ⟨a, b, c⟩ := DateTime.addDays_props dt hv 14
    exact ⟨a, by omega, c⟩
  · subst h
    rw [if_neg (by decide), if_neg (by decide), if_neg (by decide), if_pos rfl]
    obtain ⟨a, b, c⟩ := DateTime.addMonths_props dt hv 1 (by omega)
    exact ⟨a, by omega, c⟩
  · subst h
    rw [if_neg (by decide), if_neg (by decide), if_neg (by decide),
      if_neg (by decide), if_pos rfl]
    rcases hu with h | h | h
    · subst h
      rw [if_pos rfl]
      obtain ⟨a, b, c⟩ := DateTime.addDays_props dt hv (ci.getD 0)
      exact ⟨a, by omega, c⟩
    · subst h
      rw [if_neg (by decide), if_pos rfl]
      obtain ⟨a, b, c⟩ := DateTime.addDays_props dt hv (7 * ci.getD 0)
      exact ⟨a, by omega, c⟩
    · subst h
      rw [if_neg (by decide), if_neg (by decide), if_pos rfl]
      obtain ⟨a, b, c⟩ := DateTime.addMonths_props dt hv (ci.getD 0) hci
      exact ⟨a, by omega, c⟩

lemma reschedule_loop_sound (freq : String) (ci : Option Nat)
    (ciu : Option String) (now : DateTime) (days : List (Fin 7)) :
    ∀ (L : Nat) (b : Bool) (due t : DateTime),
      reschedule_loop freq ci ciu now days b due L = some t →
      dtLt now t = true ∧ (days ≠ [] → t.date.weekdayF ∈ days) := by
  intro L
  induction L with
  | zero =>
    intro b due t h
    rw [reschedule_loop] at h
    cases h
  | succ n ih =>
    intro b due t h
    rw [reschedule_loop] at h
    split at h
    · exact ih false _ t h
    · rename_i hcond
      injection h with h
      subst h
      constructor
      · have h2 : ¬ (dtLe due now = true) := fun hx => hcond (Or.inr (Or.inl hx))
        simp only [dtLe, decide_eq_true_eq, not_le] at h2
        simp only [dtLt, decide_eq_true_eq]
        exact h2
      · intro hne
        by_contra hnot
        exact hcond (Or.inr (Or.inr ⟨hne, hnot⟩))

lemma reschedule_loop_phase2 (freq : String) (ci : Option Nat)
    (ciu : Option String) (now : DateTime) (days : List (Fin 7)) :
    ∀ (j : Nat) (due : DateTime), due.Valid → dtLt now due = true →
      (days = [] ∨ ∃ w ∈ days, (due.date.toDays + j) % 7 = w.val) →
      ∃ t, reschedule_loop freq ci ciu now days false due (j + 1) = some t := by
  intro j
  induction j with
  | zero =>
    intro due hv hlt hd
    refine ⟨due, ?_⟩
    rw [reschedule_loop]
    rw [if_neg ?_]
    intro hx
    rcases hx with hx | hx | ⟨hne, hnot⟩
    · cases hx
    · simp only [dtLt, decide_eq_true_eq] at hlt
      simp only [dtLe, decide_eq_true_eq] at hx
      omega
    · rcases hd with h | ⟨w, hw, hmod⟩
      · exact hne h
      · refine hnot ?_
        have : due.date.weekdayF = w := by
          apply Fin.ext
          show due.date.toDays % 7 = w.val
          omega
        rw [this]
        exact hw
  | succ n ih =>
    intro due hv hlt hd
    by_cases hwd : days ≠ [] ∧ due.date.weekdayF ∉ days
    · obtain ⟨hvd, htd, hmin⟩ := DateTime.addDays_props due hv 1
      have hlt2 : dtLt now (due.addDays 1) = true := by
        simp only [dtLt, DateTime.toMin, decide_eq_true_eq] at hlt ⊢
        rw [htd, hmin]
        omega
      have hd2 : days = [] ∨
          ∃ w ∈ days, ((due.addDays 1).date.toDays + n) % 7 = w.val := by
        rcases hd with h | ⟨w, hw, hmod⟩
        · exact Or.inl h
        · refine Or.inr ⟨w, hw, ?_⟩
          rw [htd]
          omega
      obtain ⟨t, ht⟩ := ih (due.addDays 1) hvd hlt2 hd2
      refine ⟨t, ?_⟩
      rw [reschedule_loop]
      rw [if_pos (Or.inr (Or.inr hwd))]
      show reschedule_loop freq ci ciu now days false
        (if false = true ∨ dtLe due now = true then
          period_advance freq ci ciu due
        else due.addDays 1) (n + 1) = some t
      rw [if_neg ?_]
      · exact ht
      · intro hx
        rcases hx with hx | hx
        · cases hx
        · simp only [dtLt, decide_eq_true_eq] at hlt
          simp only [dtLe, decide_eq_true_eq] at hx
          omega
    · refine ⟨due, ?_⟩
      rw [reschedule_loop]
      rw [if_neg ?_]
      intro hx
      rcases hx with hx | hx | hx
      · cases hx
      · simp only [dtLt, decide_eq_true_eq] at hlt
        simp only [dtLe, decide_eq_true_eq] at hx
        omega
      · exact hwd hx

lemma reschedule_loop_exit (freq : String) (ci : Option Nat)
    (ciu : Option String) (now : DateTime) (days : List (Fin 7))
    (due : DateTime) (hv : due.Valid) (hlt : dtLt now due = true) :
    ∃ L t, reschedule_loop freq ci ciu now days false due L = some t := by
  cases hdd : days with
  | nil =>
    obtain ⟨t, ht⟩ := reschedule_loop_phase2 freq ci ciu now [] 0 due hv hlt
      (Or.inl rfl)
    exact ⟨0 + 1, t, ht⟩
  | cons w0 rest =>
    have hw0 := w0.isLt
    obtain ⟨t, ht⟩ := reschedule_loop_phase2 freq ci ciu now (w0 :: rest)
      ((w0.val + 7 - due.date.toDays % 7) % 7) due hv hlt
      (Or.inr ⟨w0, List.mem_cons_self w0 rest, by omega⟩)
    exact ⟨(w0.val + 7 - due.date.toDays % 7) % 7 + 1, t, ht⟩

lemma reschedule_loop_phase1 (freq : String) (ci : Option Nat)
    (ciu : Option String) (now : DateTime) (days : List (Fin 7))
    (hnow : now.minute < 1440) (hf : ValidFreq freq ci ciu) :
    ∀ (k : Nat) (due : DateTime), due.Valid →
      now.date.toDays < due.date.toDays + k →
      ∃ L t, reschedule_loop freq ci ciu now days false due L = some t := by
  intro k
  induction k with
  | zero =>
    intro due hv hgap
    refine reschedule_loop_exit freq ci ciu now days due hv ?_
    simp only [dtLt, DateTime.toMin, decide_eq_true_eq]
    omega
  | succ n ih =>
    intro due hv hgap
    by_cases hle : dtLe due now = true
    · obtain ⟨hv2, hstep, hmin⟩ := period_advance_props freq ci ciu due hv hf
      obtain ⟨L, t, ht⟩ := ih (period_advance freq ci ciu due) hv2 (by omega)
      refine ⟨L + 1, t, ?_⟩
      rw [reschedule_loop]
      rw [if_pos (Or.inr (Or.inl hle))]
      show reschedule_loop freq ci ciu now days false
        (if false = true ∨ dtLe due now = true then
          period_advance freq ci ciu due
        else due.addDays 1) L = some t
      rw [if_pos (Or.inr hle)]
      exact ht
    · refine reschedule_loop_exit freq ci ciu now days due hv ?_
      simp only [dtLe, decide_eq_true_eq] at hle
      simp only [dtLt, decide_eq_true_eq]
      omega

lemma reschedule_loop_terminates (freq : String) (ci : Option Nat)
    (ciu : Option String) (now : DateTime) (days : List (Fin 7))
    (due : DateTime) (hv : due.Valid) (hnow : now.minute < 1440)
    (hf : ValidFreq freq ci ciu) :
    ∃ L t, reschedule_loop freq ci ciu now days true due L = some t := by
  obtain ⟨hv2, hstep, hmin⟩ := period_advance_props freq ci ciu due hv hf
  obtain ⟨L, t, ht⟩ := reschedule_loop_phase1 freq ci ciu now days hnow hf
    (now.date.toDays + 1) (period_advance freq ci ciu due) hv2 (by omega)
  refine ⟨L + 1, t, ?_⟩
  rw [reschedule_loop]
  rw [if_pos (Or.inl rfl)]
  show reschedule_loop freq ci ciu now days false
    (if true = true ∨ dtLe due now = true then
      period_advance freq ci ciu due
    else due.addDays 1) L = some t
  rw [if_pos (Or.inl rfl)]
  exact ht

lemma modifyChore_find?_due (u : State) (cid c2 : String) (f : Chore → Chore)
    (hf : ∀ c, (f c).due_date = c.due_date) :
    ((u.modifyChore cid f).chores.find? c2).map Chore.due_date =
      (u.chores.find? c2).map Chore.due_date := by
  show (AList.find? (AList.modify u.chores cid f) c2).map _ = _
  rw [AList.find?_modify]
  split
  · cases u.chores.find? c2 with
    | none => rfl
    | some c => simp only [Option.map_some']; rw [hf]
  · rfl

lemma compute_global_chores_due (u : State) (cid : String) (ns : ChoreState)
    (c2 : String) :
    ((compute_global_state u cid ns).chores.find? c2).map Chore.due_date =
      (u.chores.find? c2).map Chore.due_date := by
  unfold compute_global_state
  split
  · rfl
  · dsimp only
    repeat' split
    all_goals first
      | rfl
      | exact modifyChore_find?_due u cid c2 _ (fun c => rfl)

lemma process_pending_chores_due (fuel : Nat) (u : State) (kid cid : String)
    (now : DateTime) (c2 : String) :
    ((process_chore_state fuel u kid cid ChoreState.pending none
        now).chores.find? c2).map Chore.due_date =
      (u.chores.find? c2).map Chore.due_date := by
  unfold process_chore_state
  show ((match u.kids.find? kid, u.chores.find? cid with
    | some _, some _ => _
    | _, _ => u).chores.find? c2).map Chore.due_date = _
  cases hk : u.kids.find? kid with
  | none =>
    cases hcx : u.chores.find? cid with
    | none => rfl
    | some c0 => rfl
  | some k0 =>
    cases hcx : u.chores.find? cid with
    | none => rfl
    | some c0 =>
      dsimp only
      show ((compute_global_state (process_pending_branch
          ((u.modifyKid kid (fun k =>
            { k with overdue_chores :=
                k.overdue_chores.filter (fun e => e ≠ cid) })).modifyKid kid
            (fun k =>
              { k with overdue_notifications :=
                  k.overdue_notifications.erase cid }))
          kid cid) cid ChoreState.pending).chores.find? c2).map Chore.due_date
        = _
      rw [compute_global_chores_due]
      rfl

/-- The chore reset to pending for one kid, read off the kid's three lists. -/
def NotListed (u : State) (cid kid : String) : Prop :=
  cid ∉ ((u.kids.find? kid).getD {}).claimed_chores ∧
  cid ∉ ((u.kids.find? kid).getD {}).approved_chores ∧
  cid ∉ ((u.kids.find? kid).getD {}).overdue_chores

lemma kid_chore_state_pending_of_NotListed (u : State) (cid kid : String)
    (h : NotListed u cid kid) :
    kid_chore_state u cid kid = ChoreState.pending := by
  obtain ⟨h1, h2, h3⟩ := h
  unfold kid_chore_state
  rw [if_neg h3, if_neg h2, if_neg h1]

lemma NotListed_of_kidsAgree {u v : State} {cid kid : String}
    (h : KidsAgree u v) (hn : NotListed u cid kid) : NotListed v cid kid := by
  have h2 := h kid
  unfold NotListed at hn ⊢
  cases hv : v.kids.find? kid with
  | none => exact ⟨List.not_mem_nil _, List.not_mem_nil _, List.not_mem_nil _⟩
  | some kv =>
    rw [hv] at h2
    cases hu0 : u.kids.find? kid with
    | none => rw [hu0] at h2; simp [choreLists] at h2
    | some ku =>
      rw [hu0] at h2
      rw [hu0] at hn
      simp only [Option.map_some'] at h2
      injection h2 with h2
      simp only [choreLists, Prod.ext_iff] at h2
      obtain ⟨e1, e2, e3⟩ := h2
      refine ⟨?_, ?_, ?_⟩
      · show cid ∉ kv.claimed_chores
        rw [e1]
        exact hn.1
      · show cid ∉ kv.approved_chores
        rw [e2]
        exact hn.2.1
      · show cid ∉ kv.overdue_chores
        rw [e3]
        exact hn.2.2

lemma NotListed_modifyKid_sub {u : State} (kid2 : String) (f : Kid → Kid)
    {cid kid : String}
    (hf : ∀ k, (∀ c, c ∈ (f k).claimed_chores → c ∈ k.claimed_chores) ∧
      (∀ c, c ∈ (f k).approved_chores → c ∈ k.approved_chores) ∧
      (∀ c, c ∈ (f k).overdue_chores → c ∈ k.overdue_chores))
    (hn : NotListed u cid kid) : NotListed (u.modifyKid kid2 f) cid kid := by
  by_cases hkk : kid = kid2
  · subst hkk
    unfold NotListed at hn ⊢
    rw [find?_modifyKid_self]
    cases h0 : u.kids.find? kid with
    | none =>
      exact ⟨List.not_mem_nil _, List.not_mem_nil _, List.not_mem_nil _⟩
    | some k0 =>
      rw [h0] at hn
      exact ⟨fun hx => hn.1 ((hf k0).1 cid hx),
        fun hx => hn.2.1 ((hf k0).2.1 cid hx),
        fun hx => hn.2.2 ((hf k0).2.2 cid hx)⟩
  · unfold NotListed at hn ⊢
    rw [find?_modifyKid_other _ _ _ _ hkk]
    exact hn

lemma NotListed_process_pending_self (fuel : Nat) (u : State)
    (kid cid : String) (now : DateTime)
    (hc : (u.chores.find? cid).isSome = true) :
    NotListed (process_chore_state fuel u kid cid ChoreState.pending none now)
      cid kid := by
  unfold process_chore_state
  show NotListed (match u.kids.find? kid, u.chores.find? cid with
    | some _, some _ => _
    | _, _ => u) cid kid
  cases hcx : u.chores.find? cid with
  | none => rw [hcx] at hc; cases hc
  | some c0 =>
    cases hk : u.kids.find? kid with
    | none =>
      unfold NotListed
      rw [hk]
      exact ⟨List.not_mem_nil _, List.not_mem_nil _, List.not_mem_nil _⟩
    | some k0 =>
      dsimp only
      refine NotListed_of_kidsAgree
        (compute_global_state_kidsAgree _ cid ChoreState.pending) ?_
      show NotListed (((u.modifyKid kid (fun k =>
          { k with overdue_chores :=
              k.overdue_chores.filter (fun e => e ≠ cid) })).modifyKid kid
          (fun k =>
            { k with overdue_notifications :=
                k.overdue_notifications.erase cid })).modifyKid kid
          (fun k =>
            { k with
              claimed_chores := k.claimed_chores.filter (fun e => e ≠ cid),
              approved_chores :=
                k.approved_chores.filter (fun e => e ≠ cid) })) cid kid
      unfold NotListed
      rw [find?_modifyKid_self, find?_modifyKid_self, find?_modifyKid_self,
        hk]
      refine ⟨?_, ?_, ?_⟩ <;> intro hx <;>
        exact absurd (List.mem_filter.1 hx).2 (by simp)

lemma NotListed_process_pending (fuel : Nat) (u : State)
    (kid2 cid kid : String) (now : DateTime) (hn : NotListed u cid kid) :
    NotListed (process_chore_state fuel u kid2 cid ChoreState.pending none now)
      cid kid := by
  unfold process_chore_state
  show NotListed (match u.kids.find? kid2, u.chores.find? cid with
    | some _, some _ => _
    | _, _ => u) cid kid
  cases hk : u.kids.find? kid2 with
  | none =>
    cases hcx : u.chores.find? cid with
    | none => exact hn
    | some c0 => exact hn
  | some k0 =>
    cases hcx : u.chores.find? cid with
    | none => exact hn
    | some c0 =>
      dsimp only
      refine NotListed_of_kidsAgree
        (compute_global_state_kidsAgree _ cid ChoreState.pending) ?_
      show NotListed (((u.modifyKid kid2 (fun k =>
          { k with overdue_chores :=
              k.overdue_chores.filter (fun e => e ≠ cid) })).modifyKid kid2
          (fun k =>
            { k with overdue_notifications :=
                k.overdue_notifications.erase cid })).modifyKid kid2
          (fun k =>
            { k with
              claimed_chores := k.claimed_chores.filter (fun e => e ≠ cid),
              approved_chores :=
                k.approved_chores.filter (fun e => e ≠ cid) })) cid kid
      refine NotListed_modifyKid_sub kid2 _ ?_
        (NotListed_modifyKid_sub kid2 _ ?_
          (NotListed_modifyKid_sub kid2 _ ?_ hn))
      · intro k
        exact ⟨fun c hx => (List.mem_filter.1 hx).1,
          fun c hx => (List.mem_filter.1 hx).1, fun c hx => hx⟩
      · intro k
        exact ⟨fun c hx => hx, fun c hx => hx, fun c hx => hx⟩
      · intro k
        exact ⟨fun c hx => hx, fun c hx => hx,
          fun c hx => (List.mem_filter.1 hx).1⟩

lemma fold_pending_chores_due (fuel : Nat) (cid : String) (now : DateTime)
    (c2 : String) :
    ∀ (l : List String) (u : State),
      (((l.foldl (fun v kid_id => if kid_id ≠ "" then
          process_chore_state fuel v kid_id cid ChoreState.pending none now
        else v) u).chores.find? c2)).map Chore.due_date =
      (u.chores.find? c2).map Chore.due_date := by
  intro l
  induction l with
  | nil => intro u; rfl
  | cons x xs ih =>
    intro u
    rw [List.foldl_cons, ih]
    split
    · exact process_pending_chores_due fuel u x cid now c2
    · rfl

lemma process_pending_chore_present (fuel : Nat) (u : State)
    (kid cid : String) (now : DateTime)
    (h : (u.chores.find? cid).isSome = true) :
    ((process_chore_state fuel u kid cid ChoreState.pending none
        now).chores.find? cid).isSome = true := by
  have h2 := process_pending_chores_due fuel u kid cid now cid
  cases hp : (process_chore_state fuel u kid cid ChoreState.pending none
      now).chores.find? cid with
  | some c => rfl
  | none =>
    rw [hp] at h2
    cases hu0 : u.chores.find? cid with
    | none => rw [hu0] at h; cases h
    | some c0 =>
      rw [hu0] at h2
      simp only [Option.map_some', Option.map_none'] at h2
      cases h2

lemma fold_pending_NotListed (fuel : Nat) (cid : String) (now : DateTime)
    (kid : String) :
    ∀ (l : List String) (u : State), NotListed u cid kid →
      NotListed (l.foldl (fun v kid_id => if kid_id ≠ "" then
          process_chore_state fuel v kid_id cid ChoreState.pending none now
        else v) u) cid kid := by
  intro l
  induction l with
  | nil => intro u hn; exact hn
  | cons x xs ih =>
    intro u hn
    rw [List.foldl_cons]
    refine ih _ ?_
    split
    · exact NotListed_process_pending fuel u x cid kid now hn
    · exact hn

lemma fold_pending_resets (fuel : Nat) (cid : String) (now : DateTime) :
    ∀ (l : List String) (u : State),
      (u.chores.find? cid).isSome = true →
      ∀ kid ∈ l, kid ≠ "" →
        NotListed (l.foldl (fun v kid_id => if kid_id ≠ "" then
            process_chore_state fuel v kid_id cid ChoreState.pending none now
          else v) u) cid kid := by
  intro l
  induction l with
  | nil => intro u _ kid hmem; cases hmem
  | cons x xs ih =>
    intro u hpres kid hmem hne
    rw [List.foldl_cons]
    rcases List.mem_cons.1 hmem with rfl | hmem2
    · refine fold_pending_NotListed fuel cid now kid xs _ ?_
      show NotListed (if kid ≠ "" then
          process_chore_state fuel u kid cid ChoreState.pending none now
        else u) cid kid
      rw [if_pos hne]
      exact NotListed_process_pending_self fuel u kid cid now hpres
    · refine ih _ ?_ kid hmem2 hne
      show ((if x ≠ "" then
          process_chore_state fuel u x cid ChoreState.pending none now
        else u).chores.find? cid).isSome = true
      split
      · exact process_pending_chore_present fuel u x cid now hpres
      · exact hpres

/-- C6: for a chore with a valid recurring frequency (positive interval and a
recognised unit when custom) and a due date that is at most `now` (with `now`
a well-formed timestamp), rescheduling terminates: for some loop fuel the
reschedule returns a state in which the chore's stored due date is a new date
strictly after `now` that falls on an applicable weekday whenever the
applicable-days filter is nonempty, and every nonempty assigned kid id has
the chore reset back to the pending state. -/
theorem c6_reschedule_adequacy (fuel : Nat) (s : State) (chore_id : String)
    (now original_due : DateTime) (chore_info : Chore)
    (hc : s.chores.find? chore_id = some chore_info)
    (hid : chore_info.internal_id = chore_id)
    (hdue : chore_info.due_date = some original_due)
    (hvdue : original_due.Valid) (hnow : now.minute < 1440)
    (hpast : dtLe original_due now = true)
    (hfreq : ValidFreq chore_info.recurring_frequency
      chore_info.custom_interval chore_info.custom_interval_unit) :
    ∃ loop_fuel t,
      reschedule_next_due_date fuel loop_fuel s chore_id now = some t ∧
      ∃ next_due,
        (t.chores.find? chore_id).map Chore.due_date = some (some next_due) ∧
        dtLt now next_due = true ∧
        (chore_info.applicable_days ≠ [] →
          next_due.date.weekdayF ∈ chore_info.applicable_days) ∧
        ∀ kid_id ∈ chore_info.assigned_kids, kid_id ≠ "" →
          kid_chore_state t chore_id kid_id = ChoreState.pending := by
  obtain ⟨L, nd, hloop⟩ := reschedule_loop_terminates
    chore_info.recurring_frequency chore_info.custom_interval
    chore_info.custom_interval_unit now chore_info.applicable_days
    original_due hvdue hnow hfreq
  obtain ⟨hndlt, hndwd⟩ := reschedule_loop_sound
    chore_info.recurring_frequency chore_info.custom_interval
    chore_info.custom_interval_unit now chore_info.applicable_days
    L true original_due nd hloop
  have hguard : ¬ (chore_info.recurring_frequency = FREQUENCY_CUSTOM ∧
      (chore_info.custom_interval = none ∨
        (chore_info.custom_interval_unit ≠ some CONF_DAYS ∧
         chore_info.custom_interval_unit ≠ some CONF_WEEKS ∧
         chore_info.custom_interval_unit ≠ some CONF_MONTHS))) := by
    rcases hfreq with h | h | h | h | ⟨h, hci, hu⟩
    · intro hx; rw [h] at hx; exact absurd hx.1 (by decide)
    · intro hx; rw [h] at hx; exact absurd hx.1 (by decide)
    · intro hx; rw [h] at hx; exact absurd hx.1 (by decide)
    · intro hx; rw [h] at hx; exact absurd hx.1 (by decide)
    · intro hx
      rcases hx.2 with hbad | ⟨b1, b2, b3⟩
      · rw [hbad] at hci; exact absurd hci (by decide)
      · rcases hu with h2 | h2 | h2
        · exact b1 h2
        · exact b2 h2
        · exact b3 h2
  have hne : ¬ (chore_info.recurring_frequency = "" ∨
      chore_info.recurring_frequency = FREQUENCY_NONE) := by
    rcases hfreq with h | h | h | h | ⟨h, _, _⟩ <;> rw [h] <;> decide
  refine ⟨L, chore_info.assigned_kids.foldl (fun v kid_id =>
      if kid_id ≠ "" then process_chore_state fuel v kid_id chore_id
        ChoreState.pending none now else v)
      (s.modifyChore chore_id (fun c => { c with due_date := some nd })),
    ?_, nd, ?_, hndlt, hndwd, ?_⟩
  · unfold reschedule_next_due_date
    rw [hc]
    dsimp only
    rw [if_neg hguard]
    rw [hdue]
    dsimp only
    rw [if_neg hne]
    rw [hloop]
    dsimp only
    rw [hid]
  · rw [fold_pending_chores_due]
    show (AList.find? (AList.modify s.chores chore_id
      (fun c => { c with due_date := some nd })) chore_id).map Chore.due_date
      = some (some nd)
    rw [AList.find?_modify, if_pos rfl, hc]
    rfl
  · intro kid hmem hne2
    refine kid_chore_state_pending_of_NotListed _ chore_id kid ?_
    refine fold_pending_resets fuel chore_id now chore_info.assigned_kids _
      ?_ kid hmem hne2
    show (AList.find? (AList.modify s.chores chore_id
      (fun c => { c with due_date := some nd })) chore_id).isSome = true
    rw [AList.find?_modify, if_pos rfl, hc]
    rfl

def c6_witness_chore : Chore :=
  { internal_id := "ch", recurring_frequency := FREQUENCY_DAILY,
    due_date := some ⟨⟨2024, 1, 1⟩, 600⟩, assigned_kids := ["a"] }

def c6_witness_state : State :=
  { kids := [("a", {})], chores := [("ch", c6_witness_chore)] }

/-- Witness for claim C6: a daily chore one day overdue for one kid. -/
theorem c6_reschedule_adequacy_witness :
    ∃ loop_fuel t,
      reschedule_next_due_date 1 loop_fuel c6_witness_state "ch"
        ⟨⟨2024, 1, 2⟩, 600⟩ = some t ∧
      ∃ next_due,
        (t.chores.find? "ch").map Chore.due_date = some (some next_due) ∧
        dtLt ⟨⟨2024, 1, 2⟩, 600⟩ next_due = true ∧
        (c6_witness_chore.applicable_days ≠ [] →
          next_due.date.weekdayF ∈ c6_witness_chore.applicable_days) ∧
        ∀ kid_id ∈ c6_witness_chore.assigned_kids, kid_id ≠ "" →
          kid_chore_state t "ch" kid_id = ChoreState.pending :=
  c6_reschedule_adequacy 1 c6_witness_state "ch" ⟨⟨2024, 1, 2⟩, 600⟩
    ⟨⟨2024, 1, 1⟩, 600⟩ c6_witness_chore rfl rfl rfl (by decide) (by decide)
    (by decide) (Or.inl rfl)
